import Mathlib

/-!
Verification development for the sp500 RSI-2 backtesting system.

This file gives a shallow embedding, over exact rationals, of the core
computational components of the repository:

* `indicators.py`     : `compute_rsi` (Wilder smoothing), including the
                        IEEE-754 NaN/Inf behaviour of the final
                        `rs = avg_gains / avg_losses` division, modelled by
                        the `Val` type below;
* `session_clock.py`  : the pure session-time predicates;
* `margin_validator.py`: balance / used / required margin arithmetic;
* `bt_engine.py`      : the bar-level LONG, SHORT and BOTH simulators;
* `tick_backtest_engine.py` : the tick-level LONG and SHORT simulators;
* `bt_reports.py`     : the summary aggregation fields used by the claims.

Timestamps are modelled in the session-local frame: a bar timestamp is a
(trading day, minute-of-day) pair, a tick timestamp is an exact rational
count of minutes since the epoch.  Timezone conversion (`localize_timestamp`)
is the identity in this frame, so `get_trading_date ts` and
`localize_timestamp(ts).date()` are both `ts.day`, exactly as the two
coincide in the source.  Float arithmetic is modelled by exact rationals;
the one place where IEEE special values are observable (division by a zero
average loss in `compute_rsi`) is modelled faithfully by `Val`.
-/

/-- An IEEE-754-style scalar: a finite rational, an infinity, or NaN.
`compute_rsi` produces NaN entries (unset warm-up values) and can divide
by zero, so its result cells live in this type. -/
inductive Val where
  | nan : Val
  | posInf : Val
  | negInf : Val
  | num : ℚ → Val
deriving DecidableEq, Repr

/-- IEEE addition on `Val` (signs of zero ignored, which the programs never
observe). -/
def Val.add : Val → Val → Val
  | Val.nan, _ => Val.nan
  | _, Val.nan => Val.nan
  | Val.posInf, Val.negInf => Val.nan
  | Val.negInf, Val.posInf => Val.nan
  | Val.posInf, _ => Val.posInf
  | _, Val.posInf => Val.posInf
  | Val.negInf, _ => Val.negInf
  | _, Val.negInf => Val.negInf
  | Val.num a, Val.num b => Val.num (a + b)

/-- IEEE subtraction on `Val`. -/
def Val.sub : Val → Val → Val
  | Val.nan, _ => Val.nan
  | _, Val.nan => Val.nan
  | Val.posInf, Val.posInf => Val.nan
  | Val.negInf, Val.negInf => Val.nan
  | Val.posInf, _ => Val.posInf
  | _, Val.posInf => Val.negInf
  | Val.negInf, _ => Val.negInf
  | _, Val.negInf => Val.posInf
  | Val.num a, Val.num b => Val.num (a - b)

/-- IEEE division on `Val`: `x / 0` is `±Inf` for `x ≠ 0` and NaN for
`0 / 0`; `finite / Inf` is `0`; NaN propagates. -/
def Val.div : Val → Val → Val
  | Val.nan, _ => Val.nan
  | _, Val.nan => Val.nan
  | Val.posInf, Val.posInf => Val.nan
  | Val.posInf, Val.negInf => Val.nan
  | Val.negInf, Val.posInf => Val.nan
  | Val.negInf, Val.negInf => Val.nan
  | Val.posInf, Val.num b => if b < 0 then Val.negInf else Val.posInf
  | Val.negInf, Val.num b => if b < 0 then Val.posInf else Val.negInf
  | Val.num _, Val.posInf => Val.num 0
  | Val.num _, Val.negInf => Val.num 0
  | Val.num a, Val.num b =>
      if b = 0 then
        if a = 0 then Val.nan else if 0 < a then Val.posInf else Val.negInf
      else Val.num (a / b)

/-- IEEE comparison `v <= q` against a finite float: false on NaN. -/
def Val.leq (v : Val) (q : ℚ) : Bool :=
  match v with
  | Val.num a => decide (a ≤ q)
  | Val.negInf => true
  | _ => false

/-- IEEE comparison `v > q` against a finite float: false on NaN. -/
def Val.gtq (v : Val) (q : ℚ) : Bool :=
  match v with
  | Val.num a => decide (q < a)
  | Val.posInf => true
  | _ => false

/-- IEEE comparison `v >= q` against a finite float: false on NaN. -/
def Val.geq (v : Val) (q : ℚ) : Bool :=
  match v with
  | Val.num a => decide (q ≤ a)
  | Val.posInf => true
  | _ => false

/-- IEEE comparison `v < q` against a finite float: false on NaN. -/
def Val.ltq (v : Val) (q : ℚ) : Bool :=
  match v with
  | Val.num a => decide (a < q)
  | Val.negInf => true
  | _ => false

/-!
`indicators.compute_rsi` (indicators.py lines 8-62).

`delta = prices.diff()`, `gains = delta.where(delta > 0, 0.0)`,
`losses = -delta.where(delta < 0, 0.0)`.  At index 0 the delta is NaN and
`NaN > 0` / `NaN < 0` are false, so both the gain and the loss at index 0
are the fill value `0.0`.
-/

/-- Gain at index `i`: the positive part of `prices[i] - prices[i-1]`,
`0` at index `0` (NaN delta replaced by the fill value). -/
def gainAt (prices : List ℚ) (i : ℕ) : ℚ :=
  if i = 0 then 0
  else
    match prices[i]?, prices[i-1]? with
    | some p, some q => max (p - q) 0
    | _, _ => 0

/-- Loss at index `i`: the absolute negative part of
`prices[i] - prices[i-1]`, `0` at index `0`. -/
def lossAt (prices : List ℚ) (i : ℕ) : ℚ :=
  if i = 0 then 0
  else
    match prices[i]?, prices[i-1]? with
    | some p, some q => max (q - p) 0
    | _, _ => 0

/-- The Wilder smoothing update (`compute_rsi` lines 53-56):
`new_avg = alpha * current + (1 - alpha) * prev_avg` with
`alpha = 1 / period`. -/
def wilderStep (period : ℕ) (current prev : ℚ) : ℚ :=
  (1 / (period : ℚ)) * current + (1 - 1 / (period : ℚ)) * prev

/-- The seed of the smoothing: the simple mean of the first `period`
values at indices `1..period` (`compute_rsi` lines 45-46). -/
def wilderSeed (period : ℕ) (f : ℕ → ℚ) : ℚ :=
  (((List.range period).map (fun k => f (k + 1))).sum) / (period : ℚ)

/-- Wilder-smoothed average series over a per-index value function:
`none` models a NaN cell.  Cells are set only when
`len >= period + 1` and `period <= i < len`; the cell at `period` is the
seed and every later in-range cell is reached by iterating `wilderStep`
over the values at indices `period+1 .. i` in order — exactly the forward
loop of `compute_rsi` lines 54-56. -/
def wilderAvg (len : ℕ) (period : ℕ) (f : ℕ → ℚ) (i : ℕ) : Option ℚ :=
  if len < period + 1 then none
  else if i < period then none
  else if len ≤ i then none
  else
    some (((List.range (i - period)).foldl
      (fun prev k => wilderStep period (f (period + k + 1)) prev)
      (wilderSeed period f)))

/-- `avg_gains` of compute_rsi. -/
def avgGains (prices : List ℚ) (period : ℕ) (i : ℕ) : Option ℚ :=
  wilderAvg prices.length period (gainAt prices) i

/-- `avg_losses` of compute_rsi. -/
def avgLosses (prices : List ℚ) (period : ℕ) (i : ℕ) : Option ℚ :=
  wilderAvg prices.length period (lossAt prices) i

/-- An `avg` cell as the float value it holds (NaN when unset). -/
def cellVal : Option ℚ → Val
  | none => Val.nan
  | some q => Val.num q

/-- `rs = avg_gains / avg_losses` (compute_rsi line 59), elementwise IEEE
division. -/
def rsAt (prices : List ℚ) (period : ℕ) (i : ℕ) : Val :=
  Val.div (cellVal (avgGains prices period i)) (cellVal (avgLosses prices period i))

/-- `rsi = 100.0 - (100.0 / (1.0 + rs))` (compute_rsi line 60), elementwise
IEEE arithmetic.  A NaN `rs` gives a NaN RSI; an infinite `rs` (positive
average gain over a zero average loss) gives exactly `100`. -/
def rsiAt (prices : List ℚ) (period : ℕ) (i : ℕ) : Val :=
  Val.sub (Val.num 100) (Val.div (Val.num 100) (Val.add (Val.num 1) (rsAt prices period i)))

/-!
`session_clock.SessionClock` (session_clock.py).

In the session-local frame a timestamp is a (day, minute-of-day) pair and
`localize_timestamp` is the identity, so each predicate is a pure function
of the minute-of-day.
-/

/-- A bar timestamp in the session-local frame: trading day index and
minute of that local day. -/
structure Ts where
  day : ℕ
  minute : ℕ
deriving DecidableEq, Repr

/-- A timestamp as an exact count of minutes since the epoch (used to
order timestamps and to take elapsed-time differences, as
`total_seconds()` does up to the fixed factor 60). -/
def Ts.toMinQ (t : Ts) : ℚ :=
  (t.day : ℚ) * 1440 + (t.minute : ℚ)

/-- The session-clock configuration slice of the engine config:
`session_open`/`session_close` as minutes of the local day plus the
no-trade warm-up, and all the strategy/engine fields of
`BacktestEngine.__init__` / `TickBacktestEngine.__init__` that the
simulators read. -/
structure EngineConfig where
  session_open : ℕ
  session_close : ℕ
  no_trade_first_minutes : ℕ
  rsi_period : ℕ
  spread_pts : ℚ
  size_gbp_per_point : ℚ
  long_enabled : Bool
  long_oversold : ℚ
  long_tp : ℚ
  long_sl : ℚ
  long_use_trailing : Bool
  long_trailing_activation : ℚ
  long_trailing_distance : ℚ
  long_force_eod : Bool
  long_max_hold_days : ℕ
  short_enabled : Bool
  short_overbought : ℚ
  short_tp : ℚ
  short_sl : ℚ
  short_use_trailing : Bool
  short_trailing_activation : ℚ
  short_trailing_distance : ℚ
  short_force_eod : Bool
  short_max_hold_days : ℕ
  overnight_funding_rate : ℚ
  off_hours_spread_mult : ℚ
  starting_capital : ℚ
  margin_requirement_pct : ℚ
deriving DecidableEq, Repr

/-- `SessionClock.is_session_open`: `open <= local_time < close`. -/
def is_session_open (cfg : EngineConfig) (minute : ℕ) : Bool :=
  decide (cfg.session_open ≤ minute ∧ minute < cfg.session_close)

/-- `SessionClock.is_entry_allowed`:
`(open + no_trade_first_minutes) <= local_time < close`. -/
def is_entry_allowed (cfg : EngineConfig) (minute : ℕ) : Bool :=
  decide (cfg.session_open + cfg.no_trade_first_minutes ≤ minute ∧ minute < cfg.session_close)

/-- `SessionClock.is_eod_bar`: the next bar would start at or after the
session close. -/
def is_eod_bar (cfg : EngineConfig) (minute : ℕ) (bar_duration_minutes : ℕ) : Bool :=
  decide (cfg.session_close ≤ minute + bar_duration_minutes)

/-!
`margin_validator.MarginValidator` (margin_validator.py).

`__init__` divides the configured percentage by 100; we keep the stored
fraction in the state, as the source does.  `can_open_position` returns a
(bool, reason-string) pair; the string is log text, so the embedding keeps
the boolean.  `calculate_used_margin` reads only `entry_price` from each
open-position dict, so it takes the list of entry prices here.
-/

/-- The `MarginValidator` mutable state. -/
structure MarginValidator where
  starting_capital : ℚ
  margin_requirement_pct : ℚ
  size_gbp_per_point : ℚ
  realized_pnl : ℚ
deriving DecidableEq, Repr

/-- `MarginValidator.__init__` from the config (percentage divided by 100,
realized P&L starts at zero). -/
def MarginValidator.init (cfg : EngineConfig) : MarginValidator :=
  { starting_capital := cfg.starting_capital
    margin_requirement_pct := cfg.margin_requirement_pct / 100
    size_gbp_per_point := cfg.size_gbp_per_point
    realized_pnl := 0 }

/-- `get_account_balance`: starting capital plus realized P&L. -/
def MarginValidator.get_account_balance (v : MarginValidator) : ℚ :=
  v.starting_capital + v.realized_pnl

/-- `calculate_required_margin`: `entry_price * size * margin_fraction`. -/
def MarginValidator.calculate_required_margin (v : MarginValidator) (entry_price : ℚ) : ℚ :=
  entry_price * v.size_gbp_per_point * v.margin_requirement_pct

/-- `calculate_used_margin` over the entry prices of the open positions. -/
def MarginValidator.calculate_used_margin (v : MarginValidator) (open_positions : List ℚ) : ℚ :=
  (open_positions.map (fun entry_price => entry_price * v.size_gbp_per_point * v.margin_requirement_pct)).sum

/-- `can_open_position`: free margin (balance minus used margin) at least
the required margin. -/
def MarginValidator.can_open_position (v : MarginValidator) (entry_price : ℚ)
    (open_positions : List ℚ) : Bool :=
  decide (v.calculate_required_margin entry_price ≤
    v.get_account_balance - v.calculate_used_margin open_positions)

/-- `on_trade_closed`: accumulate realized P&L. -/
def MarginValidator.on_trade_closed (v : MarginValidator) (pnl_gbp : ℚ) : MarginValidator :=
  { v with realized_pnl := v.realized_pnl + pnl_gbp }

/-!
Bar-level data model (`bt_engine.py`).

`load_data` sorts the bars by timestamp; the simulators below take the
resulting ordered bar list.  `filter_session_bars` keeps the in-session
bars and attaches the `entry_allowed` flag; the engine then computes RSI
over the close prices of the filtered frame, which `annotateRows`
reproduces by indexing each filtered bar into `rsiAt` over the filtered
close list.
-/

/-- One OHLCV price bar (`PriceBar`). -/
structure Bar where
  ts : Ts
  open_ : ℚ
  high : ℚ
  low : ℚ
  close : ℚ
  volume : ℚ
deriving DecidableEq, Repr

/-- A processed dataframe row as the simulator loops see it: the bar, its
`entry_allowed` annotation and its RSI cell. -/
structure Row where
  ts : Ts
  open_ : ℚ
  high : ℚ
  low : ℚ
  close : ℚ
  entry_allowed : Bool
  rsi : Val
deriving DecidableEq, Repr

/-- `BacktestEngine.filter_session_bars`: keep bars with
`is_session_open`. -/
def filter_session_bars (cfg : EngineConfig) (bars : List Bar) : List Bar :=
  bars.filter (fun b => is_session_open cfg b.ts.minute)

/-- Session filtering followed by the `entry_allowed` annotation and the
RSI computation over the filtered close prices (`_run_backtest_*` lines
248-255 and their tick-engine counterparts). -/
def annotateRows (cfg : EngineConfig) (bars : List Bar) : List Row :=
  let fb := filter_session_bars cfg bars
  let closes := fb.map (fun b => b.close)
  fb.enum.map (fun ib =>
    { ts := ib.2.ts
      open_ := ib.2.open_
      high := ib.2.high
      low := ib.2.low
      close := ib.2.close
      entry_allowed := is_entry_allowed cfg ib.2.ts.minute
      rsi := rsiAt closes cfg.rsi_period ib.1 })

/-- An emitted trade record.  The two formatted local-time strings of the
source dict are presentation-only and omitted; timestamps are stored as
minutes since the epoch.  `days_held` is rational because the BOTH-mode
bar engine stores a fractional day count there. -/
structure Trade where
  trade_type : String
  datetime_open : ℚ
  entry_price : ℚ
  tp_pts : ℚ
  sl_pts : ℚ
  datetime_close : ℚ
  exit_price : ℚ
  exit_reason : String
  pnl_pts : ℚ
  pnl_pts_gross : ℚ
  overnight_charges : ℚ
  days_held : ℚ
  pnl_gbp : ℚ
  bars_held : ℕ
deriving DecidableEq, Repr

/-- `BacktestEngine._calculate_overnight_charge`:
`(price * annual_rate / 365) * nights`, zero for zero nights. -/
def _calculate_overnight_charge (cfg : EngineConfig) (entry_price : ℚ) (days_held : ℤ) : ℚ :=
  if days_held = 0 then 0
  else entry_price * (cfg.overnight_funding_rate / 365) * (days_held : ℚ)

/-- `BacktestEngine._get_spread_for_time`: the configured spread during
session hours, widened by the off-hours multiplier outside them. -/
def _get_spread_for_time (cfg : EngineConfig) (minute : ℕ) : ℚ :=
  if is_session_open cfg minute then cfg.spread_pts
  else cfg.spread_pts * cfg.off_hours_spread_mult

/-!
`BacktestEngine._run_backtest_long` (bt_engine.py lines 235-443).

The loop body is split into the position-mutation part (`longManage`,
lines 327-339 and 352-387), the exit decision (`longExitDecision`, lines
341-349 and 389-406) and the trade emission (`closeLong`, lines 409-441).
The source checks max-hold before the trailing-stop mutations, but that
check reads only `days_held` (final after line 339) and the bar close, so
evaluating it inside `longExitDecision` on the fully mutated position is
equivalent.  The source also reassigns the loop's `current_date` at line
330 to `localize(ts).date()`, which equals `get_trading_date(ts)` and
hence the value the day-rollover block already established, so that
assignment is a no-op and is not repeated here.
-/

/-- A bar-engine LONG position dict. -/
structure LongPosition where
  entry_price : ℚ
  entry_time : Ts
  entry_date : ℕ
  tp_pts : ℚ
  sl_pts : ℚ
  bars_held : ℕ
  days_held : ℤ
  overnight_charges_pts : ℚ
  highest_bid : ℚ
  trailing_stop_active : Bool
  trailing_sl_level : ℚ
deriving DecidableEq, Repr

/-- The per-bar mutations of an open LONG position: bars-held increment,
overnight-charge accrual on calendar-day boundaries, extremum-bid update
and trailing-stop activation/ratchet. -/
def longManage (cfg : EngineConfig) (row : Row) (p : LongPosition) : LongPosition :=
  let p := { p with bars_held := p.bars_held + 1 }
  let p :=
    if (row.ts.day : ℤ) ≠ (p.entry_date : ℤ) then
      let days_diff : ℤ := (row.ts.day : ℤ) - (p.entry_date : ℤ)
      if p.days_held < days_diff then
        { p with
            overnight_charges_pts := p.overnight_charges_pts +
              _calculate_overnight_charge cfg p.entry_price (days_diff - p.days_held)
            days_held := days_diff }
      else p
    else p
  let current_spread := _get_spread_for_time cfg row.ts.minute
  let bid_high := row.high - current_spread / 2
  let p := if p.highest_bid < bid_high then { p with highest_bid := bid_high } else p
  if cfg.long_use_trailing then
    let p :=
      if p.trailing_stop_active = false ∧
          cfg.long_trailing_activation ≤ p.highest_bid - p.entry_price then
        { p with trailing_stop_active := true }
      else p
    if p.trailing_stop_active = true ∧
        p.trailing_sl_level < p.highest_bid - cfg.long_trailing_distance then
      { p with trailing_sl_level := p.highest_bid - cfg.long_trailing_distance }
    else p
  else
    { p with trailing_sl_level := p.entry_price - cfg.long_sl }

/-- The LONG exit decision over the mutated position: the max-hold check
seeds `exit_price`, the stop-loss / take-profit checks overwrite it
unconditionally (stop before profit), and end-of-day applies only when
nothing else fired. -/
def longExitDecision (cfg : EngineConfig) (row : Row) (p : LongPosition) :
    Option (ℚ × String) :=
  let e0 : Option (ℚ × String) :=
    if 0 < cfg.long_max_hold_days ∧ (cfg.long_max_hold_days : ℤ) ≤ p.days_held then
      some (row.close - cfg.spread_pts / 2, "MAX_HOLD_DAYS")
    else none
  let current_spread := _get_spread_for_time cfg row.ts.minute
  let bid_high := row.high - current_spread / 2
  let bid_low := row.low - current_spread / 2
  let tp_level := p.entry_price + cfg.long_tp
  let e1 :=
    if bid_low ≤ p.trailing_sl_level then
      some (p.trailing_sl_level,
        if cfg.long_use_trailing = true ∧ p.trailing_stop_active = true then "TRAILING_SL"
        else "SL")
    else if tp_level ≤ bid_high then some (tp_level, "TP")
    else e0
  match e1 with
  | some e => some e
  | none =>
      if cfg.long_force_eod = true ∧ is_eod_bar cfg row.ts.minute 30 = true then
        some (row.close - current_spread / 2, "EOD")
      else none

/-- Build the LONG trade dict on exit (bt_engine.py lines 409-435). -/
def closeLong (cfg : EngineConfig) (row : Row) (p : LongPosition)
    (exit_price : ℚ) (exit_reason : String) : Trade :=
  let pnl_pts_gross := exit_price - p.entry_price
  let overnight_charges := p.overnight_charges_pts
  let pnl_pts_net := pnl_pts_gross - overnight_charges
  let pnl_gbp := pnl_pts_net * cfg.size_gbp_per_point
  { trade_type := "LONG"
    datetime_open := p.entry_time.toMinQ
    entry_price := p.entry_price
    tp_pts := p.tp_pts
    sl_pts := p.sl_pts
    datetime_close := row.ts.toMinQ
    exit_price := exit_price
    exit_reason := exit_reason
    pnl_pts := pnl_pts_net
    pnl_pts_gross := pnl_pts_gross
    overnight_charges := overnight_charges
    days_held := (p.days_held : ℚ)
    pnl_gbp := pnl_gbp
    bars_held := p.bars_held }

/-- Mutable state of the `_run_backtest_long` loop. -/
structure LongState where
  seen_oversold : Bool
  position : Option LongPosition
  trades : List Trade
  current_date : Option ℕ
  entry_signal : Bool
  margin : MarginValidator
  trades_blocked_margin : ℕ
deriving DecidableEq, Repr

/-- The exit half of the LONG loop body: mutate the open position, decide
the exit, and on a trigger emit the trade and notify the margin
validator. -/
def longExitPhase (cfg : EngineConfig) (row : Row) (s : LongState) : LongState :=
  match s.position with
  | none => s
  | some p0 =>
      let p := longManage cfg row p0
      match longExitDecision cfg row p with
      | none => { s with position := some p }
      | some er =>
          let t := closeLong cfg row p er.1 er.2
          { s with
              position := none
              trades := s.trades ++ [t]
              margin := s.margin.on_trade_closed t.pnl_gbp }

/-- The LONG position dict created on entry execution (bt_engine.py
lines 307-321). -/
def makeLongPosition (cfg : EngineConfig) (row : Row) (entry_price : ℚ) : LongPosition :=
  { entry_price := entry_price
    entry_time := row.ts
    entry_date := row.ts.day
    tp_pts := cfg.long_tp
    sl_pts := cfg.long_sl
    bars_held := 0
    days_held := 0
    overnight_charges_pts := 0
    highest_bid := entry_price
    trailing_stop_active := false
    trailing_sl_level := entry_price - cfg.long_sl }

def dayResetLong (row : Row) (s : LongState) : LongState :=
  if s.current_date ≠ some row.ts.day then
    { s with
        current_date := some row.ts.day
        seen_oversold := if s.position = none then false else s.seen_oversold
        entry_signal := if s.position = none then false else s.entry_signal }
  else s

/-- One iteration of the `_run_backtest_long` loop over a processed row:
day-rollover latch reset, NaN-RSI skip, oversold latch, signal arming
(exclusive with entry execution), entry at the bar open plus half the
configured spread after the margin gate, then the exit phase. -/
def stepLong (cfg : EngineConfig) (s : LongState) (row : Row) : LongState :=
  let s := dayResetLong row s
  if row.rsi = Val.nan then s
  else
    let s := if row.rsi.leq cfg.long_oversold then { s with seen_oversold := true } else s
    if s.position = none ∧ s.entry_signal = false ∧ s.seen_oversold = true ∧
        row.rsi.gtq cfg.long_oversold = true ∧ row.entry_allowed = true then
      { s with entry_signal := true, seen_oversold := false }
    else if s.entry_signal = true ∧ s.position = none then
      let entry_price := row.open_ + cfg.spread_pts / 2
      if s.margin.can_open_position entry_price [] then
        longExitPhase cfg row
          { s with position := some (makeLongPosition cfg row entry_price), entry_signal := false }
      else
        { s with trades_blocked_margin := s.trades_blocked_margin + 1, entry_signal := false }
    else
      longExitPhase cfg row s

/-- Initial state of a bar-engine run (fresh engine instance). -/
def initLongState (cfg : EngineConfig) : LongState :=
  { seen_oversold := false
    position := none
    trades := []
    current_date := none
    entry_signal := false
    margin := MarginValidator.init cfg
    trades_blocked_margin := 0 }

/-- `BacktestEngine._run_backtest_long` over an ordered bar list,
returning the final loop state (the source returns `state.trades`). -/
def run_backtest_long (cfg : EngineConfig) (bars : List Bar) : LongState :=
  (annotateRows cfg bars).foldl (stepLong cfg) (initLongState cfg)

/-!
`BacktestEngine._run_backtest_short` (bt_engine.py lines 445-645): the
mirrored SHORT machine — overbought latch, signal on a cross below the
threshold, entry at the bar open minus half the spread, ask-side exits,
inverted P&L.
-/

/-- A bar-engine SHORT position dict. -/
structure ShortPosition where
  entry_price : ℚ
  entry_time : Ts
  entry_date : ℕ
  tp_pts : ℚ
  sl_pts : ℚ
  bars_held : ℕ
  days_held : ℤ
  overnight_charges_pts : ℚ
  lowest_ask : ℚ
  trailing_stop_active : Bool
  trailing_sl_level : ℚ
deriving DecidableEq, Repr

/-- The per-bar mutations of an open SHORT position (bt_engine.py lines
536-589): extremum is the lowest ask, the trailing level ratchets
downward only. -/
def shortManage (cfg : EngineConfig) (row : Row) (p : ShortPosition) : ShortPosition :=
  let p := { p with bars_held := p.bars_held + 1 }
  let p :=
    if (row.ts.day : ℤ) ≠ (p.entry_date : ℤ) then
      let days_diff : ℤ := (row.ts.day : ℤ) - (p.entry_date : ℤ)
      if p.days_held < days_diff then
        { p with
            overnight_charges_pts := p.overnight_charges_pts +
              _calculate_overnight_charge cfg p.entry_price (days_diff - p.days_held)
            days_held := days_diff }
      else p
    else p
  let current_spread := _get_spread_for_time cfg row.ts.minute
  let ask_low := row.low + current_spread / 2
  let p := if ask_low < p.lowest_ask then { p with lowest_ask := ask_low } else p
  if cfg.short_use_trailing then
    let p :=
      if p.trailing_stop_active = false ∧
          cfg.short_trailing_activation ≤ p.entry_price - p.lowest_ask then
        { p with trailing_stop_active := true }
      else p
    if p.trailing_stop_active = true ∧
        p.lowest_ask + cfg.short_trailing_distance < p.trailing_sl_level then
      { p with trailing_sl_level := p.lowest_ask + cfg.short_trailing_distance }
    else p
  else
    { p with trailing_sl_level := p.entry_price + cfg.short_sl }

/-- The SHORT exit decision (bt_engine.py lines 548-608), mirroring the
LONG one: max-hold seeds the exit, stop-loss / take-profit overwrite it,
end-of-day fires only when nothing else did. -/
def shortExitDecision (cfg : EngineConfig) (row : Row) (p : ShortPosition) :
    Option (ℚ × String) :=
  let e0 : Option (ℚ × String) :=
    if 0 < cfg.short_max_hold_days ∧ (cfg.short_max_hold_days : ℤ) ≤ p.days_held then
      some (row.close + cfg.spread_pts / 2, "MAX_HOLD_DAYS")
    else none
  let current_spread := _get_spread_for_time cfg row.ts.minute
  let ask_high := row.high + current_spread / 2
  let ask_low := row.low + current_spread / 2
  let tp_level := p.entry_price - cfg.short_tp
  let e1 :=
    if p.trailing_sl_level ≤ ask_high then
      some (p.trailing_sl_level,
        if cfg.short_use_trailing = true ∧ p.trailing_stop_active = true then "TRAILING_SL"
        else "SL")
    else if ask_low ≤ tp_level then some (tp_level, "TP")
    else e0
  match e1 with
  | some e => some e
  | none =>
      if cfg.short_force_eod = true ∧ is_eod_bar cfg row.ts.minute 30 = true then
        some (row.close + current_spread / 2, "EOD")
      else none

/-- Build the SHORT trade dict on exit; gross P&L is inverted
(entry minus exit). -/
def closeShort (cfg : EngineConfig) (row : Row) (p : ShortPosition)
    (exit_price : ℚ) (exit_reason : String) : Trade :=
  let pnl_pts_gross := p.entry_price - exit_price
  let overnight_charges := p.overnight_charges_pts
  let pnl_pts_net := pnl_pts_gross - overnight_charges
  let pnl_gbp := pnl_pts_net * cfg.size_gbp_per_point
  { trade_type := "SHORT"
    datetime_open := p.entry_time.toMinQ
    entry_price := p.entry_price
    tp_pts := p.tp_pts
    sl_pts := p.sl_pts
    datetime_close := row.ts.toMinQ
    exit_price := exit_price
    exit_reason := exit_reason
    pnl_pts := pnl_pts_net
    pnl_pts_gross := pnl_pts_gross
    overnight_charges := overnight_charges
    days_held := (p.days_held : ℚ)
    pnl_gbp := pnl_gbp
    bars_held := p.bars_held }

/-- Mutable state of the `_run_backtest_short` loop. -/
structure ShortState where
  seen_overbought : Bool
  position : Option ShortPosition
  trades : List Trade
  current_date : Option ℕ
  entry_signal : Bool
  margin : MarginValidator
  trades_blocked_margin : ℕ
deriving DecidableEq, Repr

/-- The exit half of the SHORT loop body. -/
def shortExitPhase (cfg : EngineConfig) (row : Row) (s : ShortState) : ShortState :=
  match s.position with
  | none => s
  | some p0 =>
      let p := shortManage cfg row p0
      match shortExitDecision cfg row p with
      | none => { s with position := some p }
      | some er =>
          let t := closeShort cfg row p er.1 er.2
          { s with
              position := none
              trades := s.trades ++ [t]
              margin := s.margin.on_trade_closed t.pnl_gbp }

/-- The SHORT position dict created on entry execution (bt_engine.py
lines 516-530). -/
def makeShortPosition (cfg : EngineConfig) (row : Row) (entry_price : ℚ) : ShortPosition :=
  { entry_price := entry_price
    entry_time := row.ts
    entry_date := row.ts.day
    tp_pts := cfg.short_tp
    sl_pts := cfg.short_sl
    bars_held := 0
    days_held := 0
    overnight_charges_pts := 0
    lowest_ask := entry_price
    trailing_stop_active := false
    trailing_sl_level := entry_price + cfg.short_sl }

def dayResetShort (row : Row) (s : ShortState) : ShortState :=
  if s.current_date ≠ some row.ts.day then
    { s with
        current_date := some row.ts.day
        seen_overbought := if s.position = none then false else s.seen_overbought
        entry_signal := if s.position = none then false else s.entry_signal }
  else s

/-- One iteration of the `_run_backtest_short` loop. -/
def stepShort (cfg : EngineConfig) (s : ShortState) (row : Row) : ShortState :=
  let s := dayResetShort row s
  if row.rsi = Val.nan then s
  else
    let s := if row.rsi.geq cfg.short_overbought then { s with seen_overbought := true } else s
    if s.position = none ∧ s.entry_signal = false ∧ s.seen_overbought = true ∧
        row.rsi.ltq cfg.short_overbought = true ∧ row.entry_allowed = true then
      { s with entry_signal := true, seen_overbought := false }
    else if s.entry_signal = true ∧ s.position = none then
      let entry_price := row.open_ - cfg.spread_pts / 2
      if s.margin.can_open_position entry_price [] then
        shortExitPhase cfg row
          { s with position := some (makeShortPosition cfg row entry_price), entry_signal := false }
      else
        { s with trades_blocked_margin := s.trades_blocked_margin + 1, entry_signal := false }
    else
      shortExitPhase cfg row s

/-- Initial state of a SHORT bar-engine run. -/
def initShortState (cfg : EngineConfig) : ShortState :=
  { seen_overbought := false
    position := none
    trades := []
    current_date := none
    entry_signal := false
    margin := MarginValidator.init cfg
    trades_blocked_margin := 0 }

/-- `BacktestEngine._run_backtest_short` over an ordered bar list. -/
def run_backtest_short (cfg : EngineConfig) (bars : List Bar) : ShortState :=
  (annotateRows cfg bars).foldl (stepShort cfg) (initShortState cfg)

/-!
`BacktestEngine._run_backtest_both` (bt_engine.py lines 647-938): the two
per-side machines interleaved over one scan, LONG before SHORT, sharing
the margin validator; no day-rollover latch reset and no max-hold check;
overnight charges recomputed continuously from the elapsed time since
entry (`days_since_entry = (bar_ts - entry_ts).total_seconds() / 86400`)
rather than accrued per calendar-day boundary.
-/

/-- A BOTH-mode LONG position dict (fractional `days_held`, extremum
seeded from the entry bar's bid). -/
structure BothLongPosition where
  entry_price : ℚ
  entry_time : Ts
  tp_pts : ℚ
  sl_pts : ℚ
  bars_held : ℕ
  highest_bid : ℚ
  trailing_stop_active : Bool
  trailing_sl_level : ℚ
  overnight_charges_pts : ℚ
  days_held : ℚ
deriving DecidableEq, Repr

/-- A BOTH-mode SHORT position dict. -/
structure BothShortPosition where
  entry_price : ℚ
  entry_time : Ts
  tp_pts : ℚ
  sl_pts : ℚ
  bars_held : ℕ
  lowest_ask : ℚ
  trailing_stop_active : Bool
  trailing_sl_level : ℚ
  overnight_charges_pts : ℚ
  days_held : ℚ
deriving DecidableEq, Repr

/-- Mutable state of the `_run_backtest_both` loop. -/
structure BothState where
  trades : List Trade
  long_position : Option BothLongPosition
  short_position : Option BothShortPosition
  seen_oversold : Bool
  seen_overbought : Bool
  long_entry_signal : Bool
  short_entry_signal : Bool
  margin : MarginValidator
  trades_blocked_margin : ℕ
deriving DecidableEq, Repr

/-- The BOTH-mode LONG position dict created on entry (bt_engine.py
lines 719-732); the extremum is seeded from the entry bar's bid. -/
def makeBothLongPosition (cfg : EngineConfig) (row : Row) (entry_price bid : ℚ) :
    BothLongPosition :=
  { entry_price := entry_price
    entry_time := row.ts
    tp_pts := cfg.long_tp
    sl_pts := cfg.long_sl
    bars_held := 0
    highest_bid := bid
    trailing_stop_active := false
    trailing_sl_level := entry_price - cfg.long_sl
    overnight_charges_pts := 0
    days_held := 0 }

/-- BOTH-mode LONG position management (bt_engine.py lines 736-760):
continuous pro-rata overnight recomputation, extremum and trailing
ratchet. -/
def bothLongManage (cfg : EngineConfig) (row : Row) (bid_high : ℚ)
    (p : BothLongPosition) : BothLongPosition :=
  let p := { p with bars_held := p.bars_held + 1 }
  let days_since_entry : ℚ := (row.ts.toMinQ - p.entry_time.toMinQ) * 60 / 86400
  let p := { p with
      days_held := days_since_entry
      overnight_charges_pts :=
        p.entry_price * cfg.overnight_funding_rate * days_since_entry / 365 }
  let p := if p.highest_bid < bid_high then { p with highest_bid := bid_high } else p
  if cfg.long_use_trailing then
    let p :=
      if cfg.long_trailing_activation ≤ p.highest_bid - p.entry_price ∧
          p.trailing_stop_active = false then
        { p with trailing_stop_active := true }
      else p
    if p.trailing_stop_active = true ∧
        p.trailing_sl_level < p.highest_bid - cfg.long_trailing_distance then
      { p with trailing_sl_level := p.highest_bid - cfg.long_trailing_distance }
    else p
  else p

/-- BOTH-mode LONG exit decision (bt_engine.py lines 762-782): stop-loss
(trailing label depends only on the active flag), then take-profit, then
end-of-day; no max-hold check exists in this mode. -/
def bothLongExitDecision (cfg : EngineConfig) (row : Row) (bid_low bid_high current_spread : ℚ)
    (p : BothLongPosition) : Option (ℚ × String) :=
  let tp_level := p.entry_price + cfg.long_tp
  if bid_low ≤ p.trailing_sl_level then
    some (p.trailing_sl_level, if p.trailing_stop_active = true then "TRAILING_SL" else "SL")
  else if tp_level ≤ bid_high then some (tp_level, "TP")
  else if cfg.long_force_eod = true ∧ is_eod_bar cfg row.ts.minute 30 = true then
    some (row.close - current_spread / 2, "EOD")
  else none

/-- Build the BOTH-mode LONG trade dict (bt_engine.py lines 785-812). -/
def closeBothLong (cfg : EngineConfig) (row : Row) (p : BothLongPosition)
    (exit_price : ℚ) (exit_reason : String) : Trade :=
  let pnl_pts_gross := exit_price - p.entry_price
  let overnight_charges := p.overnight_charges_pts
  let pnl_pts_net := pnl_pts_gross - overnight_charges
  let pnl_gbp := pnl_pts_net * cfg.size_gbp_per_point
  { trade_type := "LONG"
    datetime_open := p.entry_time.toMinQ
    entry_price := p.entry_price
    tp_pts := p.tp_pts
    sl_pts := p.sl_pts
    datetime_close := row.ts.toMinQ
    exit_price := exit_price
    exit_reason := exit_reason
    pnl_pts := pnl_pts_net
    pnl_pts_gross := pnl_pts_gross
    overnight_charges := overnight_charges
    days_held := p.days_held
    pnl_gbp := pnl_gbp
    bars_held := p.bars_held }

/-- The BOTH-mode SHORT position dict created on entry (bt_engine.py
lines 841-854). -/
def makeBothShortPosition (cfg : EngineConfig) (row : Row) (entry_price ask : ℚ) :
    BothShortPosition :=
  { entry_price := entry_price
    entry_time := row.ts
    tp_pts := cfg.short_tp
    sl_pts := cfg.short_sl
    bars_held := 0
    lowest_ask := ask
    trailing_stop_active := false
    trailing_sl_level := entry_price + cfg.short_sl
    overnight_charges_pts := 0
    days_held := 0 }

/-- BOTH-mode SHORT position management (bt_engine.py lines 857-882). -/
def bothShortManage (cfg : EngineConfig) (row : Row) (ask_low : ℚ)
    (p : BothShortPosition) : BothShortPosition :=
  let p := { p with bars_held := p.bars_held + 1 }
  let days_since_entry : ℚ := (row.ts.toMinQ - p.entry_time.toMinQ) * 60 / 86400
  let p := { p with
      days_held := days_since_entry
      overnight_charges_pts :=
        p.entry_price * cfg.overnight_funding_rate * days_since_entry / 365 }
  let p := if ask_low < p.lowest_ask then { p with lowest_ask := ask_low } else p
  if cfg.short_use_trailing then
    let p :=
      if cfg.short_trailing_activation ≤ p.entry_price - p.lowest_ask ∧
          p.trailing_stop_active = false then
        { p with trailing_stop_active := true }
      else p
    if p.trailing_stop_active = true ∧
        p.lowest_ask + cfg.short_trailing_distance < p.trailing_sl_level then
      { p with trailing_sl_level := p.lowest_ask + cfg.short_trailing_distance }
    else p
  else p

/-- BOTH-mode SHORT exit decision (bt_engine.py lines 884-904). -/
def bothShortExitDecision (cfg : EngineConfig) (row : Row) (ask_low ask_high current_spread : ℚ)
    (p : BothShortPosition) : Option (ℚ × String) :=
  let tp_level := p.entry_price - cfg.short_tp
  if p.trailing_sl_level ≤ ask_high then
    some (p.trailing_sl_level, if p.trailing_stop_active = true then "TRAILING_SL" else "SL")
  else if ask_low ≤ tp_level then some (tp_level, "TP")
  else if cfg.short_force_eod = true ∧ is_eod_bar cfg row.ts.minute 30 = true then
    some (row.close + current_spread / 2, "EOD")
  else none

/-- Build the BOTH-mode SHORT trade dict (bt_engine.py lines 907-934). -/
def closeBothShort (cfg : EngineConfig) (row : Row) (p : BothShortPosition)
    (exit_price : ℚ) (exit_reason : String) : Trade :=
  let pnl_pts_gross := p.entry_price - exit_price
  let overnight_charges := p.overnight_charges_pts
  let pnl_pts_net := pnl_pts_gross - overnight_charges
  let pnl_gbp := pnl_pts_net * cfg.size_gbp_per_point
  { trade_type := "SHORT"
    datetime_open := p.entry_time.toMinQ
    entry_price := p.entry_price
    tp_pts := p.tp_pts
    sl_pts := p.sl_pts
    datetime_close := row.ts.toMinQ
    exit_price := exit_price
    exit_reason := exit_reason
    pnl_pts := pnl_pts_net
    pnl_pts_gross := pnl_pts_gross
    overnight_charges := overnight_charges
    days_held := p.days_held
    pnl_gbp := pnl_gbp
    bars_held := p.bars_held }

/-- The LONG half of the BOTH-mode loop body (signal, entry gated on the
open SHORT position's margin, management, exit). -/
def bothLongPhase (cfg : EngineConfig) (row : Row)
    (bid ask bid_high bid_low current_spread : ℚ) (s : BothState) : BothState :=
  let s := if row.rsi.leq cfg.long_oversold then { s with seen_oversold := true } else s
  let s :=
    if s.long_position = none ∧ s.long_entry_signal = false ∧ s.seen_oversold = true ∧
        row.rsi.gtq cfg.long_oversold = true ∧ row.entry_allowed = true then
      { s with long_entry_signal := true, seen_oversold := false }
    else if s.long_entry_signal = true ∧ s.long_position = none then
      let entry_price := ask
      let others := match s.short_position with | none => [] | some q => [q.entry_price]
      if s.margin.can_open_position entry_price others then
        { s with
            long_position := some (makeBothLongPosition cfg row entry_price bid)
            long_entry_signal := false }
      else
        { s with trades_blocked_margin := s.trades_blocked_margin + 1,
                 long_entry_signal := false }
    else s
  match s.long_position with
  | none => s
  | some p0 =>
      let p := bothLongManage cfg row bid_high p0
      match bothLongExitDecision cfg row bid_low bid_high current_spread p with
      | none => { s with long_position := some p }
      | some er =>
          let t := closeBothLong cfg row p er.1 er.2
          { s with
              long_position := none
              trades := s.trades ++ [t]
              margin := s.margin.on_trade_closed t.pnl_gbp }

/-- The SHORT half of the BOTH-mode loop body. -/
def bothShortPhase (cfg : EngineConfig) (row : Row)
    (bid ask ask_high ask_low current_spread : ℚ) (s : BothState) : BothState :=
  let s := if row.rsi.geq cfg.short_overbought then { s with seen_overbought := true } else s
  let s :=
    if s.short_position = none ∧ s.short_entry_signal = false ∧ s.seen_overbought = true ∧
        row.rsi.ltq cfg.short_overbought = true ∧ row.entry_allowed = true then
      { s with short_entry_signal := true, seen_overbought := false }
    else if s.short_entry_signal = true ∧ s.short_position = none then
      let entry_price := bid
      let others := match s.long_position with | none => [] | some q => [q.entry_price]
      if s.margin.can_open_position entry_price others then
        { s with
            short_position := some (makeBothShortPosition cfg row entry_price ask)
            short_entry_signal := false }
      else
        { s with trades_blocked_margin := s.trades_blocked_margin + 1,
                 short_entry_signal := false }
    else s
  match s.short_position with
  | none => s
  | some p0 =>
      let p := bothShortManage cfg row ask_low p0
      match bothShortExitDecision cfg row ask_low ask_high current_spread p with
      | none => { s with short_position := some p }
      | some er =>
          let t := closeBothShort cfg row p er.1 er.2
          { s with
              short_position := none
              trades := s.trades ++ [t]
              margin := s.margin.on_trade_closed t.pnl_gbp }

/-- One iteration of the `_run_backtest_both` loop: NaN skip, shared
bid/ask reconstruction, then the LONG side followed by the SHORT side. -/
def stepBoth (cfg : EngineConfig) (s : BothState) (row : Row) : BothState :=
  if row.rsi = Val.nan then s
  else
    let current_spread := _get_spread_for_time cfg row.ts.minute
    let bid := row.open_ - cfg.spread_pts / 2
    let ask := row.open_ + cfg.spread_pts / 2
    let bid_high := row.high - current_spread / 2
    let bid_low := row.low - current_spread / 2
    let ask_high := row.high + current_spread / 2
    let ask_low := row.low + current_spread / 2
    let s := if cfg.long_enabled then bothLongPhase cfg row bid ask bid_high bid_low current_spread s else s
    if cfg.short_enabled then bothShortPhase cfg row bid ask ask_high ask_low current_spread s else s

/-- Initial state of a BOTH-mode run. -/
def initBothState (cfg : EngineConfig) : BothState :=
  { trades := []
    long_position := none
    short_position := none
    seen_oversold := false
    seen_overbought := false
    long_entry_signal := false
    short_entry_signal := false
    margin := MarginValidator.init cfg
    trades_blocked_margin := 0 }

/-- `BacktestEngine._run_backtest_both` over an ordered bar list (final
state; the source returns the trades sorted by entry time). -/
def run_backtest_both (cfg : EngineConfig) (bars : List Bar) : BothState :=
  (annotateRows cfg bars).foldl (stepBoth cfg) (initBothState cfg)

/-!
`TickBacktestEngine` (tick_backtest_engine.py).

A tick is a (timestamp, bid, ask) record; its timestamp is an exact
rational count of minutes since the epoch in the session-local frame.
`get_ticks_for_bar` keeps the ticks in `[bar_start, bar_start + duration)`.
Entry signals come from the candle stream exactly as in the bar engine;
exits walk the ticks of the current bar in order, updating the trailing
stop and checking stop-loss before take-profit after every tick, stopping
at the first trigger.  The driver (`tick_backtest.py`) applies
`filter_session_bars` to the candles before the run, which
`run_tick_backtest_long` reproduces through `annotateRows`.
-/

/-- One tick (`Tick`): timestamp in minutes since the epoch, bid and
ask. -/
structure Tick where
  tmin : ℚ
  bid : ℚ
  ask : ℚ
deriving DecidableEq, Repr

/-- `TickBacktestEngine.get_ticks_for_bar`: the ticks inside the
half-open bar window. -/
def get_ticks_for_bar (ticks : List Tick) (bar_start : Ts)
    (bar_duration_minutes : ℕ) : List Tick :=
  ticks.filter (fun t =>
    decide (bar_start.toMinQ ≤ t.tmin ∧ t.tmin < bar_start.toMinQ + (bar_duration_minutes : ℚ)))

/-- A tick-engine LONG position dict (fixed `tp_level`, mutable
`sl_level`). -/
structure TickLongPosition where
  entry_price : ℚ
  entry_time : Ts
  entry_date : ℕ
  tp_level : ℚ
  sl_level : ℚ
  tp_pts : ℚ
  sl_pts : ℚ
  bars_held : ℕ
  days_held : ℤ
  overnight_charges_pts : ℚ
  highest_bid : ℚ
  trailing_active : Bool
deriving DecidableEq, Repr

/-- The LONG position mutations applied at one tick (tick engine lines
368-381): extremum-bid update, trailing activation and upward-only
trailing ratchet of `sl_level`. -/
def tickUpdateLong (cfg : EngineConfig) (p : TickLongPosition) (t : Tick) : TickLongPosition :=
  let p := if p.highest_bid < t.bid then { p with highest_bid := t.bid } else p
  if cfg.long_use_trailing then
    let p :=
      if cfg.long_trailing_activation ≤ p.highest_bid - p.entry_price ∧
          p.trailing_active = false then
        { p with trailing_active := true }
      else p
    if p.trailing_active = true ∧ p.sl_level < p.highest_bid - cfg.long_trailing_distance then
      { p with sl_level := p.highest_bid - cfg.long_trailing_distance }
    else p
  else p

/-- The per-tick LONG walk (tick_backtest_engine.py lines 364-395):
update the position at the tick, then check stop-loss before
take-profit; stop at the first trigger, returning the mutated position
and the `(exit_price, exit_reason, exit_time)` of the trigger if any. -/
def tickWalkLong (cfg : EngineConfig) (p : TickLongPosition) :
    List Tick → TickLongPosition × Option (ℚ × String × ℚ)
  | [] => (p, none)
  | t :: rest =>
      let p := tickUpdateLong cfg p t
      if t.bid ≤ p.sl_level then
        (p, some (p.sl_level, if p.trailing_active = true then "TRAILING_SL" else "SL", t.tmin))
      else if p.tp_level ≤ t.bid then
        (p, some (p.tp_level, "TP", t.tmin))
      else tickWalkLong cfg p rest

/-- The bars-held increment and calendar-day overnight accrual of the
tick-engine LONG exit phase (tick engine lines 339-349). -/
def tickLongNight (cfg : EngineConfig) (row : Row) (p : TickLongPosition) : TickLongPosition :=
  let p := { p with bars_held := p.bars_held + 1 }
  if (row.ts.day : ℤ) ≠ (p.entry_date : ℤ) then
    let days_diff : ℤ := (row.ts.day : ℤ) - (p.entry_date : ℤ)
    if p.days_held < days_diff then
      { p with
          overnight_charges_pts := p.overnight_charges_pts +
            _calculate_overnight_charge cfg p.entry_price (days_diff - p.days_held)
          days_held := days_diff }
    else p
  else p

/-- The tick-engine LONG per-bar exit resolution (tick_backtest_engine.py
lines 338-406): overnight accrual on calendar-day boundaries, the
max-hold check (which, when it fires, short-circuits the tick walk), the
tick walk, and the end-of-day fallback at the last tick's bid (bar close
when the bar has no ticks). -/
def tickLongManageAndDecide (cfg : EngineConfig) (row : Row) (bar_ticks : List Tick)
    (p : TickLongPosition) : TickLongPosition × Option (ℚ × String × ℚ) :=
  let p := tickLongNight cfg row p
  let pe :=
    if 0 < cfg.long_max_hold_days ∧ (cfg.long_max_hold_days : ℤ) ≤ p.days_held then
      (p, some (row.close, "MAX_HOLD_DAYS", row.ts.toMinQ))
    else tickWalkLong cfg p bar_ticks
  match pe.2 with
  | some e => (pe.1, some e)
  | none =>
      if cfg.long_force_eod = true ∧ is_eod_bar cfg row.ts.minute 30 = true then
        match bar_ticks.getLast? with
        | some t => (pe.1, some (t.bid, "EOD", row.ts.toMinQ))
        | none => (pe.1, some (row.close, "EOD", row.ts.toMinQ))
      else (pe.1, none)

/-- Build the tick-engine LONG trade dict (tick_backtest_engine.py lines
409-432). -/
def closeTickLong (cfg : EngineConfig) (p : TickLongPosition)
    (exit_price : ℚ) (exit_reason : String) (exit_time : ℚ) : Trade :=
  let pnl_pts_gross := exit_price - p.entry_price
  let overnight_charges := p.overnight_charges_pts
  let pnl_pts_net := pnl_pts_gross - overnight_charges
  let pnl_gbp := pnl_pts_net * cfg.size_gbp_per_point
  { trade_type := "LONG"
    datetime_open := p.entry_time.toMinQ
    entry_price := p.entry_price
    tp_pts := p.tp_pts
    sl_pts := p.sl_pts
    datetime_close := exit_time
    exit_price := exit_price
    exit_reason := exit_reason
    pnl_pts := pnl_pts_net
    pnl_pts_gross := pnl_pts_gross
    overnight_charges := overnight_charges
    days_held := (p.days_held : ℚ)
    pnl_gbp := pnl_gbp
    bars_held := p.bars_held }

/-- Mutable state of the `_run_tick_backtest_long` loop. -/
structure TickLongState where
  seen_oversold : Bool
  position : Option TickLongPosition
  trades : List Trade
  current_date : Option ℕ
  entry_signal : Bool
  margin : MarginValidator
  trades_blocked_margin : ℕ
deriving DecidableEq, Repr

/-- The exit half of the tick-engine LONG loop body. -/
def tickLongExitPhase (cfg : EngineConfig) (row : Row) (bar_ticks : List Tick)
    (s : TickLongState) : TickLongState :=
  match s.position with
  | none => s
  | some p0 =>
      let pe := tickLongManageAndDecide cfg row bar_ticks p0
      match pe.2 with
      | none => { s with position := some pe.1 }
      | some er =>
          let t := closeTickLong cfg pe.1 er.1 er.2.1 er.2.2
          { s with
              position := none
              trades := s.trades ++ [t]
              margin := s.margin.on_trade_closed t.pnl_gbp }

/-- The tick-engine LONG entry fill: the first tick's ask inside the
execution bar, or the bar open when the bar has no ticks (tick engine
lines 297-306). -/
def tickEntryLong (ticks : List Tick) (row : Row) : ℚ :=
  match (get_ticks_for_bar ticks row.ts 30).head? with
  | none => row.open_
  | some t => t.ask

/-- The LONG position dict created on tick-engine entry execution
(tick_backtest_engine.py lines 316-331). -/
def makeTickLongPosition (cfg : EngineConfig) (row : Row) (entry_price : ℚ) : TickLongPosition :=
  { entry_price := entry_price
    entry_time := row.ts
    entry_date := row.ts.day
    tp_level := entry_price + cfg.long_tp
    sl_level := entry_price - cfg.long_sl
    tp_pts := cfg.long_tp
    sl_pts := cfg.long_sl
    bars_held := 0
    days_held := 0
    overnight_charges_pts := 0
    highest_bid := entry_price
    trailing_active := false }

def dayResetTickLong (row : Row) (s : TickLongState) : TickLongState :=
  if s.current_date ≠ some row.ts.day then
    { s with
        current_date := some row.ts.day
        seen_oversold := if s.position = none then false else s.seen_oversold
        entry_signal := if s.position = none then false else s.entry_signal }
  else s

/-- One iteration of the `_run_tick_backtest_long` loop (tick engine
lines 267-442): identical signal logic to the bar engine; entry at the
first tick's ask inside the execution bar, falling back to the bar open
when the bar has no ticks. -/
def stepTickLong (cfg : EngineConfig) (ticks : List Tick) (s : TickLongState)
    (row : Row) : TickLongState :=
  let s := dayResetTickLong row s
  if row.rsi = Val.nan then s
  else
    let s := if row.rsi.leq cfg.long_oversold then { s with seen_oversold := true } else s
    if s.position = none ∧ s.entry_signal = false ∧ s.seen_oversold = true ∧
        row.rsi.gtq cfg.long_oversold = true ∧ row.entry_allowed = true then
      { s with entry_signal := true, seen_oversold := false }
    else if s.entry_signal = true ∧ s.position = none then
      let bar_ticks := get_ticks_for_bar ticks row.ts 30
      let entry_price := tickEntryLong ticks row
      if s.margin.can_open_position entry_price [] then
        tickLongExitPhase cfg row bar_ticks
          { s with position := some (makeTickLongPosition cfg row entry_price),
                   entry_signal := false }
      else
        { s with trades_blocked_margin := s.trades_blocked_margin + 1, entry_signal := false }
    else
      tickLongExitPhase cfg row (get_ticks_for_bar ticks row.ts 30) s

/-- Initial state of a tick-engine LONG run. -/
def initTickLongState (cfg : EngineConfig) : TickLongState :=
  { seen_oversold := false
    position := none
    trades := []
    current_date := none
    entry_signal := false
    margin := MarginValidator.init cfg
    trades_blocked_margin := 0 }

/-- `TickBacktestEngine._run_tick_backtest_long` over the tick list and
the ordered candle list. -/
def run_tick_backtest_long (cfg : EngineConfig) (ticks : List Tick)
    (candles : List Bar) : TickLongState :=
  (annotateRows cfg candles).foldl (stepTickLong cfg ticks) (initTickLongState cfg)

/-- A tick-engine SHORT position dict. -/
structure TickShortPosition where
  entry_price : ℚ
  entry_time : Ts
  entry_date : ℕ
  tp_level : ℚ
  sl_level : ℚ
  tp_pts : ℚ
  sl_pts : ℚ
  bars_held : ℕ
  days_held : ℤ
  overnight_charges_pts : ℚ
  lowest_ask : ℚ
  trailing_active : Bool
deriving DecidableEq, Repr

/-- The SHORT position mutations applied at one tick (tick engine lines
577-590): lowest-ask extremum, trailing activation and downward-only
ratchet. -/
def tickUpdateShort (cfg : EngineConfig) (p : TickShortPosition) (t : Tick) : TickShortPosition :=
  let p := if t.ask < p.lowest_ask then { p with lowest_ask := t.ask } else p
  if cfg.short_use_trailing then
    let p :=
      if cfg.short_trailing_activation ≤ p.entry_price - p.lowest_ask ∧
          p.trailing_active = false then
        { p with trailing_active := true }
      else p
    if p.trailing_active = true ∧ p.lowest_ask + cfg.short_trailing_distance < p.sl_level then
      { p with sl_level := p.lowest_ask + cfg.short_trailing_distance }
    else p
  else p

/-- The per-tick SHORT walk (tick_backtest_engine.py lines 573-604),
mirrored: stop-loss before take-profit at every tick. -/
def tickWalkShort (cfg : EngineConfig) (p : TickShortPosition) :
    List Tick → TickShortPosition × Option (ℚ × String × ℚ)
  | [] => (p, none)
  | t :: rest =>
      let p := tickUpdateShort cfg p t
      if p.sl_level ≤ t.ask then
        (p, some (p.sl_level, if p.trailing_active = true then "TRAILING_SL" else "SL", t.tmin))
      else if t.ask ≤ p.tp_level then
        (p, some (p.tp_level, "TP", t.tmin))
      else tickWalkShort cfg p rest

/-- The bars-held increment and calendar-day overnight accrual of the
tick-engine SHORT exit phase. -/
def tickShortNight (cfg : EngineConfig) (row : Row) (p : TickShortPosition) : TickShortPosition :=
  let p := { p with bars_held := p.bars_held + 1 }
  if (row.ts.day : ℤ) ≠ (p.entry_date : ℤ) then
    let days_diff : ℤ := (row.ts.day : ℤ) - (p.entry_date : ℤ)
    if p.days_held < days_diff then
      { p with
          overnight_charges_pts := p.overnight_charges_pts +
            _calculate_overnight_charge cfg p.entry_price (days_diff - p.days_held)
          days_held := days_diff }
    else p
  else p

/-- The tick-engine SHORT per-bar exit resolution (lines 547-615). -/
def tickShortManageAndDecide (cfg : EngineConfig) (row : Row) (bar_ticks : List Tick)
    (p : TickShortPosition) : TickShortPosition × Option (ℚ × String × ℚ) :=
  let p := tickShortNight cfg row p
  let pe :=
    if 0 < cfg.short_max_hold_days ∧ (cfg.short_max_hold_days : ℤ) ≤ p.days_held then
      (p, some (row.close, "MAX_HOLD_DAYS", row.ts.toMinQ))
    else tickWalkShort cfg p bar_ticks
  match pe.2 with
  | some e => (pe.1, some e)
  | none =>
      if cfg.short_force_eod = true ∧ is_eod_bar cfg row.ts.minute 30 = true then
        match bar_ticks.getLast? with
        | some t => (pe.1, some (t.ask, "EOD", row.ts.toMinQ))
        | none => (pe.1, some (row.close, "EOD", row.ts.toMinQ))
      else (pe.1, none)

/-- Build the tick-engine SHORT trade dict (inverted gross P&L). -/
def closeTickShort (cfg : EngineConfig) (p : TickShortPosition)
    (exit_price : ℚ) (exit_reason : String) (exit_time : ℚ) : Trade :=
  let pnl_pts_gross := p.entry_price - exit_price
  let overnight_charges := p.overnight_charges_pts
  let pnl_pts_net := pnl_pts_gross - overnight_charges
  let pnl_gbp := pnl_pts_net * cfg.size_gbp_per_point
  { trade_type := "SHORT"
    datetime_open := p.entry_time.toMinQ
    entry_price := p.entry_price
    tp_pts := p.tp_pts
    sl_pts := p.sl_pts
    datetime_close := exit_time
    exit_price := exit_price
    exit_reason := exit_reason
    pnl_pts := pnl_pts_net
    pnl_pts_gross := pnl_pts_gross
    overnight_charges := overnight_charges
    days_held := (p.days_held : ℚ)
    pnl_gbp := pnl_gbp
    bars_held := p.bars_held }

/-- Mutable state of the `_run_tick_backtest_short` loop. -/
structure TickShortState where
  seen_overbought : Bool
  position : Option TickShortPosition
  trades : List Trade
  current_date : Option ℕ
  entry_signal : Bool
  margin : MarginValidator
  trades_blocked_margin : ℕ
deriving DecidableEq, Repr

/-- The exit half of the tick-engine SHORT loop body. -/
def tickShortExitPhase (cfg : EngineConfig) (row : Row) (bar_ticks : List Tick)
    (s : TickShortState) : TickShortState :=
  match s.position with
  | none => s
  | some p0 =>
      let pe := tickShortManageAndDecide cfg row bar_ticks p0
      match pe.2 with
      | none => { s with position := some pe.1 }
      | some er =>
          let t := closeTickShort cfg pe.1 er.1 er.2.1 er.2.2
          { s with
              position := none
              trades := s.trades ++ [t]
              margin := s.margin.on_trade_closed t.pnl_gbp }

/-- The tick-engine SHORT entry fill: the first tick's bid inside the
execution bar, or the bar open when the bar has no ticks. -/
def tickEntryShort (ticks : List Tick) (row : Row) : ℚ :=
  match (get_ticks_for_bar ticks row.ts 30).head? with
  | none => row.open_
  | some t => t.bid

/-- The SHORT position dict created on tick-engine entry execution
(tick_backtest_engine.py lines 525-540). -/
def makeTickShortPosition (cfg : EngineConfig) (row : Row) (entry_price : ℚ) : TickShortPosition :=
  { entry_price := entry_price
    entry_time := row.ts
    entry_date := row.ts.day
    tp_level := entry_price - cfg.short_tp
    sl_level := entry_price + cfg.short_sl
    tp_pts := cfg.short_tp
    sl_pts := cfg.short_sl
    bars_held := 0
    days_held := 0
    overnight_charges_pts := 0
    lowest_ask := entry_price
    trailing_active := false }

def dayResetTickShort (row : Row) (s : TickShortState) : TickShortState :=
  if s.current_date ≠ some row.ts.day then
    { s with
        current_date := some row.ts.day
        seen_overbought := if s.position = none then false else s.seen_overbought
        entry_signal := if s.position = none then false else s.entry_signal }
  else s

/-- One iteration of the `_run_tick_backtest_short` loop: entry at the
first tick's bid inside the execution bar, bar open as the no-tick
fallback. -/
def stepTickShort (cfg : EngineConfig) (ticks : List Tick) (s : TickShortState)
    (row : Row) : TickShortState :=
  let s := dayResetTickShort row s
  if row.rsi = Val.nan then s
  else
    let s := if row.rsi.geq cfg.short_overbought then { s with seen_overbought := true } else s
    if s.position = none ∧ s.entry_signal = false ∧ s.seen_overbought = true ∧
        row.rsi.ltq cfg.short_overbought = true ∧ row.entry_allowed = true then
      { s with entry_signal := true, seen_overbought := false }
    else if s.entry_signal = true ∧ s.position = none then
      let bar_ticks := get_ticks_for_bar ticks row.ts 30
      let entry_price := tickEntryShort ticks row
      if s.margin.can_open_position entry_price [] then
        tickShortExitPhase cfg row bar_ticks
          { s with position := some (makeTickShortPosition cfg row entry_price),
                   entry_signal := false }
      else
        { s with trades_blocked_margin := s.trades_blocked_margin + 1, entry_signal := false }
    else
      tickShortExitPhase cfg row (get_ticks_for_bar ticks row.ts 30) s

/-- Initial state of a tick-engine SHORT run. -/
def initTickShortState (cfg : EngineConfig) : TickShortState :=
  { seen_overbought := false
    position := none
    trades := []
    current_date := none
    entry_signal := false
    margin := MarginValidator.init cfg
    trades_blocked_margin := 0 }

/-- `TickBacktestEngine._run_tick_backtest_short` over the tick list and
the ordered candle list. -/
def run_tick_backtest_short (cfg : EngineConfig) (ticks : List Tick)
    (candles : List Bar) : TickShortState :=
  (annotateRows cfg candles).foldl (stepTickShort cfg ticks) (initTickShortState cfg)

/-!
`bt_reports.BacktestReporter._generate_summary` (bt_reports.py): the P&L
sums and account-balance fields the claims are about, before the
2-decimal display rounding applied when the summary dict is assembled.
-/

/-- P&L (points) total over the trades with the given exit reason, e.g.
`tp_pnl` / `sl_pnl` / `trailing_sl_pnl` / `eod_pnl` of `_generate_summary`
lines 149-152. -/
def pnlByReason (trades : List Trade) (reason : String) : ℚ :=
  ((trades.filter (fun t => t.exit_reason = reason)).map (fun t => t.pnl_pts)).sum

/-- `total_pts = trades_df['pnl_pts'].sum()`. -/
def totalPts (trades : List Trade) : ℚ :=
  (trades.map (fun t => t.pnl_pts)).sum

/-- `total_gbp = trades_df['pnl_gbp'].sum()`. -/
def totalGbp (trades : List Trade) : ℚ :=
  (trades.map (fun t => t.pnl_gbp)).sum

/-- The per-exit-reason P&L decomposition the report verifies:
`tp_pnl + sl_pnl + trailing_sl_pnl + eod_pnl` (bt_reports.py lines
148-154 and the verification sum at lines 238-240).  Note the four
buckets: no `MAX_HOLD_DAYS` bucket exists. -/
def breakdownPnlSum (trades : List Trade) : ℚ :=
  pnlByReason trades "TP" + pnlByReason trades "SL" +
    pnlByReason trades "TRAILING_SL" + pnlByReason trades "EOD"

/-- The hardcoded `starting_capital = 10000.0` of `_generate_summary`
line 157. -/
def summary_starting_capital : ℚ := 10000

/-- `final_balance = starting_capital + total_gbp` (line 158), with the
hardcoded starting capital. -/
def summary_final_balance (trades : List Trade) : ℚ :=
  summary_starting_capital + totalGbp trades

/-- `return_pct = (total_gbp / starting_capital) * 100` (line 159). -/
def summary_return_pct (trades : List Trade) : ℚ :=
  totalGbp trades / summary_starting_capital * 100

/-- The running `account_balance` of `_generate_equity_curve` after
processing the whole ledger, for a given starting capital. -/
def equity_final_balance (trades : List Trade) (starting_capital : ℚ) : ℚ :=
  trades.foldl (fun acc t => acc + t.pnl_gbp) starting_capital

/-- `generate_reports` calls `_generate_equity_curve(trades_df)` with the
parameter left at its default `10000.0` (bt_reports.py lines 45 and
67). -/
def report_equity_final_balance (trades : List Trade) : ℚ :=
  equity_final_balance trades 10000

/-!
Concrete fixtures used by the claim theorems below: the worked RSI
example of the spec, concrete engine configurations and bar/tick series,
and step-level position/state instances.
-/

/-- The spec's worked RSI example prices. -/
def pricesC1 : List ℚ := [100, 102, 101, 103, 205/2, 104, 103, 105, 104, 106]

/-- The spec's worked margin example: starting capital 10000, margin
fraction 5%, £2 per point, no realized P&L yet. -/
def marginC5 : MarginValidator :=
  { starting_capital := 10000
    margin_requirement_pct := 5 / 100
    size_gbp_per_point := 2
    realized_pnl := 0 }

/-- Bar fixture constructor (volume unused by the engines). -/
def mkBar (d m : ℕ) (o h l c : ℚ) : Bar :=
  { ts := { day := d, minute := m }, open_ := o, high := h, low := l, close := c, volume := 0 }

/-- A long-strategy configuration with the repository's defaults
(session 09:30-16:00 local = minutes 570-960, RSI-2, 0.6-point spread,
TP 40 / SL 100, trailing 25/10, forced end-of-day exit, no max-hold). -/
def cfgC7 : EngineConfig :=
  { session_open := 570, session_close := 960, no_trade_first_minutes := 30,
    rsi_period := 2, spread_pts := 3/5, size_gbp_per_point := 1,
    long_enabled := true, long_oversold := 5, long_tp := 40, long_sl := 100,
    long_use_trailing := true, long_trailing_activation := 25, long_trailing_distance := 10,
    long_force_eod := true, long_max_hold_days := 0,
    short_enabled := false, short_overbought := 96, short_tp := 40, short_sl := 80,
    short_use_trailing := true, short_trailing_activation := 25, short_trailing_distance := 10,
    short_force_eod := false, short_max_hold_days := 0,
    overnight_funding_rate := 35/1000, off_hours_spread_mult := 5/2,
    starting_capital := 10000, margin_requirement_pct := 5 }

/-- Five same-day bars: RSI dips to 0 at the third bar, rebounds at the
fourth (arming the signal), and the fifth bar opens the position and
touches the stop in the very same bar. -/
def barsC7 : List Bar :=
  [ mkBar 0 600 100 (201/2) (199/2) 100,
    mkBar 0 630 99 (199/2) (197/2) 99,
    mkBar 0 660 98 (197/2) (195/2) 98,
    mkBar 0 690 (199/2) 100 99 (199/2),
    mkBar 0 720 100 (201/2) 0 90 ]

/-- As `cfgC7` but with a one-day maximum hold and no forced end-of-day
exit. -/
def cfgC2 : EngineConfig :=
  { session_open := 570, session_close := 960, no_trade_first_minutes := 30,
    rsi_period := 2, spread_pts := 3/5, size_gbp_per_point := 1,
    long_enabled := true, long_oversold := 5, long_tp := 40, long_sl := 100,
    long_use_trailing := true, long_trailing_activation := 25, long_trailing_distance := 10,
    long_force_eod := false, long_max_hold_days := 1,
    short_enabled := false, short_overbought := 96, short_tp := 40, short_sl := 80,
    short_use_trailing := true, short_trailing_activation := 25, short_trailing_distance := 10,
    short_force_eod := false, short_max_hold_days := 0,
    overnight_funding_rate := 35/1000, off_hours_spread_mult := 5/2,
    starting_capital := 10000, margin_requirement_pct := 5 }

/-- Entry on day 0; the day-1 bar both reaches the one-day maximum hold
and touches the stop level inside the bar. -/
def barsC2 : List Bar :=
  [ mkBar 0 600 100 (201/2) (199/2) 100,
    mkBar 0 630 99 (199/2) (197/2) 99,
    mkBar 0 660 98 (197/2) (195/2) 98,
    mkBar 0 690 (199/2) 100 99 (199/2),
    mkBar 0 720 100 (201/2) 100 (501/5),
    mkBar 1 600 (501/5) (201/2) 0 90 ]

/-- Same configuration as `cfgC2` (one-day maximum hold, no forced
end-of-day exit). -/
def cfgC8 : EngineConfig :=
  { session_open := 570, session_close := 960, no_trade_first_minutes := 30,
    rsi_period := 2, spread_pts := 3/5, size_gbp_per_point := 1,
    long_enabled := true, long_oversold := 5, long_tp := 40, long_sl := 100,
    long_use_trailing := true, long_trailing_activation := 25, long_trailing_distance := 10,
    long_force_eod := false, long_max_hold_days := 1,
    short_enabled := false, short_overbought := 96, short_tp := 40, short_sl := 80,
    short_use_trailing := true, short_trailing_activation := 25, short_trailing_distance := 10,
    short_force_eod := false, short_max_hold_days := 0,
    overnight_funding_rate := 35/1000, off_hours_spread_mult := 5/2,
    starting_capital := 10000, margin_requirement_pct := 5 }

/-- Entry on day 0; the day-1 bar triggers only the maximum-hold exit,
with a non-zero net P&L. -/
def barsC8 : List Bar :=
  [ mkBar 0 600 100 (201/2) (199/2) 100,
    mkBar 0 630 99 (199/2) (197/2) 99,
    mkBar 0 660 98 (197/2) (195/2) 98,
    mkBar 0 690 (199/2) 100 99 (199/2),
    mkBar 0 720 100 (201/2) 100 (501/5),
    mkBar 1 600 (501/5) (201/2) 100 (501/5) ]

/-- A BOTH-mode configuration (long side only enabled) whose session
closes at minute 780, making the 750 bar the end-of-day bar. -/
def cfgC4 : EngineConfig :=
  { session_open := 570, session_close := 780, no_trade_first_minutes := 30,
    rsi_period := 2, spread_pts := 3/5, size_gbp_per_point := 1,
    long_enabled := true, long_oversold := 5, long_tp := 40, long_sl := 100,
    long_use_trailing := true, long_trailing_activation := 25, long_trailing_distance := 10,
    long_force_eod := true, long_max_hold_days := 0,
    short_enabled := false, short_overbought := 96, short_tp := 40, short_sl := 80,
    short_use_trailing := true, short_trailing_activation := 25, short_trailing_distance := 10,
    short_force_eod := false, short_max_hold_days := 0,
    overnight_funding_rate := 35/1000, off_hours_spread_mult := 5/2,
    starting_capital := 10000, margin_requirement_pct := 5 }

/-- Six same-day bars: entry at the 720 bar, forced end-of-day exit one
bar later, with no calendar-day boundary in between. -/
def barsC4 : List Bar :=
  [ mkBar 0 600 100 (201/2) (199/2) 100,
    mkBar 0 630 99 (199/2) (197/2) 99,
    mkBar 0 660 98 (197/2) (195/2) 98,
    mkBar 0 690 (199/2) 100 99 (199/2),
    mkBar 0 720 99 (199/2) (197/2) 99,
    mkBar 0 750 99 (199/2) (197/2) 99 ]

/-- Tick-engine configuration: like `cfgC4` (session closes at 780). -/
def cfgT : EngineConfig :=
  { session_open := 570, session_close := 780, no_trade_first_minutes := 30,
    rsi_period := 2, spread_pts := 3/5, size_gbp_per_point := 1,
    long_enabled := true, long_oversold := 5, long_tp := 40, long_sl := 100,
    long_use_trailing := true, long_trailing_activation := 25, long_trailing_distance := 10,
    long_force_eod := true, long_max_hold_days := 0,
    short_enabled := false, short_overbought := 96, short_tp := 40, short_sl := 80,
    short_use_trailing := true, short_trailing_activation := 25, short_trailing_distance := 10,
    short_force_eod := false, short_max_hold_days := 0,
    overnight_funding_rate := 35/1000, off_hours_spread_mult := 5/2,
    starting_capital := 10000, margin_requirement_pct := 5 }

/-- Candles for the tick run: signal armed at the 690 bar, entry inside
the 720 bar, end-of-day exit inside the 750 bar. -/
def candlesT : List Bar :=
  [ mkBar 0 600 100 (201/2) (199/2) 100,
    mkBar 0 630 99 (199/2) (197/2) 99,
    mkBar 0 660 98 (197/2) (195/2) 98,
    mkBar 0 690 (199/2) 100 99 (199/2),
    mkBar 0 720 99 (199/2) (197/2) 99,
    mkBar 0 750 99 (199/2) (197/2) 99 ]

/-- One tick inside the 720 bar (the entry fill) and one inside the 750
bar (the end-of-day fill). -/
def ticksT : List Tick :=
  [ { tmin := 725, bid := 99, ask := 496/5 },
    { tmin := 755, bid := 989/10, ask := 991/10 } ]

/-- A fresh margin validator (capital 10000, 5% stored as 1/20, £1 per
point). -/
def marginW : MarginValidator :=
  { starting_capital := 10000, margin_requirement_pct := 1/20,
    size_gbp_per_point := 1, realized_pnl := 0 }

/-- A day-1 bar row touching the stop level of `pW` (bid low below the
stop): used to exercise the exit-decision statements. -/
def rowW : Row :=
  { ts := { day := 1, minute := 600 }, open_ := 501/5, high := 201/2, low := 0,
    close := 90, entry_allowed := true, rsi := Val.num 50 }

/-- An open LONG bar-engine position entered at 100.3 on day 0 at minute
720, stop seeded 100 points below the entry. -/
def pW : LongPosition :=
  { entry_price := 1003/10, entry_time := { day := 0, minute := 720 }, entry_date := 0,
    tp_pts := 40, sl_pts := 100, bars_held := 1, days_held := 0,
    overnight_charges_pts := 0, highest_bid := 1003/10,
    trailing_stop_active := false, trailing_sl_level := 3/10 }

/-- An open LONG tick-engine position entered at 99.2, already one day
held (for the max-hold statements). -/
def pWtick : TickLongPosition :=
  { entry_price := 496/5, entry_time := { day := 0, minute := 720 }, entry_date := 0,
    tp_level := 696/5, sl_level := -4/5, tp_pts := 40, sl_pts := 100,
    bars_held := 1, days_held := 1, overnight_charges_pts := 0,
    highest_bid := 496/5, trailing_active := false }

/-- A tick whose bid is between the stop and take-profit levels of
`pWtick`. -/
def tickW : Tick := { tmin := 725, bid := 99, ask := 496/5 }

/-- A LONG bar-engine state with a pending entry signal and no open
position. -/
def sArmW : LongState :=
  { seen_oversold := false, position := none, trades := [], current_date := some 0,
    entry_signal := true, margin := marginW, trades_blocked_margin := 0 }

/-- A SHORT bar-engine state with a pending entry signal. -/
def sArmShortW : ShortState :=
  { seen_overbought := false, position := none, trades := [], current_date := some 0,
    entry_signal := true, margin := marginW, trades_blocked_margin := 0 }

/-- A LONG tick-engine state with a pending entry signal. -/
def sArmTickW : TickLongState :=
  { seen_oversold := false, position := none, trades := [], current_date := some 0,
    entry_signal := true, margin := marginW, trades_blocked_margin := 0 }

/-- A SHORT tick-engine state with a pending entry signal. -/
def sArmTickShortW : TickShortState :=
  { seen_overbought := false, position := none, trades := [], current_date := some 0,
    entry_signal := true, margin := marginW, trades_blocked_margin := 0 }

/-- A quiet in-session row: RSI 50, wide bar range around 100, minute
600 of day 0, entries allowed. -/
def rowQuietW : Row :=
  { ts := { day := 0, minute := 600 }, open_ := 100, high := 201/2, low := 199/2,
    close := 100, entry_allowed := true, rsi := Val.num 50 }

/-- A single take-profit trade record. -/
def tradeTP : Trade :=
  { trade_type := "LONG", datetime_open := 720, entry_price := 100,
    tp_pts := 40, sl_pts := 100, datetime_close := 750, exit_price := 140,
    exit_reason := "TP", pnl_pts := 40, pnl_pts_gross := 40, overnight_charges := 0,
    days_held := 0, pnl_gbp := 40, bars_held := 1 }

/-- A row with a high reaching far above `pW`'s take-profit level and a
low staying above its stop. -/
def rowHighW : Row :=
  { ts := { day := 0, minute := 600 }, open_ := 100, high := 150, low := 100,
    close := 100, entry_allowed := true, rsi := Val.num 50 }

/-- `pW` after one full day of holding (for the max-hold statements). -/
def pWmax : LongPosition :=
  { entry_price := 1003/10, entry_time := { day := 0, minute := 720 }, entry_date := 0,
    tp_pts := 40, sl_pts := 100, bars_held := 1, days_held := 1,
    overnight_charges_pts := 0, highest_bid := 1003/10,
    trailing_stop_active := false, trailing_sl_level := 3/10 }

/-- `pWtick` with its stop raised above the bid of `tickW`. -/
def pWtickSL : TickLongPosition :=
  { entry_price := 496/5, entry_time := { day := 0, minute := 720 }, entry_date := 0,
    tp_level := 696/5, sl_level := 100, tp_pts := 40, sl_pts := 100,
    bars_held := 1, days_held := 0, overnight_charges_pts := 0,
    highest_bid := 496/5, trailing_active := false }

/-- `pWtick` with its take-profit level below the bid of `tickW`. -/
def pWtickTP : TickLongPosition :=
  { entry_price := 496/5, entry_time := { day := 0, minute := 720 }, entry_date := 0,
    tp_level := 98, sl_level := -4/5, tp_pts := 40, sl_pts := 100,
    bars_held := 1, days_held := 0, overnight_charges_pts := 0,
    highest_bid := 496/5, trailing_active := false }

/-- The trade produced by `run_backtest_long cfgC2 barsC2`: stop-loss
exit on the day-1 bar, which also satisfied the one-day max-hold
condition. -/
def tradeC2 : Trade :=
  { trade_type := "LONG", datetime_open := 720, entry_price := 1003/10,
    tp_pts := 40, sl_pts := 100, datetime_close := 2040, exit_price := 3/10,
    exit_reason := "SL", pnl_pts := -73007021/730000, pnl_pts_gross := -100,
    overnight_charges := 7021/730000, days_held := 1,
    pnl_gbp := -73007021/730000, bars_held := 2 }

/-- The trade produced by `run_backtest_long cfgC7 barsC7`: entered and
stopped out within the same bar, so its open and close timestamps
coincide. -/
def tradeC7 : Trade :=
  { trade_type := "LONG", datetime_open := 720, entry_price := 1003/10,
    tp_pts := 40, sl_pts := 100, datetime_close := 720, exit_price := 3/10,
    exit_reason := "SL", pnl_pts := -100, pnl_pts_gross := -100,
    overnight_charges := 0, days_held := 0, pnl_gbp := -100, bars_held := 1 }

/-- The trade produced by `run_backtest_long cfgC8 barsC8`: a
MAX_HOLD_DAYS exit with non-zero net P&L. -/
def tradeC8 : Trade :=
  { trade_type := "LONG", datetime_open := 720, entry_price := 1003/10,
    tp_pts := 40, sl_pts := 100, datetime_close := 2040, exit_price := 999/10,
    exit_reason := "MAX_HOLD_DAYS", pnl_pts := -299021/730000, pnl_pts_gross := -2/5,
    overnight_charges := 7021/730000, days_held := 1,
    pnl_gbp := -299021/730000, bars_held := 2 }

/-- The trade produced by `run_backtest_both cfgC4 barsC4`: held for two
same-day bars, yet carrying a positive overnight charge from the
continuous pro-rata accrual. -/
def tradeC4 : Trade :=
  { trade_type := "LONG", datetime_open := 720, entry_price := 993/10,
    tp_pts := 40, sl_pts := 100, datetime_close := 750, exit_price := 987/10,
    exit_reason := "EOD", pnl_pts := -7010317/11680000, pnl_pts_gross := -3/5,
    overnight_charges := 2317/11680000, days_held := 1/48,
    pnl_gbp := -7010317/11680000, bars_held := 2 }

/-- The trade produced by `run_tick_backtest_long cfgT ticksT candlesT`:
entry at the first tick's ask inside the execution bar, end-of-day exit
at the last tick's bid of the closing bar. -/
def tradeT : Trade :=
  { trade_type := "LONG", datetime_open := 720, entry_price := 496/5,
    tp_pts := 40, sl_pts := 100, datetime_close := 750, exit_price := 989/10,
    exit_reason := "EOD", pnl_pts := -3/10, pnl_pts_gross := -3/10,
    overnight_charges := 0, days_held := 0, pnl_gbp := -3/10, bars_held := 2 }

/-!
Helper lemmas: `Val` arithmetic, the Wilder-average equations, and list
sums.
-/

@[simp] theorem Val.num_ne_nan (q : ℚ) : Val.num q ≠ Val.nan := by
  intro h
  exact Val.noConfusion h

theorem Val.div_nan_left (v : Val) : Val.div Val.nan v = Val.nan := by
  cases v <;> rfl

theorem Val.div_nan_right (v : Val) : Val.div v Val.nan = Val.nan := by
  cases v <;> rfl

theorem Val.add_nan_right (v : Val) : Val.add v Val.nan = Val.nan := by
  cases v <;> rfl

theorem Val.sub_nan_right (v : Val) : Val.sub v Val.nan = Val.nan := by
  cases v <;> rfl

theorem wilderAvg_of_lt {len period i : ℕ} (f : ℕ → ℚ) (h : i < period) :
    wilderAvg len period f i = none := by
  simp [wilderAvg, h]

theorem wilderAvg_seed {len period : ℕ} (f : ℕ → ℚ) (h1 : period + 1 ≤ len) :
    wilderAvg len period f period = some (wilderSeed period f) := by
  simp only [wilderAvg]
  rw [if_neg (by omega), if_neg (by omega), if_neg (by omega)]
  simp

theorem wilderAvg_succ {len period i : ℕ} (f : ℕ → ℚ) (h1 : period < i) (h2 : i < len) :
    wilderAvg len period f i =
      Option.map (fun prev => wilderStep period (f i) prev) (wilderAvg len period f (i - 1)) := by
  simp only [wilderAvg]
  rw [if_neg (by omega), if_neg (by omega), if_neg (by omega),
    if_neg (by omega), if_neg (by omega), if_neg (by omega)]
  simp only [Option.map_some']
  congr 1
  have h3 : i - period = (i - 1 - period) + 1 := by omega
  rw [h3, List.range_succ, List.foldl_append, List.foldl_cons, List.foldl_nil]
  have h4 : period + (i - 1 - period) + 1 = i := by omega
  rw [h4]

theorem rsiAt_of_avgGains_none {prices : List ℚ} {period i : ℕ}
    (h : avgGains prices period i = none) : rsiAt prices period i = Val.nan := by
  simp [rsiAt, rsAt, h, cellVal, Val.div_nan_left, Val.div_nan_right, Val.add_nan_right,
    Val.sub_nan_right]

theorem rsiAt_formula {prices : List ℚ} {period i : ℕ} {g l : ℚ}
    (hG : avgGains prices period i = some g) (hg : 0 ≤ g)
    (hL : avgLosses prices period i = some l) (hl : 0 < l) :
    rsiAt prices period i = Val.num (100 - 100 / (1 + g / l)) := by
  have hd : (0 : ℚ) ≤ g / l := div_nonneg hg hl.le
  have h0 : (0 : ℚ) < 1 + g / l := by linarith
  simp [rsiAt, rsAt, hG, hL, cellVal, Val.div, Val.add, Val.sub, hl.ne', h0.ne']

theorem pnlByReason_cons (t : Trade) (l : List Trade) (r : String) :
    pnlByReason (t :: l) r =
      (if t.exit_reason = r then t.pnl_pts else 0) + pnlByReason l r := by
  by_cases h : t.exit_reason = r <;> simp [pnlByReason, h]

theorem totalPts_cons (t : Trade) (l : List Trade) :
    totalPts (t :: l) = t.pnl_pts + totalPts l := by
  simp [totalPts]

theorem equity_foldl_eq (l : List Trade) : ∀ c : ℚ,
    List.foldl (fun acc t => acc + t.pnl_gbp) c l = c + totalGbp l := by
  induction l with
  | nil => intro c; simp [totalGbp]
  | cons t l ih => intro c; simp [totalGbp, ih]; ring

/-!
Claim C1: Wilder RSI.
-/

/-- C1: `compute_rsi` implements Wilder's RSI exactly: the first `period`
cells are unset (NaN); the cell at `period` is seeded with the simple
mean of the first `period` gains/losses (indices `1..period`); every
later in-range cell obeys the recurrence
`avg[i] = (1/N)·x[i] + (1−1/N)·avg[i−1]`; wherever the average loss is
finite and positive, `RSI = 100 − 100/(1 + avg_gain/avg_loss)`; and on
the spec's worked example (period 2) the first valid RSI is at index 2
with `avg_gain = 1`, `avg_loss = 1/2`, `RS = 2`, `RSI = 200/3 ≈ 66.67`. -/
theorem C1_rsi_wilder :
    (∀ (prices : List ℚ) (period i : ℕ), i < period → rsiAt prices period i = Val.nan) ∧
    (∀ (prices : List ℚ) (period : ℕ), period + 1 ≤ prices.length →
      avgGains prices period period = some (wilderSeed period (gainAt prices)) ∧
      avgLosses prices period period = some (wilderSeed period (lossAt prices))) ∧
    (∀ (prices : List ℚ) (period i : ℕ), period < i → i < prices.length →
      avgGains prices period i = Option.map
        (fun prev => (1 / (period : ℚ)) * gainAt prices i + (1 - 1 / (period : ℚ)) * prev)
        (avgGains prices period (i - 1)) ∧
      avgLosses prices period i = Option.map
        (fun prev => (1 / (period : ℚ)) * lossAt prices i + (1 - 1 / (period : ℚ)) * prev)
        (avgLosses prices period (i - 1))) ∧
    (∀ (prices : List ℚ) (period i : ℕ) (g l : ℚ),
      avgGains prices period i = some g → 0 ≤ g →
      avgLosses prices period i = some l → 0 < l →
      rsiAt prices period i = Val.num (100 - 100 / (1 + g / l))) ∧
    avgGains pricesC1 2 2 = some 1 ∧
    avgLosses pricesC1 2 2 = some (1/2) ∧
    rsAt pricesC1 2 2 = Val.num 2 ∧
    rsiAt pricesC1 2 2 = Val.num (200/3) ∧
    rsiAt pricesC1 2 0 = Val.nan ∧
    rsiAt pricesC1 2 1 = Val.nan ∧
    |(200 : ℚ)/3 - 6667/100| < 1/100 := by
  have hG2 : avgGains pricesC1 2 2 = some 1 := by
    norm_num [avgGains, wilderAvg, wilderSeed, wilderStep, gainAt, pricesC1, List.range_succ]
  have hL2 : avgLosses pricesC1 2 2 = some (1/2) := by
    norm_num [avgLosses, wilderAvg, wilderSeed, wilderStep, lossAt, pricesC1, List.range_succ]
  refine ⟨?_, ?_, ?_, ?_, hG2, hL2, ?_, ?_, ?_, ?_, by rw [abs_lt]; norm_num⟩
  · intro prices period i h
    exact rsiAt_of_avgGains_none (by simpa [avgGains] using wilderAvg_of_lt (gainAt prices) h)
  · intro prices period h
    exact ⟨wilderAvg_seed (gainAt prices) h, wilderAvg_seed (lossAt prices) h⟩
  · intro prices period i h1 h2
    constructor
    · simpa [wilderStep] using wilderAvg_succ (gainAt prices) h1 h2
    · simpa [wilderStep] using wilderAvg_succ (lossAt prices) h1 h2
  · intro prices period i g l hG hg hL hl
    exact rsiAt_formula hG hg hL hl
  · rw [rsAt, hG2, hL2]
    norm_num [cellVal, Val.div]
  · rw [rsiAt_formula hG2 (by norm_num) hL2 (by norm_num)]
    norm_num
  · exact rsiAt_of_avgGains_none
      (by simpa [avgGains] using @wilderAvg_of_lt pricesC1.length 2 0 (gainAt pricesC1) (by norm_num))
  · exact rsiAt_of_avgGains_none
      (by simpa [avgGains] using @wilderAvg_of_lt pricesC1.length 2 1 (gainAt pricesC1) (by norm_num))

/-- Witness for C1: the universally quantified parts instantiated on the
worked example, hypotheses discharged concretely. -/
theorem C1_rsi_wilder_witness :
    rsiAt pricesC1 2 1 = Val.nan ∧
    avgGains pricesC1 2 2 = some (wilderSeed 2 (gainAt pricesC1)) ∧
    avgGains pricesC1 2 3 = Option.map
      (fun prev => (1 / (2 : ℚ)) * gainAt pricesC1 3 + (1 - 1 / (2 : ℚ)) * prev)
      (avgGains pricesC1 2 2) ∧
    rsiAt pricesC1 2 2 = Val.num (100 - 100 / (1 + 1 / (1/2))) := by
  refine ⟨C1_rsi_wilder.1 pricesC1 2 1 (by norm_num),
    (C1_rsi_wilder.2.1 pricesC1 2 (by norm_num [pricesC1])).1,
    (C1_rsi_wilder.2.2.1 pricesC1 2 3 (by norm_num) (by norm_num [pricesC1])).1,
    C1_rsi_wilder.2.2.2.1 pricesC1 2 2 1 (1/2)
      C1_rsi_wilder.2.2.2.2.1 (by norm_num) C1_rsi_wilder.2.2.2.2.2.1 (by norm_num)⟩

/-!
Claim C5: margin validation.
-/

/-- C5: `can_open_position` accepts a new entry exactly when
`(starting_capital + realized_pnl) − Σ(other positions' margin)` is at
least `entry_price × size × margin_fraction`; on the spec's worked
example (capital 10000, 5%, £2/pt, entry 16700) the required margin is
£1670, a first entry is accepted, a second entry at the same price with
the first still open is accepted, and the free margin with both open is
£6660. -/
theorem C5_margin_can_open :
    (∀ (v : MarginValidator) (entry_price : ℚ) (others : List ℚ),
      v.can_open_position entry_price others = true ↔
        v.calculate_required_margin entry_price ≤
          v.starting_capital + v.realized_pnl - v.calculate_used_margin others) ∧
    marginC5.calculate_required_margin 16700 = 1670 ∧
    marginC5.can_open_position 16700 [] = true ∧
    marginC5.can_open_position 16700 [16700] = true ∧
    marginC5.get_account_balance - marginC5.calculate_used_margin [16700, 16700] = 6660 := by
  refine ⟨?_, ?_, ?_, ?_, ?_⟩
  · intro v entry_price others
    simp [MarginValidator.can_open_position, MarginValidator.get_account_balance]
  · norm_num [MarginValidator.calculate_required_margin, marginC5]
  · norm_num [MarginValidator.can_open_position, MarginValidator.get_account_balance,
      MarginValidator.calculate_required_margin, MarginValidator.calculate_used_margin, marginC5]
  · norm_num [MarginValidator.can_open_position, MarginValidator.get_account_balance,
      MarginValidator.calculate_required_margin, MarginValidator.calculate_used_margin, marginC5]
  · norm_num [MarginValidator.get_account_balance, MarginValidator.calculate_used_margin, marginC5]

/-!
Claim C9: zero average loss.
-/

/-- C9 counterexample: on flat prices the smoothed average loss at index
2 is zero, yet the RSI there is NaN (from the IEEE `0/0`), not 100 as
the claim states. -/
theorem C9_zero_loss_counterexample :
    avgLosses [100, 100, 100] 2 2 = some 0 ∧
    avgGains [100, 100, 100] 2 2 = some 0 ∧
    rsiAt [100, 100, 100] 2 2 = Val.nan ∧
    Val.nan ≠ Val.num 100 := by
  refine ⟨?_, ?_, ?_, by simp⟩
  · norm_num [avgLosses, wilderAvg, wilderSeed, wilderStep, lossAt, List.range_succ]
  · norm_num [avgGains, wilderAvg, wilderSeed, wilderStep, gainAt, List.range_succ]
  · norm_num [rsiAt, rsAt, avgGains, avgLosses, wilderAvg, wilderSeed, wilderStep, gainAt, lossAt,
      cellVal, Val.div, Val.add, Val.sub, List.range_succ]

/-- C9 amended: when the smoothed average loss is zero, the division is
the IEEE `avg_gain/0`: if the average gain is non-zero the RSI saturates
at exactly 100 (via an infinite RS), and if the average gain is also
zero (flat prices) the RSI is NaN; no exception is raised in either case
(the embedding is total). -/
theorem C9_zero_loss_amended :
    ∀ (prices : List ℚ) (period i : ℕ) (g : ℚ),
      avgLosses prices period i = some 0 →
      avgGains prices period i = some g →
      rsiAt prices period i = (if g = 0 then Val.nan else Val.num 100) := by
  intro prices period i g hL hG
  by_cases hg : g = 0
  · simp [rsiAt, rsAt, hG, hL, cellVal, Val.div, hg, Val.add_nan_right, Val.sub_nan_right]
  · rcases lt_or_gt_of_ne hg with hneg | hpos
    · simp [rsiAt, rsAt, hG, hL, cellVal, Val.div, Val.add, Val.sub, hg, not_lt.2 hneg.le,
        hneg.not_lt]
    · simp [rsiAt, rsAt, hG, hL, cellVal, Val.div, Val.add, Val.sub, hg, hpos]

/-- Witness for C9 amended: on strictly rising prices the average loss is
zero, the average gain is 1, and the RSI is exactly 100. -/
theorem C9_zero_loss_amended_witness :
    avgLosses [100, 101, 102] 2 2 = some 0 ∧
    avgGains [100, 101, 102] 2 2 = some 1 ∧
    rsiAt [100, 101, 102] 2 2 = Val.num 100 := by
  have hL : avgLosses [100, 101, 102] 2 2 = some 0 := by
    norm_num [avgLosses, wilderAvg, wilderSeed, wilderStep, lossAt, List.range_succ]
  have hG : avgGains [100, 101, 102] 2 2 = some 1 := by
    norm_num [avgGains, wilderAvg, wilderSeed, wilderStep, gainAt, List.range_succ]
  refine ⟨hL, hG, ?_⟩
  have := C9_zero_loss_amended [100, 101, 102] 2 2 1 hL hG
  simpa using this

/-!
Claim C10: hardcoded reporting capital.
-/

/-- C10: the summary's account fields are computed from the hardcoded
starting capital 10000, independently of any configured capital: for
every ledger `final_balance = 10000 + Σ pnl_gbp`,
`return_pct = Σ pnl_gbp / 10000 × 100`, and the equity curve built by
`generate_reports` (which leaves the parameter at its default) also ends
at `10000 + Σ pnl_gbp`. -/
theorem C10_hardcoded_capital :
    (∀ trades : List Trade, summary_final_balance trades = 10000 + totalGbp trades) ∧
    (∀ trades : List Trade, summary_return_pct trades = totalGbp trades / 10000 * 100) ∧
    (∀ trades : List Trade, report_equity_final_balance trades = 10000 + totalGbp trades) := by
  refine ⟨?_, ?_, ?_⟩
  · intro trades; rfl
  · intro trades; rfl
  · intro trades
    simp [report_equity_final_balance, equity_final_balance, equity_foldl_eq]

/-!
Claim C8 (amended part): the P&L decomposition identity.
-/

/-- C8 amended: the summary's per-exit-reason breakdown covers only the
TP, SL, TRAILING_SL and EOD buckets, so for every ledger whose exit
reasons lie in the engine's five-reason set, the breakdown sum equals
the total P&L minus the (unreported) MAX_HOLD_DAYS bucket; in particular
the claimed identity holds exactly (hence within 1e-6) precisely on
ledgers whose MAX_HOLD_DAYS P&L is zero, e.g. with no max-hold exits. -/
theorem C8_pnl_decomposition_amended :
    ∀ trades : List Trade,
      (∀ t ∈ trades, t.exit_reason = "TP" ∨ t.exit_reason = "SL" ∨
        t.exit_reason = "TRAILING_SL" ∨ t.exit_reason = "EOD" ∨
        t.exit_reason = "MAX_HOLD_DAYS") →
      breakdownPnlSum trades + pnlByReason trades "MAX_HOLD_DAYS" = totalPts trades := by
  intro trades
  induction trades with
  | nil => intro _; simp [breakdownPnlSum, pnlByReason, totalPts]
  | cons t l ih =>
      intro h
      have ht := h t (List.mem_cons_self t l)
      have hl := ih (fun x hx => h x (List.mem_cons_of_mem t hx))
      simp only [breakdownPnlSum, pnlByReason_cons, totalPts_cons] at *
      rcases ht with h1 | h1 | h1 | h1 | h1 <;> rw [h1] <;> simp <;> linarith

/-- Witness for C8 amended: a singleton TP ledger satisfies the amended
identity. -/
theorem C8_pnl_decomposition_amended_witness :
    breakdownPnlSum [tradeTP] + pnlByReason [tradeTP] "MAX_HOLD_DAYS" = totalPts [tradeTP] := by
  apply C8_pnl_decomposition_amended
  intro t ht
  simp only [List.mem_singleton] at ht
  subst ht
  left
  rfl

/-!
Exit-decision characterisation lemmas (bar LONG and tick LONG).
-/

theorem longExitDecision_sl (cfg : EngineConfig) (row : Row) (p : LongPosition)
    (h : row.low - _get_spread_for_time cfg row.ts.minute / 2 ≤ p.trailing_sl_level) :
    longExitDecision cfg row p = some (p.trailing_sl_level,
      if cfg.long_use_trailing = true ∧ p.trailing_stop_active = true then "TRAILING_SL"
      else "SL") := by
  simp only [longExitDecision]
  rw [if_pos h]

theorem longExitDecision_tp (cfg : EngineConfig) (row : Row) (p : LongPosition)
    (hsl : ¬ row.low - _get_spread_for_time cfg row.ts.minute / 2 ≤ p.trailing_sl_level)
    (htp : p.entry_price + cfg.long_tp ≤ row.high - _get_spread_for_time cfg row.ts.minute / 2) :
    longExitDecision cfg row p = some (p.entry_price + cfg.long_tp, "TP") := by
  simp only [longExitDecision]
  rw [if_neg hsl, if_pos htp]

theorem longExitDecision_max (cfg : EngineConfig) (row : Row) (p : LongPosition)
    (hsl : ¬ row.low - _get_spread_for_time cfg row.ts.minute / 2 ≤ p.trailing_sl_level)
    (htp : ¬ p.entry_price + cfg.long_tp ≤ row.high - _get_spread_for_time cfg row.ts.minute / 2)
    (h1 : 0 < cfg.long_max_hold_days)
    (h2 : (cfg.long_max_hold_days : ℤ) ≤ p.days_held) :
    longExitDecision cfg row p = some (row.close - cfg.spread_pts / 2, "MAX_HOLD_DAYS") := by
  simp only [longExitDecision]
  rw [if_neg hsl, if_neg htp, if_pos ⟨h1, h2⟩]

theorem tickLongNight_days_le (cfg : EngineConfig) (row : Row) (p : TickLongPosition) :
    p.days_held ≤ (tickLongNight cfg row p).days_held := by
  simp only [tickLongNight]
  split_ifs <;> simp <;> omega

theorem tickLongDecide_max (cfg : EngineConfig) (row : Row) (bar_ticks : List Tick)
    (p : TickLongPosition)
    (h1 : 0 < cfg.long_max_hold_days)
    (h2 : (cfg.long_max_hold_days : ℤ) ≤ p.days_held) :
    (tickLongManageAndDecide cfg row bar_ticks p).2 =
      some (row.close, "MAX_HOLD_DAYS", row.ts.toMinQ) := by
  simp only [tickLongManageAndDecide]
  rw [if_pos ⟨h1, le_trans h2 (tickLongNight_days_le cfg row p)⟩]

theorem tickWalkLong_sl_first (cfg : EngineConfig) (p : TickLongPosition) (t : Tick)
    (rest : List Tick)
    (h : t.bid ≤ (tickUpdateLong cfg p t).sl_level) :
    tickWalkLong cfg p (t :: rest) = (tickUpdateLong cfg p t,
      some ((tickUpdateLong cfg p t).sl_level,
        if (tickUpdateLong cfg p t).trailing_active = true then "TRAILING_SL" else "SL",
        t.tmin)) := by
  simp only [tickWalkLong]
  rw [if_pos h]

theorem tickWalkLong_tp_first (cfg : EngineConfig) (p : TickLongPosition) (t : Tick)
    (rest : List Tick)
    (hsl : ¬ t.bid ≤ (tickUpdateLong cfg p t).sl_level)
    (htp : (tickUpdateLong cfg p t).tp_level ≤ t.bid) :
    tickWalkLong cfg p (t :: rest) =
      (tickUpdateLong cfg p t, some ((tickUpdateLong cfg p t).tp_level, "TP", t.tmin)) := by
  simp only [tickWalkLong]
  rw [if_neg hsl, if_pos htp]

/-!
Concrete run evaluations.
-/

set_option maxHeartbeats 1000000 in
theorem annotateC2_eq : annotateRows cfgC2 barsC2 =
    [ { ts := { day := 0, minute := 600 }, open_ := 100, high := 201/2, low := 199/2, close := 100, entry_allowed := true, rsi := Val.nan },
      { ts := { day := 0, minute := 630 }, open_ := 99, high := 199/2, low := 197/2, close := 99, entry_allowed := true, rsi := Val.nan },
      { ts := { day := 0, minute := 660 }, open_ := 98, high := 197/2, low := 195/2, close := 98, entry_allowed := true, rsi := Val.num 0 },
      { ts := { day := 0, minute := 690 }, open_ := 199/2, high := 100, low := 99, close := 199/2, entry_allowed := true, rsi := Val.num 60 },
      { ts := { day := 0, minute := 720 }, open_ := 100, high := 201/2, low := 100, close := 501/5, entry_allowed := true, rsi := Val.num (2900/39) },
      { ts := { day := 1, minute := 600 }, open_ := 501/5, high := 201/2, low := 0, close := 90, entry_allowed := true, rsi := Val.num (2900/447) } ] := by
  norm_num [annotateRows, filter_session_bars, is_session_open, is_entry_allowed, cfgC2, barsC2,
    mkBar, rsiAt, rsAt, avgGains, avgLosses, wilderAvg, wilderSeed, wilderStep, gainAt, lossAt,
    cellVal, Val.div, Val.add, Val.sub, List.range_succ, List.enum, List.enumFrom]

set_option maxHeartbeats 1000000 in
theorem runC2_trades : (run_backtest_long cfgC2 barsC2).trades = [tradeC2] := by
  have h1 : stepLong cfgC2 (initLongState cfgC2)
      { ts := { day := 0, minute := 600 }, open_ := 100, high := 201/2, low := 199/2, close := 100, entry_allowed := true, rsi := Val.nan } =
      { seen_oversold := false, position := none, trades := [], current_date := some 0,
        entry_signal := false, margin := marginW, trades_blocked_margin := 0 } := by
    norm_num [stepLong, dayResetLong, makeLongPosition, initLongState, longExitPhase, MarginValidator.init, cfgC2, marginW]
  have h2 : stepLong cfgC2
      { seen_oversold := false, position := none, trades := [], current_date := some 0,
        entry_signal := false, margin := marginW, trades_blocked_margin := 0 }
      { ts := { day := 0, minute := 630 }, open_ := 99, high := 199/2, low := 197/2, close := 99, entry_allowed := true, rsi := Val.nan } =
      { seen_oversold := false, position := none, trades := [], current_date := some 0,
        entry_signal := false, margin := marginW, trades_blocked_margin := 0 } := by
    norm_num [stepLong, dayResetLong, makeLongPosition, longExitPhase, cfgC2, marginW]
  have h3 : stepLong cfgC2
      { seen_oversold := false, position := none, trades := [], current_date := some 0,
        entry_signal := false, margin := marginW, trades_blocked_margin := 0 }
      { ts := { day := 0, minute := 660 }, open_ := 98, high := 197/2, low := 195/2, close := 98, entry_allowed := true, rsi := Val.num 0 } =
      { seen_oversold := true, position := none, trades := [], current_date := some 0,
        entry_signal := false, margin := marginW, trades_blocked_margin := 0 } := by
    norm_num [stepLong, dayResetLong, makeLongPosition, longExitPhase, Val.leq, Val.gtq, cfgC2, marginW]
  have h4 : stepLong cfgC2
      { seen_oversold := true, position := none, trades := [], current_date := some 0,
        entry_signal := false, margin := marginW, trades_blocked_margin := 0 }
      { ts := { day := 0, minute := 690 }, open_ := 199/2, high := 100, low := 99, close := 199/2, entry_allowed := true, rsi := Val.num 60 } =
      { seen_oversold := false, position := none, trades := [], current_date := some 0,
        entry_signal := true, margin := marginW, trades_blocked_margin := 0 } := by
    norm_num [stepLong, dayResetLong, makeLongPosition, longExitPhase, Val.leq, Val.gtq, cfgC2, marginW]
  have h5 : stepLong cfgC2
      { seen_oversold := false, position := none, trades := [], current_date := some 0,
        entry_signal := true, margin := marginW, trades_blocked_margin := 0 }
      { ts := { day := 0, minute := 720 }, open_ := 100, high := 201/2, low := 100, close := 501/5, entry_allowed := true, rsi := Val.num (2900/39) } =
      { seen_oversold := false,
        position := some
          { entry_price := 1003/10, entry_time := { day := 0, minute := 720 }, entry_date := 0,
            tp_pts := 40, sl_pts := 100, bars_held := 1, days_held := 0,
            overnight_charges_pts := 0, highest_bid := 1003/10,
            trailing_stop_active := false, trailing_sl_level := 3/10 },
        trades := [], current_date := some 0,
        entry_signal := false, margin := marginW, trades_blocked_margin := 0 } := by
    norm_num [stepLong, dayResetLong, makeLongPosition, longExitPhase, longManage, longExitDecision,
      MarginValidator.can_open_position, MarginValidator.get_account_balance,
      MarginValidator.calculate_required_margin, MarginValidator.calculate_used_margin,
      is_session_open, is_eod_bar, _get_spread_for_time, _calculate_overnight_charge,
      Val.leq, Val.gtq, cfgC2, marginW]
  have h6 : stepLong cfgC2
      { seen_oversold := false,
        position := some
          { entry_price := 1003/10, entry_time := { day := 0, minute := 720 }, entry_date := 0,
            tp_pts := 40, sl_pts := 100, bars_held := 1, days_held := 0,
            overnight_charges_pts := 0, highest_bid := 1003/10,
            trailing_stop_active := false, trailing_sl_level := 3/10 },
        trades := [], current_date := some 0,
        entry_signal := false, margin := marginW, trades_blocked_margin := 0 }
      { ts := { day := 1, minute := 600 }, open_ := 501/5, high := 201/2, low := 0, close := 90, entry_allowed := true, rsi := Val.num (2900/447) } =
      { seen_oversold := false, position := none, trades := [tradeC2], current_date := some 1,
        entry_signal := false,
        margin := { starting_capital := 10000, margin_requirement_pct := 1/20,
                    size_gbp_per_point := 1, realized_pnl := -73007021/730000 },
        trades_blocked_margin := 0 } := by
    norm_num [stepLong, dayResetLong, makeLongPosition, longExitPhase, longManage, longExitDecision, closeLong,
      MarginValidator.on_trade_closed, is_session_open, is_eod_bar, _get_spread_for_time,
      _calculate_overnight_charge, Ts.toMinQ, Val.leq, Val.gtq, cfgC2, marginW, tradeC2]
  rw [run_backtest_long, annotateC2_eq]
  simp only [List.foldl_cons, List.foldl_nil]
  rw [h1, h2, h3, h4, h5, h6]

set_option maxHeartbeats 1000000 in
theorem annotateC7_eq : annotateRows cfgC7 barsC7 =
    [ { ts := { day := 0, minute := 600 }, open_ := 100, high := 201/2, low := 199/2, close := 100, entry_allowed := true, rsi := Val.nan },
      { ts := { day := 0, minute := 630 }, open_ := 99, high := 199/2, low := 197/2, close := 99, entry_allowed := true, rsi := Val.nan },
      { ts := { day := 0, minute := 660 }, open_ := 98, high := 197/2, low := 195/2, close := 98, entry_allowed := true, rsi := Val.num 0 },
      { ts := { day := 0, minute := 690 }, open_ := 199/2, high := 100, low := 99, close := 199/2, entry_allowed := true, rsi := Val.num 60 },
      { ts := { day := 0, minute := 720 }, open_ := 100, high := 201/2, low := 0, close := 90, entry_allowed := true, rsi := Val.num (300/43) } ] := by
  norm_num [annotateRows, filter_session_bars, is_session_open, is_entry_allowed, cfgC7, barsC7,
    mkBar, rsiAt, rsAt, avgGains, avgLosses, wilderAvg, wilderSeed, wilderStep, gainAt, lossAt,
    cellVal, Val.div, Val.add, Val.sub, List.range_succ, List.enum, List.enumFrom]

set_option maxHeartbeats 1000000 in
theorem runC7_trades : (run_backtest_long cfgC7 barsC7).trades = [tradeC7] := by
  have h1 : stepLong cfgC7 (initLongState cfgC7)
      { ts := { day := 0, minute := 600 }, open_ := 100, high := 201/2, low := 199/2, close := 100, entry_allowed := true, rsi := Val.nan } =
      { seen_oversold := false, position := none, trades := [], current_date := some 0,
        entry_signal := false, margin := marginW, trades_blocked_margin := 0 } := by
    norm_num [stepLong, dayResetLong, makeLongPosition, initLongState, longExitPhase, MarginValidator.init, cfgC7, marginW]
  have h2 : stepLong cfgC7
      { seen_oversold := false, position := none, trades := [], current_date := some 0,
        entry_signal := false, margin := marginW, trades_blocked_margin := 0 }
      { ts := { day := 0, minute := 630 }, open_ := 99, high := 199/2, low := 197/2, close := 99, entry_allowed := true, rsi := Val.nan } =
      { seen_oversold := false, position := none, trades := [], current_date := some 0,
        entry_signal := false, margin := marginW, trades_blocked_margin := 0 } := by
    norm_num [stepLong, dayResetLong, makeLongPosition, longExitPhase, cfgC7, marginW]
  have h3 : stepLong cfgC7
      { seen_oversold := false, position := none, trades := [], current_date := some 0,
        entry_signal := false, margin := marginW, trades_blocked_margin := 0 }
      { ts := { day := 0, minute := 660 }, open_ := 98, high := 197/2, low := 195/2, close := 98, entry_allowed := true, rsi := Val.num 0 } =
      { seen_oversold := true, position := none, trades := [], current_date := some 0,
        entry_signal := false, margin := marginW, trades_blocked_margin := 0 } := by
    norm_num [stepLong, dayResetLong, makeLongPosition, longExitPhase, Val.leq, Val.gtq, cfgC7, marginW]
  have h4 : stepLong cfgC7
      { seen_oversold := true, position := none, trades := [], current_date := some 0,
        entry_signal := false, margin := marginW, trades_blocked_margin := 0 }
      { ts := { day := 0, minute := 690 }, open_ := 199/2, high := 100, low := 99, close := 199/2, entry_allowed := true, rsi := Val.num 60 } =
      { seen_oversold := false, position := none, trades := [], current_date := some 0,
        entry_signal := true, margin := marginW, trades_blocked_margin := 0 } := by
    norm_num [stepLong, dayResetLong, makeLongPosition, longExitPhase, Val.leq, Val.gtq, cfgC7, marginW]
  have h5 : stepLong cfgC7
      { seen_oversold := false, position := none, trades := [], current_date := some 0,
        entry_signal := true, margin := marginW, trades_blocked_margin := 0 }
      { ts := { day := 0, minute := 720 }, open_ := 100, high := 201/2, low := 0, close := 90, entry_allowed := true, rsi := Val.num (300/43) } =
      { seen_oversold := false, position := none, trades := [tradeC7], current_date := some 0,
        entry_signal := false,
        margin := { starting_capital := 10000, margin_requirement_pct := 1/20,
                    size_gbp_per_point := 1, realized_pnl := -100 },
        trades_blocked_margin := 0 } := by
    norm_num [stepLong, dayResetLong, makeLongPosition, longExitPhase, longManage, longExitDecision, closeLong,
      MarginValidator.can_open_position, MarginValidator.get_account_balance,
      MarginValidator.calculate_required_margin, MarginValidator.calculate_used_margin,
      MarginValidator.on_trade_closed, is_session_open, is_eod_bar, _get_spread_for_time,
      _calculate_overnight_charge, Ts.toMinQ, Val.leq, Val.gtq, cfgC7, marginW, tradeC7]
  rw [run_backtest_long, annotateC7_eq]
  simp only [List.foldl_cons, List.foldl_nil]
  rw [h1, h2, h3, h4, h5]

set_option maxHeartbeats 1000000 in
theorem annotateC8_eq : annotateRows cfgC8 barsC8 =
    [ { ts := { day := 0, minute := 600 }, open_ := 100, high := 201/2, low := 199/2, close := 100, entry_allowed := true, rsi := Val.nan },
      { ts := { day := 0, minute := 630 }, open_ := 99, high := 199/2, low := 197/2, close := 99, entry_allowed := true, rsi := Val.nan },
      { ts := { day := 0, minute := 660 }, open_ := 98, high := 197/2, low := 195/2, close := 98, entry_allowed := true, rsi := Val.num 0 },
      { ts := { day := 0, minute := 690 }, open_ := 199/2, high := 100, low := 99, close := 199/2, entry_allowed := true, rsi := Val.num 60 },
      { ts := { day := 0, minute := 720 }, open_ := 100, high := 201/2, low := 100, close := 501/5, entry_allowed := true, rsi := Val.num (2900/39) },
      { ts := { day := 1, minute := 600 }, open_ := 501/5, high := 201/2, low := 100, close := 501/5, entry_allowed := true, rsi := Val.num (2900/39) } ] := by
  norm_num [annotateRows, filter_session_bars, is_session_open, is_entry_allowed, cfgC8, barsC8,
    mkBar, rsiAt, rsAt, avgGains, avgLosses, wilderAvg, wilderSeed, wilderStep, gainAt, lossAt,
    cellVal, Val.div, Val.add, Val.sub, List.range_succ, List.enum, List.enumFrom]

set_option maxHeartbeats 1000000 in
theorem runC8_trades : (run_backtest_long cfgC8 barsC8).trades = [tradeC8] := by
  have h1 : stepLong cfgC8 (initLongState cfgC8)
      { ts := { day := 0, minute := 600 }, open_ := 100, high := 201/2, low := 199/2, close := 100, entry_allowed := true, rsi := Val.nan } =
      { seen_oversold := false, position := none, trades := [], current_date := some 0,
        entry_signal := false, margin := marginW, trades_blocked_margin := 0 } := by
    norm_num [stepLong, dayResetLong, makeLongPosition, initLongState, longExitPhase, MarginValidator.init, cfgC8, marginW]
  have h2 : stepLong cfgC8
      { seen_oversold := false, position := none, trades := [], current_date := some 0,
        entry_signal := false, margin := marginW, trades_blocked_margin := 0 }
      { ts := { day := 0, minute := 630 }, open_ := 99, high := 199/2, low := 197/2, close := 99, entry_allowed := true, rsi := Val.nan } =
      { seen_oversold := false, position := none, trades := [], current_date := some 0,
        entry_signal := false, margin := marginW, trades_blocked_margin := 0 } := by
    norm_num [stepLong, dayResetLong, makeLongPosition, longExitPhase, cfgC8, marginW]
  have h3 : stepLong cfgC8
      { seen_oversold := false, position := none, trades := [], current_date := some 0,
        entry_signal := false, margin := marginW, trades_blocked_margin := 0 }
      { ts := { day := 0, minute := 660 }, open_ := 98, high := 197/2, low := 195/2, close := 98, entry_allowed := true, rsi := Val.num 0 } =
      { seen_oversold := true, position := none, trades := [], current_date := some 0,
        entry_signal := false, margin := marginW, trades_blocked_margin := 0 } := by
    norm_num [stepLong, dayResetLong, makeLongPosition, longExitPhase, Val.leq, Val.gtq, cfgC8, marginW]
  have h4 : stepLong cfgC8
      { seen_oversold := true, position := none, trades := [], current_date := some 0,
        entry_signal := false, margin := marginW, trades_blocked_margin := 0 }
      { ts := { day := 0, minute := 690 }, open_ := 199/2, high := 100, low := 99, close := 199/2, entry_allowed := true, rsi := Val.num 60 } =
      { seen_oversold := false, position := none, trades := [], current_date := some 0,
        entry_signal := true, margin := marginW, trades_blocked_margin := 0 } := by
    norm_num [stepLong, dayResetLong, makeLongPosition, longExitPhase, Val.leq, Val.gtq, cfgC8, marginW]
  have h5 : stepLong cfgC8
      { seen_oversold := false, position := none, trades := [], current_date := some 0,
        entry_signal := true, margin := marginW, trades_blocked_margin := 0 }
      { ts := { day := 0, minute := 720 }, open_ := 100, high := 201/2, low := 100, close := 501/5, entry_allowed := true, rsi := Val.num (2900/39) } =
      { seen_oversold := false,
        position := some
          { entry_price := 1003/10, entry_time := { day := 0, minute := 720 }, entry_date := 0,
            tp_pts := 40, sl_pts := 100, bars_held := 1, days_held := 0,
            overnight_charges_pts := 0, highest_bid := 1003/10,
            trailing_stop_active := false, trailing_sl_level := 3/10 },
        trades := [], current_date := some 0,
        entry_signal := false, margin := marginW, trades_blocked_margin := 0 } := by
    norm_num [stepLong, dayResetLong, makeLongPosition, longExitPhase, longManage, longExitDecision,
      MarginValidator.can_open_position, MarginValidator.get_account_balance,
      MarginValidator.calculate_required_margin, MarginValidator.calculate_used_margin,
      is_session_open, is_eod_bar, _get_spread_for_time, _calculate_overnight_charge,
      Val.leq, Val.gtq, cfgC8, marginW]
  have h6 : stepLong cfgC8
      { seen_oversold := false,
        position := some
          { entry_price := 1003/10, entry_time := { day := 0, minute := 720 }, entry_date := 0,
            tp_pts := 40, sl_pts := 100, bars_held := 1, days_held := 0,
            overnight_charges_pts := 0, highest_bid := 1003/10,
            trailing_stop_active := false, trailing_sl_level := 3/10 },
        trades := [], current_date := some 0,
        entry_signal := false, margin := marginW, trades_blocked_margin := 0 }
      { ts := { day := 1, minute := 600 }, open_ := 501/5, high := 201/2, low := 100, close := 501/5, entry_allowed := true, rsi := Val.num (2900/39) } =
      { seen_oversold := false, position := none, trades := [tradeC8], current_date := some 1,
        entry_signal := false,
        margin := { starting_capital := 10000, margin_requirement_pct := 1/20,
                    size_gbp_per_point := 1, realized_pnl := -299021/730000 },
        trades_blocked_margin := 0 } := by
    norm_num [stepLong, dayResetLong, makeLongPosition, longExitPhase, longManage, longExitDecision, closeLong,
      MarginValidator.on_trade_closed, is_session_open, is_eod_bar, _get_spread_for_time,
      _calculate_overnight_charge, Ts.toMinQ, Val.leq, Val.gtq, cfgC8, marginW, tradeC8]
  rw [run_backtest_long, annotateC8_eq]
  simp only [List.foldl_cons, List.foldl_nil]
  rw [h1, h2, h3, h4, h5, h6]

set_option maxHeartbeats 1000000 in
theorem annotateC4_eq : annotateRows cfgC4 barsC4 =
    [ { ts := { day := 0, minute := 600 }, open_ := 100, high := 201/2, low := 199/2, close := 100, entry_allowed := true, rsi := Val.nan },
      { ts := { day := 0, minute := 630 }, open_ := 99, high := 199/2, low := 197/2, close := 99, entry_allowed := true, rsi := Val.nan },
      { ts := { day := 0, minute := 660 }, open_ := 98, high := 197/2, low := 195/2, close := 98, entry_allowed := true, rsi := Val.num 0 },
      { ts := { day := 0, minute := 690 }, open_ := 199/2, high := 100, low := 99, close := 199/2, entry_allowed := true, rsi := Val.num 60 },
      { ts := { day := 0, minute := 720 }, open_ := 99, high := 199/2, low := 197/2, close := 99, entry_allowed := true, rsi := Val.num (300/7) },
      { ts := { day := 0, minute := 750 }, open_ := 99, high := 199/2, low := 197/2, close := 99, entry_allowed := true, rsi := Val.num (300/7) } ] := by
  norm_num [annotateRows, filter_session_bars, is_session_open, is_entry_allowed, cfgC4, barsC4,
    mkBar, rsiAt, rsAt, avgGains, avgLosses, wilderAvg, wilderSeed, wilderStep, gainAt, lossAt,
    cellVal, Val.div, Val.add, Val.sub, List.range_succ, List.enum, List.enumFrom]

set_option maxHeartbeats 1000000 in
theorem runC4_trades : (run_backtest_both cfgC4 barsC4).trades = [tradeC4] := by
  have h1 : stepBoth cfgC4 (initBothState cfgC4)
      { ts := { day := 0, minute := 600 }, open_ := 100, high := 201/2, low := 199/2, close := 100, entry_allowed := true, rsi := Val.nan } =
      { trades := [], long_position := none, short_position := none, seen_oversold := false,
        seen_overbought := false, long_entry_signal := false, short_entry_signal := false,
        margin := marginW, trades_blocked_margin := 0 } := by
    norm_num [stepBoth, initBothState, MarginValidator.init, cfgC4, marginW]
  have h2 : stepBoth cfgC4
      { trades := [], long_position := none, short_position := none, seen_oversold := false,
        seen_overbought := false, long_entry_signal := false, short_entry_signal := false,
        margin := marginW, trades_blocked_margin := 0 }
      { ts := { day := 0, minute := 630 }, open_ := 99, high := 199/2, low := 197/2, close := 99, entry_allowed := true, rsi := Val.nan } =
      { trades := [], long_position := none, short_position := none, seen_oversold := false,
        seen_overbought := false, long_entry_signal := false, short_entry_signal := false,
        margin := marginW, trades_blocked_margin := 0 } := by
    norm_num [stepBoth, cfgC4, marginW]
  have h3 : stepBoth cfgC4
      { trades := [], long_position := none, short_position := none, seen_oversold := false,
        seen_overbought := false, long_entry_signal := false, short_entry_signal := false,
        margin := marginW, trades_blocked_margin := 0 }
      { ts := { day := 0, minute := 660 }, open_ := 98, high := 197/2, low := 195/2, close := 98, entry_allowed := true, rsi := Val.num 0 } =
      { trades := [], long_position := none, short_position := none, seen_oversold := true,
        seen_overbought := false, long_entry_signal := false, short_entry_signal := false,
        margin := marginW, trades_blocked_margin := 0 } := by
    norm_num [stepBoth, bothLongPhase, makeBothLongPosition, Val.leq, Val.gtq, _get_spread_for_time, is_session_open,
      cfgC4, marginW]
  have h4 : stepBoth cfgC4
      { trades := [], long_position := none, short_position := none, seen_oversold := true,
        seen_overbought := false, long_entry_signal := false, short_entry_signal := false,
        margin := marginW, trades_blocked_margin := 0 }
      { ts := { day := 0, minute := 690 }, open_ := 199/2, high := 100, low := 99, close := 199/2, entry_allowed := true, rsi := Val.num 60 } =
      { trades := [], long_position := none, short_position := none, seen_oversold := false,
        seen_overbought := false, long_entry_signal := true, short_entry_signal := false,
        margin := marginW, trades_blocked_margin := 0 } := by
    norm_num [stepBoth, bothLongPhase, makeBothLongPosition, Val.leq, Val.gtq, _get_spread_for_time, is_session_open,
      cfgC4, marginW]
  have h5 : stepBoth cfgC4
      { trades := [], long_position := none, short_position := none, seen_oversold := false,
        seen_overbought := false, long_entry_signal := true, short_entry_signal := false,
        margin := marginW, trades_blocked_margin := 0 }
      { ts := { day := 0, minute := 720 }, open_ := 99, high := 199/2, low := 197/2, close := 99, entry_allowed := true, rsi := Val.num (300/7) } =
      { trades := [],
        long_position := some
          { entry_price := 993/10, entry_time := { day := 0, minute := 720 },
            tp_pts := 40, sl_pts := 100, bars_held := 1, highest_bid := 496/5,
            trailing_stop_active := false, trailing_sl_level := -7/10,
            overnight_charges_pts := 0, days_held := 0 },
        short_position := none, seen_oversold := false,
        seen_overbought := false, long_entry_signal := false, short_entry_signal := false,
        margin := marginW, trades_blocked_margin := 0 } := by
    norm_num [stepBoth, bothLongPhase, makeBothLongPosition, bothLongManage, bothLongExitDecision,
      MarginValidator.can_open_position, MarginValidator.get_account_balance,
      MarginValidator.calculate_required_margin, MarginValidator.calculate_used_margin,
      is_session_open, is_eod_bar, _get_spread_for_time, Ts.toMinQ,
      Val.leq, Val.gtq, cfgC4, marginW]
  have h6 : stepBoth cfgC4
      { trades := [],
        long_position := some
          { entry_price := 993/10, entry_time := { day := 0, minute := 720 },
            tp_pts := 40, sl_pts := 100, bars_held := 1, highest_bid := 496/5,
            trailing_stop_active := false, trailing_sl_level := -7/10,
            overnight_charges_pts := 0, days_held := 0 },
        short_position := none, seen_oversold := false,
        seen_overbought := false, long_entry_signal := false, short_entry_signal := false,
        margin := marginW, trades_blocked_margin := 0 }
      { ts := { day := 0, minute := 750 }, open_ := 99, high := 199/2, low := 197/2, close := 99, entry_allowed := true, rsi := Val.num (300/7) } =
      { trades := [tradeC4], long_position := none, short_position := none,
        seen_oversold := false, seen_overbought := false,
        long_entry_signal := false, short_entry_signal := false,
        margin := { starting_capital := 10000, margin_requirement_pct := 1/20,
                    size_gbp_per_point := 1, realized_pnl := -7010317/11680000 },
        trades_blocked_margin := 0 } := by
    norm_num [stepBoth, bothLongPhase, makeBothLongPosition, bothLongManage, bothLongExitDecision, closeBothLong,
      MarginValidator.on_trade_closed, is_session_open, is_eod_bar, _get_spread_for_time,
      Ts.toMinQ, Val.leq, Val.gtq, cfgC4, marginW, tradeC4]
  rw [run_backtest_both, annotateC4_eq]
  simp only [List.foldl_cons, List.foldl_nil]
  rw [h1, h2, h3, h4, h5, h6]

set_option maxHeartbeats 1000000 in
theorem annotateT_eq : annotateRows cfgT candlesT =
    [ { ts := { day := 0, minute := 600 }, open_ := 100, high := 201/2, low := 199/2, close := 100, entry_allowed := true, rsi := Val.nan },
      { ts := { day := 0, minute := 630 }, open_ := 99, high := 199/2, low := 197/2, close := 99, entry_allowed := true, rsi := Val.nan },
      { ts := { day := 0, minute := 660 }, open_ := 98, high := 197/2, low := 195/2, close := 98, entry_allowed := true, rsi := Val.num 0 },
      { ts := { day := 0, minute := 690 }, open_ := 199/2, high := 100, low := 99, close := 199/2, entry_allowed := true, rsi := Val.num 60 },
      { ts := { day := 0, minute := 720 }, open_ := 99, high := 199/2, low := 197/2, close := 99, entry_allowed := true, rsi := Val.num (300/7) },
      { ts := { day := 0, minute := 750 }, open_ := 99, high := 199/2, low := 197/2, close := 99, entry_allowed := true, rsi := Val.num (300/7) } ] := by
  norm_num [annotateRows, filter_session_bars, is_session_open, is_entry_allowed, cfgT, candlesT,
    mkBar, rsiAt, rsAt, avgGains, avgLosses, wilderAvg, wilderSeed, wilderStep, gainAt, lossAt,
    cellVal, Val.div, Val.add, Val.sub, List.range_succ, List.enum, List.enumFrom]

set_option maxHeartbeats 1000000 in
theorem runT_trades : (run_tick_backtest_long cfgT ticksT candlesT).trades = [tradeT] := by
  have h1 : stepTickLong cfgT ticksT (initTickLongState cfgT)
      { ts := { day := 0, minute := 600 }, open_ := 100, high := 201/2, low := 199/2, close := 100, entry_allowed := true, rsi := Val.nan } =
      { seen_oversold := false, position := none, trades := [], current_date := some 0,
        entry_signal := false, margin := marginW, trades_blocked_margin := 0 } := by
    norm_num [stepTickLong, dayResetTickLong, makeTickLongPosition, tickEntryLong, initTickLongState, tickLongExitPhase, MarginValidator.init, cfgT, marginW]
  have h2 : stepTickLong cfgT ticksT
      { seen_oversold := false, position := none, trades := [], current_date := some 0,
        entry_signal := false, margin := marginW, trades_blocked_margin := 0 }
      { ts := { day := 0, minute := 630 }, open_ := 99, high := 199/2, low := 197/2, close := 99, entry_allowed := true, rsi := Val.nan } =
      { seen_oversold := false, position := none, trades := [], current_date := some 0,
        entry_signal := false, margin := marginW, trades_blocked_margin := 0 } := by
    norm_num [stepTickLong, dayResetTickLong, makeTickLongPosition, tickEntryLong, tickLongExitPhase, cfgT, marginW]
  have h3 : stepTickLong cfgT ticksT
      { seen_oversold := false, position := none, trades := [], current_date := some 0,
        entry_signal := false, margin := marginW, trades_blocked_margin := 0 }
      { ts := { day := 0, minute := 660 }, open_ := 98, high := 197/2, low := 195/2, close := 98, entry_allowed := true, rsi := Val.num 0 } =
      { seen_oversold := true, position := none, trades := [], current_date := some 0,
        entry_signal := false, margin := marginW, trades_blocked_margin := 0 } := by
    norm_num [stepTickLong, dayResetTickLong, makeTickLongPosition, tickEntryLong, tickLongExitPhase, Val.leq, Val.gtq, cfgT, marginW]
  have h4 : stepTickLong cfgT ticksT
      { seen_oversold := true, position := none, trades := [], current_date := some 0,
        entry_signal := false, margin := marginW, trades_blocked_margin := 0 }
      { ts := { day := 0, minute := 690 }, open_ := 199/2, high := 100, low := 99, close := 199/2, entry_allowed := true, rsi := Val.num 60 } =
      { seen_oversold := false, position := none, trades := [], current_date := some 0,
        entry_signal := true, margin := marginW, trades_blocked_margin := 0 } := by
    norm_num [stepTickLong, dayResetTickLong, makeTickLongPosition, tickEntryLong, tickLongExitPhase, Val.leq, Val.gtq, cfgT, marginW]
  have h5 : stepTickLong cfgT ticksT
      { seen_oversold := false, position := none, trades := [], current_date := some 0,
        entry_signal := true, margin := marginW, trades_blocked_margin := 0 }
      { ts := { day := 0, minute := 720 }, open_ := 99, high := 199/2, low := 197/2, close := 99, entry_allowed := true, rsi := Val.num (300/7) } =
      { seen_oversold := false,
        position := some
          { entry_price := 496/5, entry_time := { day := 0, minute := 720 }, entry_date := 0,
            tp_level := 696/5, sl_level := -4/5, tp_pts := 40, sl_pts := 100,
            bars_held := 1, days_held := 0, overnight_charges_pts := 0,
            highest_bid := 496/5, trailing_active := false },
        trades := [], current_date := some 0,
        entry_signal := false, margin := marginW, trades_blocked_margin := 0 } := by
    norm_num [stepTickLong, dayResetTickLong, makeTickLongPosition, tickEntryLong, tickLongExitPhase, tickLongNight, tickLongManageAndDecide,
      tickWalkLong, tickUpdateLong, get_ticks_for_bar, ticksT,
      MarginValidator.can_open_position, MarginValidator.get_account_balance,
      MarginValidator.calculate_required_margin, MarginValidator.calculate_used_margin,
      is_eod_bar, Ts.toMinQ, Val.leq, Val.gtq, cfgT, marginW, List.filter]
  have h6 : stepTickLong cfgT ticksT
      { seen_oversold := false,
        position := some
          { entry_price := 496/5, entry_time := { day := 0, minute := 720 }, entry_date := 0,
            tp_level := 696/5, sl_level := -4/5, tp_pts := 40, sl_pts := 100,
            bars_held := 1, days_held := 0, overnight_charges_pts := 0,
            highest_bid := 496/5, trailing_active := false },
        trades := [], current_date := some 0,
        entry_signal := false, margin := marginW, trades_blocked_margin := 0 }
      { ts := { day := 0, minute := 750 }, open_ := 99, high := 199/2, low := 197/2, close := 99, entry_allowed := true, rsi := Val.num (300/7) } =
      { seen_oversold := false, position := none, trades := [tradeT], current_date := some 0,
        entry_signal := false,
        margin := { starting_capital := 10000, margin_requirement_pct := 1/20,
                    size_gbp_per_point := 1, realized_pnl := -3/10 },
        trades_blocked_margin := 0 } := by
    norm_num [stepTickLong, dayResetTickLong, makeTickLongPosition, tickEntryLong, tickLongExitPhase, tickLongNight, tickLongManageAndDecide,
      tickWalkLong, tickUpdateLong, closeTickLong, get_ticks_for_bar, ticksT,
      MarginValidator.on_trade_closed, is_eod_bar, Ts.toMinQ, Val.leq, Val.gtq,
      cfgT, marginW, tradeT, List.filter]
  rw [run_tick_backtest_long, annotateT_eq]
  simp only [List.foldl_cons, List.foldl_nil]
  rw [h1, h2, h3, h4, h5, h6]

/-!
Phase lemmas for the bar-level LONG machine.
-/

theorem dayResetLong_position (row : Row) (s : LongState) :
    (dayResetLong row s).position = s.position := by
  unfold dayResetLong; split <;> rfl

theorem dayResetLong_trades (row : Row) (s : LongState) :
    (dayResetLong row s).trades = s.trades := by
  unfold dayResetLong; split <;> rfl

theorem dayResetLong_signal_true {row : Row} {s : LongState}
    (h : (dayResetLong row s).entry_signal = true) : s.entry_signal = true := by
  unfold dayResetLong at h
  split at h
  · by_cases hp : s.position = none <;> simp [hp] at h <;> exact h
  · exact h

theorem dayResetLong_signal_false {row : Row} {s : LongState}
    (hsig : s.entry_signal = false) : (dayResetLong row s).entry_signal = false := by
  unfold dayResetLong; split <;> simp [hsig]

theorem longExitPhase_none {cfg : EngineConfig} {row : Row} {s : LongState}
    (h : s.position = none) : longExitPhase cfg row s = s := by
  unfold longExitPhase; rw [h]

theorem longExitPhase_position {cfg : EngineConfig} {row : Row} {s : LongState}
    {q : LongPosition} (h : (longExitPhase cfg row s).position = some q) :
    ∃ p0, s.position = some p0 ∧ q = longManage cfg row p0 := by
  rcases hp : s.position with _ | p0
  · rw [longExitPhase_none hp, hp] at h; cases h
  · refine ⟨p0, rfl, ?_⟩
    simp only [longExitPhase, hp] at h
    rcases hd : longExitDecision cfg row (longManage cfg row p0) with _ | er <;> rw [hd] at h <;>
      simp at h
    exact h.symm

theorem longExitPhase_trades {cfg : EngineConfig} {row : Row} {s : LongState} :
    ∀ t ∈ (longExitPhase cfg row s).trades, t ∈ s.trades ∨
      ∃ p0 er, s.position = some p0 ∧
        longExitDecision cfg row (longManage cfg row p0) = some er ∧
        t = closeLong cfg row (longManage cfg row p0) er.1 er.2 := by
  intro t ht
  rcases hp : s.position with _ | p0
  · rw [longExitPhase_none hp] at ht; exact Or.inl ht
  · simp only [longExitPhase, hp] at ht
    rcases hd : longExitDecision cfg row (longManage cfg row p0) with _ | er <;> rw [hd] at ht <;>
      simp at ht
    · exact Or.inl ht
    · rcases ht with h | h
      exacts [Or.inl h, Or.inr ⟨p0, er, rfl, hd, h⟩]

theorem longManage_fields (cfg : EngineConfig) (row : Row) (p : LongPosition) :
    (longManage cfg row p).entry_price = p.entry_price ∧
    (longManage cfg row p).entry_time = p.entry_time ∧
    (longManage cfg row p).entry_date = p.entry_date ∧
    (longManage cfg row p).tp_pts = p.tp_pts ∧
    (longManage cfg row p).sl_pts = p.sl_pts ∧
    (longManage cfg row p).bars_held = p.bars_held + 1 := by
  simp only [longManage]
  split_ifs <;> simp

theorem stepLong_position_src {cfg : EngineConfig} {s : LongState} {row : Row}
    {q : LongPosition} (h : (stepLong cfg s row).position = some q) :
    s.position = some q ∨
    ∃ p0, (s.position = some p0 ∨
        (s.position = none ∧ s.entry_signal = true ∧
          p0 = makeLongPosition cfg row (row.open_ + cfg.spread_pts / 2))) ∧
      q = longManage cfg row p0 := by
  unfold stepLong at h
  by_cases hn : row.rsi = Val.nan
  · rw [if_pos hn, dayResetLong_position] at h
    exact Or.inl h
  · rw [if_neg hn] at h
    simp only [] at h
    set s2 := (if row.rsi.leq cfg.long_oversold = true then
      { dayResetLong row s with seen_oversold := true } else dayResetLong row s) with hs2
    have h2pos : s2.position = s.position := by
      rw [hs2]; split <;> simp [dayResetLong_position]
    have h2sig : s2.entry_signal = true → s.entry_signal = true := by
      rw [hs2]; split <;> intro hx <;>
        exact dayResetLong_signal_true (by simpa using hx)
    by_cases harm : (s2.position = none ∧ s2.entry_signal = false ∧ s2.seen_oversold = true ∧
        row.rsi.gtq cfg.long_oversold = true ∧ row.entry_allowed = true)
    · rw [if_pos harm] at h
      simp at h
      rw [harm.1] at h
      cases h
    · rw [if_neg harm] at h
      by_cases hent : (s2.entry_signal = true ∧ s2.position = none)
      · rw [if_pos hent] at h
        by_cases hm : (s2.margin.can_open_position (row.open_ + cfg.spread_pts / 2) [] = true)
        · rw [if_pos hm] at h
          obtain ⟨p0, hp0, hq⟩ := longExitPhase_position h
          simp at hp0
          exact Or.inr ⟨p0, Or.inr ⟨by rw [← h2pos]; exact hent.2, h2sig hent.1, hp0.symm⟩, hq⟩
        · rw [if_neg hm] at h
          simp at h
          rw [hent.2] at h
          cases h
      · rw [if_neg hent] at h
        obtain ⟨p0, hp0, hq⟩ := longExitPhase_position h
        rw [h2pos] at hp0
        exact Or.inr ⟨p0, Or.inl hp0, hq⟩

theorem stepLong_trades_src {cfg : EngineConfig} {s : LongState} {row : Row} :
    ∀ t ∈ (stepLong cfg s row).trades, t ∈ s.trades ∨
      ∃ p0 er, (s.position = some p0 ∨
          (s.position = none ∧ s.entry_signal = true ∧
            p0 = makeLongPosition cfg row (row.open_ + cfg.spread_pts / 2))) ∧
        longExitDecision cfg row (longManage cfg row p0) = some er ∧
        t = closeLong cfg row (longManage cfg row p0) er.1 er.2 := by
  intro t ht
  unfold stepLong at ht
  by_cases hn : row.rsi = Val.nan
  · rw [if_pos hn, dayResetLong_trades] at ht
    exact Or.inl ht
  · rw [if_neg hn] at ht
    simp only [] at ht
    set s2 := (if row.rsi.leq cfg.long_oversold = true then
      { dayResetLong row s with seen_oversold := true } else dayResetLong row s) with hs2
    have h2pos : s2.position = s.position := by
      rw [hs2]; split <;> simp [dayResetLong_position]
    have h2tr : s2.trades = s.trades := by
      rw [hs2]; split <;> simp [dayResetLong_trades]
    have h2sig : s2.entry_signal = true → s.entry_signal = true := by
      rw [hs2]; split <;> intro hx <;>
        exact dayResetLong_signal_true (by simpa using hx)
    by_cases harm : (s2.position = none ∧ s2.entry_signal = false ∧ s2.seen_oversold = true ∧
        row.rsi.gtq cfg.long_oversold = true ∧ row.entry_allowed = true)
    · rw [if_pos harm] at ht
      simp at ht
      rw [h2tr] at ht
      exact Or.inl ht
    · rw [if_neg harm] at ht
      by_cases hent : (s2.entry_signal = true ∧ s2.position = none)
      · rw [if_pos hent] at ht
        by_cases hm : (s2.margin.can_open_position (row.open_ + cfg.spread_pts / 2) [] = true)
        · rw [if_pos hm] at ht
          rcases longExitPhase_trades t ht with hmem | ⟨p0, er, hp0, hd, heq⟩
          · simp [h2tr] at hmem
            exact Or.inl hmem
          · simp at hp0
            exact Or.inr ⟨p0, er,
              Or.inr ⟨by rw [← h2pos]; exact hent.2, h2sig hent.1, hp0.symm⟩, hd, heq⟩
        · rw [if_neg hm] at ht
          simp [h2tr] at ht
          exact Or.inl ht
      · rw [if_neg hent] at ht
        rcases longExitPhase_trades t ht with hmem | ⟨p0, er, hp0, hd, heq⟩
        · rw [h2tr] at hmem
          exact Or.inl hmem
        · rw [h2pos] at hp0
          exact Or.inr ⟨p0, er, Or.inl hp0, hd, heq⟩

theorem stepLong_no_pending {cfg : EngineConfig} {s : LongState} {row : Row}
    (hpos : s.position = none) (hsig : s.entry_signal = false) :
    (stepLong cfg s row).position = none ∧ (stepLong cfg s row).trades = s.trades := by
  unfold stepLong
  by_cases hn : row.rsi = Val.nan
  · rw [if_pos hn, dayResetLong_position, dayResetLong_trades]
    exact ⟨hpos, rfl⟩
  · rw [if_neg hn]
    simp only []
    set s2 := (if row.rsi.leq cfg.long_oversold = true then
      { dayResetLong row s with seen_oversold := true } else dayResetLong row s) with hs2
    have h2pos : s2.position = none := by
      rw [hs2]; split <;> simp [dayResetLong_position, hpos]
    have h2tr : s2.trades = s.trades := by
      rw [hs2]; split <;> simp [dayResetLong_trades]
    have h2sig : s2.entry_signal = false := by
      rw [hs2]; split <;> simp [dayResetLong_signal_false hsig]
    by_cases harm : (s2.position = none ∧ s2.entry_signal = false ∧ s2.seen_oversold = true ∧
        row.rsi.gtq cfg.long_oversold = true ∧ row.entry_allowed = true)
    · rw [if_pos harm]
      simpa using ⟨h2pos, h2tr⟩
    · rw [if_neg harm]
      have hent : ¬ (s2.entry_signal = true ∧ s2.position = none) := by
        intro hx
        rw [h2sig] at hx
        cases hx.1
      rw [if_neg hent, longExitPhase_none h2pos]
      exact ⟨h2pos, h2tr⟩

/-!
Phase lemmas for the bar-level SHORT machine.
-/

theorem dayResetShort_position (row : Row) (s : ShortState) :
    (dayResetShort row s).position = s.position := by
  unfold dayResetShort; split <;> rfl

theorem dayResetShort_trades (row : Row) (s : ShortState) :
    (dayResetShort row s).trades = s.trades := by
  unfold dayResetShort; split <;> rfl

theorem dayResetShort_signal_true {row : Row} {s : ShortState}
    (h : (dayResetShort row s).entry_signal = true) : s.entry_signal = true := by
  unfold dayResetShort at h
  split at h
  · by_cases hp : s.position = none <;> simp [hp] at h <;> exact h
  · exact h

theorem shortExitPhase_none {cfg : EngineConfig} {row : Row} {s : ShortState}
    (h : s.position = none) : shortExitPhase cfg row s = s := by
  unfold shortExitPhase; rw [h]

theorem shortExitPhase_position {cfg : EngineConfig} {row : Row} {s : ShortState}
    {q : ShortPosition} (h : (shortExitPhase cfg row s).position = some q) :
    ∃ p0, s.position = some p0 ∧ q = shortManage cfg row p0 := by
  rcases hp : s.position with _ | p0
  · rw [shortExitPhase_none hp, hp] at h; cases h
  · refine ⟨p0, rfl, ?_⟩
    simp only [shortExitPhase, hp] at h
    rcases hd : shortExitDecision cfg row (shortManage cfg row p0) with _ | er <;> rw [hd] at h <;>
      simp at h
    exact h.symm

theorem shortExitPhase_trades {cfg : EngineConfig} {row : Row} {s : ShortState} :
    ∀ t ∈ (shortExitPhase cfg row s).trades, t ∈ s.trades ∨
      ∃ p0 er, s.position = some p0 ∧
        shortExitDecision cfg row (shortManage cfg row p0) = some er ∧
        t = closeShort cfg row (shortManage cfg row p0) er.1 er.2 := by
  intro t ht
  rcases hp : s.position with _ | p0
  · rw [shortExitPhase_none hp] at ht; exact Or.inl ht
  · simp only [shortExitPhase, hp] at ht
    rcases hd : shortExitDecision cfg row (shortManage cfg row p0) with _ | er <;> rw [hd] at ht <;>
      simp at ht
    · exact Or.inl ht
    · rcases ht with h | h
      exacts [Or.inl h, Or.inr ⟨p0, er, rfl, hd, h⟩]

theorem shortManage_fields (cfg : EngineConfig) (row : Row) (p : ShortPosition) :
    (shortManage cfg row p).entry_price = p.entry_price ∧
    (shortManage cfg row p).entry_time = p.entry_time ∧
    (shortManage cfg row p).entry_date = p.entry_date ∧
    (shortManage cfg row p).tp_pts = p.tp_pts ∧
    (shortManage cfg row p).sl_pts = p.sl_pts ∧
    (shortManage cfg row p).bars_held = p.bars_held + 1 := by
  simp only [shortManage]
  split_ifs <;> simp

theorem stepShort_position_src {cfg : EngineConfig} {s : ShortState} {row : Row}
    {q : ShortPosition} (h : (stepShort cfg s row).position = some q) :
    s.position = some q ∨
    ∃ p0, (s.position = some p0 ∨
        (s.position = none ∧ s.entry_signal = true ∧
          p0 = makeShortPosition cfg row (row.open_ - cfg.spread_pts / 2))) ∧
      q = shortManage cfg row p0 := by
  unfold stepShort at h
  by_cases hn : row.rsi = Val.nan
  · rw [if_pos hn, dayResetShort_position] at h
    exact Or.inl h
  · rw [if_neg hn] at h
    simp only [] at h
    set s2 := (if row.rsi.geq cfg.short_overbought = true then
      { dayResetShort row s with seen_overbought := true } else dayResetShort row s) with hs2
    have h2pos : s2.position = s.position := by
      rw [hs2]; split <;> simp [dayResetShort_position]
    have h2sig : s2.entry_signal = true → s.entry_signal = true := by
      rw [hs2]; split <;> intro hx <;>
        exact dayResetShort_signal_true (by simpa using hx)
    by_cases harm : (s2.position = none ∧ s2.entry_signal = false ∧ s2.seen_overbought = true ∧
        row.rsi.ltq cfg.short_overbought = true ∧ row.entry_allowed = true)
    · rw [if_pos harm] at h
      simp at h
      rw [harm.1] at h
      cases h
    · rw [if_neg harm] at h
      by_cases hent : (s2.entry_signal = true ∧ s2.position = none)
      · rw [if_pos hent] at h
        by_cases hm : (s2.margin.can_open_position (row.open_ - cfg.spread_pts / 2) [] = true)
        · rw [if_pos hm] at h
          obtain ⟨p0, hp0, hq⟩ := shortExitPhase_position h
          simp at hp0
          exact Or.inr ⟨p0, Or.inr ⟨by rw [← h2pos]; exact hent.2, h2sig hent.1, hp0.symm⟩, hq⟩
        · rw [if_neg hm] at h
          simp at h
          rw [hent.2] at h
          cases h
      · rw [if_neg hent] at h
        obtain ⟨p0, hp0, hq⟩ := shortExitPhase_position h
        rw [h2pos] at hp0
        exact Or.inr ⟨p0, Or.inl hp0, hq⟩

theorem stepShort_trades_src {cfg : EngineConfig} {s : ShortState} {row : Row} :
    ∀ t ∈ (stepShort cfg s row).trades, t ∈ s.trades ∨
      ∃ p0 er, (s.position = some p0 ∨
          (s.position = none ∧ s.entry_signal = true ∧
            p0 = makeShortPosition cfg row (row.open_ - cfg.spread_pts / 2))) ∧
        shortExitDecision cfg row (shortManage cfg row p0) = some er ∧
        t = closeShort cfg row (shortManage cfg row p0) er.1 er.2 := by
  intro t ht
  unfold stepShort at ht
  by_cases hn : row.rsi = Val.nan
  · rw [if_pos hn, dayResetShort_trades] at ht
    exact Or.inl ht
  · rw [if_neg hn] at ht
    simp only [] at ht
    set s2 := (if row.rsi.geq cfg.short_overbought = true then
      { dayResetShort row s with seen_overbought := true } else dayResetShort row s) with hs2
    have h2pos : s2.position = s.position := by
      rw [hs2]; split <;> simp [dayResetShort_position]
    have h2tr : s2.trades = s.trades := by
      rw [hs2]; split <;> simp [dayResetShort_trades]
    have h2sig : s2.entry_signal = true → s.entry_signal = true := by
      rw [hs2]; split <;> intro hx <;>
        exact dayResetShort_signal_true (by simpa using hx)
    by_cases harm : (s2.position = none ∧ s2.entry_signal = false ∧ s2.seen_overbought = true ∧
        row.rsi.ltq cfg.short_overbought = true ∧ row.entry_allowed = true)
    · rw [if_pos harm] at ht
      simp at ht
      rw [h2tr] at ht
      exact Or.inl ht
    · rw [if_neg harm] at ht
      by_cases hent : (s2.entry_signal = true ∧ s2.position = none)
      · rw [if_pos hent] at ht
        by_cases hm : (s2.margin.can_open_position (row.open_ - cfg.spread_pts / 2) [] = true)
        · rw [if_pos hm] at ht
          rcases shortExitPhase_trades t ht with hmem | ⟨p0, er, hp0, hd, heq⟩
          · simp [h2tr] at hmem
            exact Or.inl hmem
          · simp at hp0
            exact Or.inr ⟨p0, er,
              Or.inr ⟨by rw [← h2pos]; exact hent.2, h2sig hent.1, hp0.symm⟩, hd, heq⟩
        · rw [if_neg hm] at ht
          simp [h2tr] at ht
          exact Or.inl ht
      · rw [if_neg hent] at ht
        rcases shortExitPhase_trades t ht with hmem | ⟨p0, er, hp0, hd, heq⟩
        · rw [h2tr] at hmem
          exact Or.inl hmem
        · rw [h2pos] at hp0
          exact Or.inr ⟨p0, er, Or.inl hp0, hd, heq⟩

/-!
Phase lemmas for the tick-level machines.
-/

theorem dayResetTickLong_position (row : Row) (s : TickLongState) :
    (dayResetTickLong row s).position = s.position := by
  unfold dayResetTickLong; split <;> rfl

theorem dayResetTickLong_trades (row : Row) (s : TickLongState) :
    (dayResetTickLong row s).trades = s.trades := by
  unfold dayResetTickLong; split <;> rfl

theorem dayResetTickLong_signal_true {row : Row} {s : TickLongState}
    (h : (dayResetTickLong row s).entry_signal = true) : s.entry_signal = true := by
  unfold dayResetTickLong at h
  split at h
  · by_cases hp : s.position = none <;> simp [hp] at h <;> exact h
  · exact h

theorem tickLongExitPhase_none {cfg : EngineConfig} {row : Row} {bt : List Tick}
    {s : TickLongState} (h : s.position = none) : tickLongExitPhase cfg row bt s = s := by
  unfold tickLongExitPhase; rw [h]

theorem tickLongExitPhase_position {cfg : EngineConfig} {row : Row} {bt : List Tick}
    {s : TickLongState} {q : TickLongPosition}
    (h : (tickLongExitPhase cfg row bt s).position = some q) :
    ∃ p0, s.position = some p0 ∧ q = (tickLongManageAndDecide cfg row bt p0).1 := by
  rcases hp : s.position with _ | p0
  · rw [tickLongExitPhase_none hp, hp] at h; cases h
  · refine ⟨p0, rfl, ?_⟩
    simp only [tickLongExitPhase, hp] at h
    rcases hd : (tickLongManageAndDecide cfg row bt p0).2 with _ | er <;> rw [hd] at h <;>
      simp at h
    exact h.symm

theorem tickLongExitPhase_trades {cfg : EngineConfig} {row : Row} {bt : List Tick}
    {s : TickLongState} :
    ∀ t ∈ (tickLongExitPhase cfg row bt s).trades, t ∈ s.trades ∨
      ∃ p0 er, s.position = some p0 ∧
        (tickLongManageAndDecide cfg row bt p0).2 = some er ∧
        t = closeTickLong cfg (tickLongManageAndDecide cfg row bt p0).1 er.1 er.2.1 er.2.2 := by
  intro t ht
  rcases hp : s.position with _ | p0
  · rw [tickLongExitPhase_none hp] at ht; exact Or.inl ht
  · simp only [tickLongExitPhase, hp] at ht
    rcases hd : (tickLongManageAndDecide cfg row bt p0).2 with _ | er <;> rw [hd] at ht <;>
      simp at ht
    · exact Or.inl ht
    · rcases ht with h | h
      exacts [Or.inl h, Or.inr ⟨p0, er, rfl, hd, h⟩]

theorem stepTickLong_position_src {cfg : EngineConfig} {ticks : List Tick} {s : TickLongState}
    {row : Row} {q : TickLongPosition}
    (h : (stepTickLong cfg ticks s row).position = some q) :
    s.position = some q ∨
    ∃ p0, (s.position = some p0 ∨
        (s.position = none ∧ s.entry_signal = true ∧
          p0 = makeTickLongPosition cfg row (tickEntryLong ticks row))) ∧
      q = (tickLongManageAndDecide cfg row (get_ticks_for_bar ticks row.ts 30) p0).1 := by
  unfold stepTickLong at h
  by_cases hn : row.rsi = Val.nan
  · rw [if_pos hn, dayResetTickLong_position] at h
    exact Or.inl h
  · rw [if_neg hn] at h
    simp only [] at h
    set s2 := (if row.rsi.leq cfg.long_oversold = true then
      { dayResetTickLong row s with seen_oversold := true } else dayResetTickLong row s) with hs2
    have h2pos : s2.position = s.position := by
      rw [hs2]; split <;> simp [dayResetTickLong_position]
    have h2sig : s2.entry_signal = true → s.entry_signal = true := by
      rw [hs2]; split <;> intro hx <;>
        exact dayResetTickLong_signal_true (by simpa using hx)
    by_cases harm : (s2.position = none ∧ s2.entry_signal = false ∧ s2.seen_oversold = true ∧
        row.rsi.gtq cfg.long_oversold = true ∧ row.entry_allowed = true)
    · rw [if_pos harm] at h
      simp at h
      rw [harm.1] at h
      cases h
    · rw [if_neg harm] at h
      by_cases hent : (s2.entry_signal = true ∧ s2.position = none)
      · rw [if_pos hent] at h
        by_cases hm : (s2.margin.can_open_position (tickEntryLong ticks row) [] = true)
        · rw [if_pos hm] at h
          obtain ⟨p0, hp0, hq⟩ := tickLongExitPhase_position h
          simp at hp0
          exact Or.inr ⟨p0, Or.inr ⟨by rw [← h2pos]; exact hent.2, h2sig hent.1, hp0.symm⟩, hq⟩
        · rw [if_neg hm] at h
          simp at h
          rw [hent.2] at h
          cases h
      · rw [if_neg hent] at h
        obtain ⟨p0, hp0, hq⟩ := tickLongExitPhase_position h
        rw [h2pos] at hp0
        exact Or.inr ⟨p0, Or.inl hp0, hq⟩

theorem stepTickLong_trades_src {cfg : EngineConfig} {ticks : List Tick} {s : TickLongState}
    {row : Row} :
    ∀ t ∈ (stepTickLong cfg ticks s row).trades, t ∈ s.trades ∨
      ∃ p0 er, (s.position = some p0 ∨
          (s.position = none ∧ s.entry_signal = true ∧
            p0 = makeTickLongPosition cfg row (tickEntryLong ticks row))) ∧
        (tickLongManageAndDecide cfg row (get_ticks_for_bar ticks row.ts 30) p0).2 = some er ∧
        t = closeTickLong cfg (tickLongManageAndDecide cfg row (get_ticks_for_bar ticks row.ts 30) p0).1
          er.1 er.2.1 er.2.2 := by
  intro t ht
  unfold stepTickLong at ht
  by_cases hn : row.rsi = Val.nan
  · rw [if_pos hn, dayResetTickLong_trades] at ht
    exact Or.inl ht
  · rw [if_neg hn] at ht
    simp only [] at ht
    set s2 := (if row.rsi.leq cfg.long_oversold = true then
      { dayResetTickLong row s with seen_oversold := true } else dayResetTickLong row s) with hs2
    have h2pos : s2.position = s.position := by
      rw [hs2]; split <;> simp [dayResetTickLong_position]
    have h2tr : s2.trades = s.trades := by
      rw [hs2]; split <;> simp [dayResetTickLong_trades]
    have h2sig : s2.entry_signal = true → s.entry_signal = true := by
      rw [hs2]; split <;> intro hx <;>
        exact dayResetTickLong_signal_true (by simpa using hx)
    by_cases harm : (s2.position = none ∧ s2.entry_signal = false ∧ s2.seen_oversold = true ∧
        row.rsi.gtq cfg.long_oversold = true ∧ row.entry_allowed = true)
    · rw [if_pos harm] at ht
      simp at ht
      rw [h2tr] at ht
      exact Or.inl ht
    · rw [if_neg harm] at ht
      by_cases hent : (s2.entry_signal = true ∧ s2.position = none)
      · rw [if_pos hent] at ht
        by_cases hm : (s2.margin.can_open_position (tickEntryLong ticks row) [] = true)
        · rw [if_pos hm] at ht
          rcases tickLongExitPhase_trades t ht with hmem | ⟨p0, er, hp0, hd, heq⟩
          · simp [h2tr] at hmem
            exact Or.inl hmem
          · simp at hp0
            exact Or.inr ⟨p0, er,
              Or.inr ⟨by rw [← h2pos]; exact hent.2, h2sig hent.1, hp0.symm⟩, hd, heq⟩
        · rw [if_neg hm] at ht
          simp [h2tr] at ht
          exact Or.inl ht
      · rw [if_neg hent] at ht
        rcases tickLongExitPhase_trades t ht with hmem | ⟨p0, er, hp0, hd, heq⟩
        · rw [h2tr] at hmem
          exact Or.inl hmem
        · rw [h2pos] at hp0
          exact Or.inr ⟨p0, er, Or.inl hp0, hd, heq⟩

theorem dayResetTickShort_position (row : Row) (s : TickShortState) :
    (dayResetTickShort row s).position = s.position := by
  unfold dayResetTickShort; split <;> rfl

theorem dayResetTickShort_signal_true {row : Row} {s : TickShortState}
    (h : (dayResetTickShort row s).entry_signal = true) : s.entry_signal = true := by
  unfold dayResetTickShort at h
  split at h
  · by_cases hp : s.position = none <;> simp [hp] at h <;> exact h
  · exact h

theorem tickShortExitPhase_none {cfg : EngineConfig} {row : Row} {bt : List Tick}
    {s : TickShortState} (h : s.position = none) : tickShortExitPhase cfg row bt s = s := by
  unfold tickShortExitPhase; rw [h]

theorem tickShortExitPhase_position {cfg : EngineConfig} {row : Row} {bt : List Tick}
    {s : TickShortState} {q : TickShortPosition}
    (h : (tickShortExitPhase cfg row bt s).position = some q) :
    ∃ p0, s.position = some p0 ∧ q = (tickShortManageAndDecide cfg row bt p0).1 := by
  rcases hp : s.position with _ | p0
  · rw [tickShortExitPhase_none hp, hp] at h; cases h
  · refine ⟨p0, rfl, ?_⟩
    simp only [tickShortExitPhase, hp] at h
    rcases hd : (tickShortManageAndDecide cfg row bt p0).2 with _ | er <;> rw [hd] at h <;>
      simp at h
    exact h.symm

theorem stepTickShort_position_src {cfg : EngineConfig} {ticks : List Tick} {s : TickShortState}
    {row : Row} {q : TickShortPosition}
    (h : (stepTickShort cfg ticks s row).position = some q) :
    s.position = some q ∨
    ∃ p0, (s.position = some p0 ∨
        (s.position = none ∧ s.entry_signal = true ∧
          p0 = makeTickShortPosition cfg row (tickEntryShort ticks row))) ∧
      q = (tickShortManageAndDecide cfg row (get_ticks_for_bar ticks row.ts 30) p0).1 := by
  unfold stepTickShort at h
  by_cases hn : row.rsi = Val.nan
  · rw [if_pos hn, dayResetTickShort_position] at h
    exact Or.inl h
  · rw [if_neg hn] at h
    simp only [] at h
    set s2 := (if row.rsi.geq cfg.short_overbought = true then
      { dayResetTickShort row s with seen_overbought := true } else dayResetTickShort row s) with hs2
    have h2pos : s2.position = s.position := by
      rw [hs2]; split <;> simp [dayResetTickShort_position]
    have h2sig : s2.entry_signal = true → s.entry_signal = true := by
      rw [hs2]; split <;> intro hx <;>
        exact dayResetTickShort_signal_true (by simpa using hx)
    by_cases harm : (s2.position = none ∧ s2.entry_signal = false ∧ s2.seen_overbought = true ∧
        row.rsi.ltq cfg.short_overbought = true ∧ row.entry_allowed = true)
    · rw [if_pos harm] at h
      simp at h
      rw [harm.1] at h
      cases h
    · rw [if_neg harm] at h
      by_cases hent : (s2.entry_signal = true ∧ s2.position = none)
      · rw [if_pos hent] at h
        by_cases hm : (s2.margin.can_open_position (tickEntryShort ticks row) [] = true)
        · rw [if_pos hm] at h
          obtain ⟨p0, hp0, hq⟩ := tickShortExitPhase_position h
          simp at hp0
          exact Or.inr ⟨p0, Or.inr ⟨by rw [← h2pos]; exact hent.2, h2sig hent.1, hp0.symm⟩, hq⟩
        · rw [if_neg hm] at h
          simp at h
          rw [hent.2] at h
          cases h
      · rw [if_neg hent] at h
        obtain ⟨p0, hp0, hq⟩ := tickShortExitPhase_position h
        rw [h2pos] at hp0
        exact Or.inr ⟨p0, Or.inl hp0, hq⟩

/-!
C2: exit-priority order.
-/

/-- C2 counterexample: with a one-day maximum hold, the day-1 exit bar of
`barsC2` satisfies the max-hold condition (`days_held = 1 ≥
long_max_hold_days = 1 > 0`), yet the bar engine closes the trade as a
stop-loss: the stop-loss/take-profit checks overwrite the max-hold
decision, so max-hold does not have the highest priority.  The same
overwrite is visible directly on `longExitDecision` at the concrete
position `pWmax`, which meets the max-hold condition while the bar `rowW`
touches its stop. -/
theorem C2_exit_priority_counterexample :
    (0 < cfgC2.long_max_hold_days ∧ (cfgC2.long_max_hold_days : ℤ) ≤ pWmax.days_held) ∧
    longExitDecision cfgC2 rowW pWmax = some (pWmax.trailing_sl_level, "SL") ∧
    (run_backtest_long cfgC2 barsC2).trades.map (fun t => (t.exit_reason, t.days_held)) =
      [("SL", 1)] ∧
    cfgC2.long_max_hold_days = 1 := by
  refine ⟨⟨by norm_num [cfgC2], by norm_num [cfgC2, pWmax]⟩, ?_, ?_, by norm_num [cfgC2]⟩
  · simp only [longExitDecision]
    norm_num [cfgC2, rowW, pWmax, _get_spread_for_time, is_session_open]
  · rw [runC2_trades]
    simp [tradeC2]

/-- C2 amended: the actual exit priority.  Bar engine: stop-loss /
trailing stop first, then take-profit, then max-hold (it survives only
when neither stop nor profit level was touched), end-of-day last.  Tick
engine: max-hold first (it short-circuits the tick walk), then along the
ticks stop-loss before take-profit at every tick.  In particular,
whenever both levels are touched within the same bar or at the same tick,
the trade closes as a stop-loss exit. -/
theorem C2_exit_priority_amended :
    (∀ (cfg : EngineConfig) (row : Row) (p : LongPosition),
      row.low - _get_spread_for_time cfg row.ts.minute / 2 ≤ p.trailing_sl_level →
      longExitDecision cfg row p = some (p.trailing_sl_level,
        if cfg.long_use_trailing = true ∧ p.trailing_stop_active = true then "TRAILING_SL"
        else "SL")) ∧
    (∀ (cfg : EngineConfig) (row : Row) (p : LongPosition),
      ¬ row.low - _get_spread_for_time cfg row.ts.minute / 2 ≤ p.trailing_sl_level →
      p.entry_price + cfg.long_tp ≤ row.high - _get_spread_for_time cfg row.ts.minute / 2 →
      longExitDecision cfg row p = some (p.entry_price + cfg.long_tp, "TP")) ∧
    (∀ (cfg : EngineConfig) (row : Row) (p : LongPosition),
      ¬ row.low - _get_spread_for_time cfg row.ts.minute / 2 ≤ p.trailing_sl_level →
      ¬ p.entry_price + cfg.long_tp ≤ row.high - _get_spread_for_time cfg row.ts.minute / 2 →
      0 < cfg.long_max_hold_days → (cfg.long_max_hold_days : ℤ) ≤ p.days_held →
      longExitDecision cfg row p = some (row.close - cfg.spread_pts / 2, "MAX_HOLD_DAYS")) ∧
    (∀ (cfg : EngineConfig) (row : Row) (bar_ticks : List Tick) (p : TickLongPosition),
      0 < cfg.long_max_hold_days → (cfg.long_max_hold_days : ℤ) ≤ p.days_held →
      (tickLongManageAndDecide cfg row bar_ticks p).2 =
        some (row.close, "MAX_HOLD_DAYS", row.ts.toMinQ)) ∧
    (∀ (cfg : EngineConfig) (p : TickLongPosition) (t : Tick) (rest : List Tick),
      t.bid ≤ (tickUpdateLong cfg p t).sl_level →
      tickWalkLong cfg p (t :: rest) = (tickUpdateLong cfg p t,
        some ((tickUpdateLong cfg p t).sl_level,
          if (tickUpdateLong cfg p t).trailing_active = true then "TRAILING_SL" else "SL",
          t.tmin))) ∧
    (∀ (cfg : EngineConfig) (p : TickLongPosition) (t : Tick) (rest : List Tick),
      ¬ t.bid ≤ (tickUpdateLong cfg p t).sl_level →
      (tickUpdateLong cfg p t).tp_level ≤ t.bid →
      tickWalkLong cfg p (t :: rest) =
        (tickUpdateLong cfg p t, some ((tickUpdateLong cfg p t).tp_level, "TP", t.tmin))) :=
  ⟨longExitDecision_sl, longExitDecision_tp, longExitDecision_max, tickLongDecide_max,
    tickWalkLong_sl_first, tickWalkLong_tp_first⟩

/-- Witness for C2 amended: each priority rule exercised at a concrete
bar, position and tick. -/
theorem C2_exit_priority_amended_witness :
    longExitDecision cfgC2 rowW pW = some (pW.trailing_sl_level,
      if cfgC2.long_use_trailing = true ∧ pW.trailing_stop_active = true then "TRAILING_SL"
      else "SL") ∧
    longExitDecision cfgC2 rowHighW pW = some (pW.entry_price + cfgC2.long_tp, "TP") ∧
    longExitDecision cfgC2 rowQuietW pWmax =
      some (rowQuietW.close - cfgC2.spread_pts / 2, "MAX_HOLD_DAYS") ∧
    (tickLongManageAndDecide cfgC2 rowQuietW [] pWtick).2 =
      some (rowQuietW.close, "MAX_HOLD_DAYS", rowQuietW.ts.toMinQ) ∧
    tickWalkLong cfgT pWtickSL [tickW] = (tickUpdateLong cfgT pWtickSL tickW,
      some ((tickUpdateLong cfgT pWtickSL tickW).sl_level,
        if (tickUpdateLong cfgT pWtickSL tickW).trailing_active = true then "TRAILING_SL"
        else "SL", tickW.tmin)) ∧
    tickWalkLong cfgT pWtickTP [tickW] =
      (tickUpdateLong cfgT pWtickTP tickW,
        some ((tickUpdateLong cfgT pWtickTP tickW).tp_level, "TP", tickW.tmin)) :=
  ⟨C2_exit_priority_amended.1 cfgC2 rowW pW
      (by norm_num [rowW, pW, cfgC2, _get_spread_for_time, is_session_open]),
   C2_exit_priority_amended.2.1 cfgC2 rowHighW pW
      (by norm_num [rowHighW, pW, cfgC2, _get_spread_for_time, is_session_open])
      (by norm_num [rowHighW, pW, cfgC2, _get_spread_for_time, is_session_open]),
   C2_exit_priority_amended.2.2.1 cfgC2 rowQuietW pWmax
      (by norm_num [rowQuietW, pWmax, cfgC2, _get_spread_for_time, is_session_open])
      (by norm_num [rowQuietW, pWmax, cfgC2, _get_spread_for_time, is_session_open])
      (by norm_num [cfgC2]) (by norm_num [cfgC2, pWmax]),
   C2_exit_priority_amended.2.2.2.1 cfgC2 rowQuietW [] pWtick
      (by norm_num [cfgC2]) (by norm_num [cfgC2, pWtick]),
   C2_exit_priority_amended.2.2.2.2.1 cfgT pWtickSL tickW []
      (by norm_num [tickUpdateLong, cfgT, pWtickSL, tickW]),
   C2_exit_priority_amended.2.2.2.2.2 cfgT pWtickTP tickW []
      (by norm_num [tickUpdateLong, cfgT, pWtickTP, tickW])
      (by norm_num [tickUpdateLong, cfgT, pWtickTP, tickW])⟩

/-!
C8: the counterexample run.
-/

/-- C8 counterexample: the ledger of `run_backtest_long cfgC8 barsC8`
consists of one MAX_HOLD_DAYS trade with non-zero P&L; the summary's
per-exit-reason breakdown (TP, SL, TRAILING_SL, EOD only) misses it, so
the breakdown sum differs from the ledger's total P&L by far more than
the 1e-6 tolerance. -/
theorem C8_pnl_decomposition_counterexample :
    |breakdownPnlSum (run_backtest_long cfgC8 barsC8).trades -
        totalPts (run_backtest_long cfgC8 barsC8).trades| > 1/1000000 ∧
    (run_backtest_long cfgC8 barsC8).trades.map (fun t => t.exit_reason) =
      ["MAX_HOLD_DAYS"] := by
  rw [runC8_trades]
  constructor
  · simp [breakdownPnlSum, pnlByReason, totalPts, tradeC8]
    rw [lt_abs]
    right
    norm_num
  · simp [tradeC8]

/-!
C4: overnight-charge accrual lemmas.
-/

theorem longManage_overnight_cross (cfg : EngineConfig) (row : Row) (p : LongPosition)
    (hday : (row.ts.day : ℤ) ≠ (p.entry_date : ℤ))
    (hlt : p.days_held < (row.ts.day : ℤ) - (p.entry_date : ℤ)) :
    (longManage cfg row p).overnight_charges_pts = p.overnight_charges_pts +
      _calculate_overnight_charge cfg p.entry_price
        ((row.ts.day : ℤ) - (p.entry_date : ℤ) - p.days_held) ∧
    (longManage cfg row p).days_held = (row.ts.day : ℤ) - (p.entry_date : ℤ) := by
  simp only [longManage]
  split_ifs <;> simp_all

theorem longManage_overnight_same (cfg : EngineConfig) (row : Row) (p : LongPosition)
    (hday : (row.ts.day : ℤ) = (p.entry_date : ℤ)) :
    (longManage cfg row p).overnight_charges_pts = p.overnight_charges_pts ∧
    (longManage cfg row p).days_held = p.days_held := by
  simp only [longManage]
  split_ifs <;> simp_all

theorem shortManage_overnight_cross (cfg : EngineConfig) (row : Row) (p : ShortPosition)
    (hday : (row.ts.day : ℤ) ≠ (p.entry_date : ℤ))
    (hlt : p.days_held < (row.ts.day : ℤ) - (p.entry_date : ℤ)) :
    (shortManage cfg row p).overnight_charges_pts = p.overnight_charges_pts +
      _calculate_overnight_charge cfg p.entry_price
        ((row.ts.day : ℤ) - (p.entry_date : ℤ) - p.days_held) ∧
    (shortManage cfg row p).days_held = (row.ts.day : ℤ) - (p.entry_date : ℤ) := by
  simp only [shortManage]
  split_ifs <;> simp_all

theorem tickLongNight_overnight_cross (cfg : EngineConfig) (row : Row) (p : TickLongPosition)
    (hday : (row.ts.day : ℤ) ≠ (p.entry_date : ℤ))
    (hlt : p.days_held < (row.ts.day : ℤ) - (p.entry_date : ℤ)) :
    (tickLongNight cfg row p).overnight_charges_pts = p.overnight_charges_pts +
      _calculate_overnight_charge cfg p.entry_price
        ((row.ts.day : ℤ) - (p.entry_date : ℤ) - p.days_held) ∧
    (tickLongNight cfg row p).days_held = (row.ts.day : ℤ) - (p.entry_date : ℤ) := by
  simp only [tickLongNight]
  split_ifs <;> simp_all

theorem tickShortNight_overnight_cross (cfg : EngineConfig) (row : Row) (p : TickShortPosition)
    (hday : (row.ts.day : ℤ) ≠ (p.entry_date : ℤ))
    (hlt : p.days_held < (row.ts.day : ℤ) - (p.entry_date : ℤ)) :
    (tickShortNight cfg row p).overnight_charges_pts = p.overnight_charges_pts +
      _calculate_overnight_charge cfg p.entry_price
        ((row.ts.day : ℤ) - (p.entry_date : ℤ) - p.days_held) ∧
    (tickShortNight cfg row p).days_held = (row.ts.day : ℤ) - (p.entry_date : ℤ) := by
  simp only [tickShortNight]
  split_ifs <;> simp_all

theorem bothLongManage_overnight (cfg : EngineConfig) (row : Row) (bh : ℚ)
    (p : BothLongPosition) :
    (bothLongManage cfg row bh p).overnight_charges_pts =
      p.entry_price * cfg.overnight_funding_rate *
        ((row.ts.toMinQ - p.entry_time.toMinQ) * 60 / 86400) / 365 ∧
    (bothLongManage cfg row bh p).days_held =
      (row.ts.toMinQ - p.entry_time.toMinQ) * 60 / 86400 := by
  simp only [bothLongManage]
  split_ifs <;> simp_all

theorem bothShortManage_overnight (cfg : EngineConfig) (row : Row) (al : ℚ)
    (p : BothShortPosition) :
    (bothShortManage cfg row al p).overnight_charges_pts =
      p.entry_price * cfg.overnight_funding_rate *
        ((row.ts.toMinQ - p.entry_time.toMinQ) * 60 / 86400) / 365 ∧
    (bothShortManage cfg row al p).days_held =
      (row.ts.toMinQ - p.entry_time.toMinQ) * 60 / 86400 := by
  simp only [bothShortManage]
  split_ifs <;> simp_all

/-- A BOTH-mode LONG position opened at minute 720 of day 0 (for the
overnight-charge witnesses). -/
def pWboth : BothLongPosition :=
  { entry_price := 993/10, entry_time := { day := 0, minute := 720 }, tp_pts := 40,
    sl_pts := 100, bars_held := 1, highest_bid := 993/10, trailing_stop_active := false,
    trailing_sl_level := -7/10, overnight_charges_pts := 0, days_held := 0 }

/-- C4 counterexample: in `run_backtest_both cfgC4 barsC4` the single
trade enters at minute 720 and exits at minute 750 of the same calendar
day (all bars of `barsC4` are on day 0), so zero day boundaries are
crossed, yet its accumulated overnight charge is positive (and its
`days_held` is the fractional 1/48): the BOTH-mode engine accrues
continuously pro rata rather than once per calendar-day boundary. -/
theorem C4_overnight_counterexample :
    (run_backtest_both cfgC4 barsC4).trades.map
        (fun t => (t.overnight_charges, t.days_held, t.datetime_open, t.datetime_close)) =
      [(2317/11680000, 1/48, 720, 750)] ∧
    (∀ b ∈ barsC4, b.ts.day = 0) ∧
    (0 : ℚ) < 2317/11680000 := by
  refine ⟨?_, ?_, by norm_num⟩
  · rw [runC4_trades]
    simp [tradeC4]
  · intro b hb
    fin_cases hb <;> rfl

/-- C4 amended: in every mode the emitted trade's net P&L equals gross
P&L minus accumulated overnight charges.  One night's charge is
`entry_price * annual_rate/365 * nights`.  The bar LONG/SHORT and tick
LONG/SHORT engines accrue it exactly at calendar-day boundaries (when the
bar's day differs from the stored day count, the charge for the nights
newly crossed is added and the day count updated; on the entry day
nothing accrues).  The BOTH-mode engine instead recomputes the charge
continuously from the fractional time since entry,
`entry_price * rate * elapsed_days/365` with
`elapsed_days = (bar_time - entry_time) * 60 / 86400`. -/
theorem C4_overnight_amended :
    (∀ (cfg : EngineConfig) (row : Row) (p : LongPosition) (ep : ℚ) (er : String),
      (closeLong cfg row p ep er).pnl_pts =
        (closeLong cfg row p ep er).pnl_pts_gross - (closeLong cfg row p ep er).overnight_charges) ∧
    (∀ (cfg : EngineConfig) (row : Row) (p : ShortPosition) (ep : ℚ) (er : String),
      (closeShort cfg row p ep er).pnl_pts =
        (closeShort cfg row p ep er).pnl_pts_gross - (closeShort cfg row p ep er).overnight_charges) ∧
    (∀ (cfg : EngineConfig) (row : Row) (p : BothLongPosition) (ep : ℚ) (er : String),
      (closeBothLong cfg row p ep er).pnl_pts =
        (closeBothLong cfg row p ep er).pnl_pts_gross -
          (closeBothLong cfg row p ep er).overnight_charges) ∧
    (∀ (cfg : EngineConfig) (row : Row) (p : BothShortPosition) (ep : ℚ) (er : String),
      (closeBothShort cfg row p ep er).pnl_pts =
        (closeBothShort cfg row p ep er).pnl_pts_gross -
          (closeBothShort cfg row p ep er).overnight_charges) ∧
    (∀ (cfg : EngineConfig) (p : TickLongPosition) (ep : ℚ) (er : String) (et : ℚ),
      (closeTickLong cfg p ep er et).pnl_pts =
        (closeTickLong cfg p ep er et).pnl_pts_gross -
          (closeTickLong cfg p ep er et).overnight_charges) ∧
    (∀ (cfg : EngineConfig) (p : TickShortPosition) (ep : ℚ) (er : String) (et : ℚ),
      (closeTickShort cfg p ep er et).pnl_pts =
        (closeTickShort cfg p ep er et).pnl_pts_gross -
          (closeTickShort cfg p ep er et).overnight_charges) ∧
    (∀ (cfg : EngineConfig) (ep : ℚ) (d : ℤ), d ≠ 0 →
      _calculate_overnight_charge cfg ep d = ep * (cfg.overnight_funding_rate / 365) * (d : ℚ)) ∧
    (∀ (cfg : EngineConfig) (row : Row) (p : LongPosition),
      (row.ts.day : ℤ) ≠ (p.entry_date : ℤ) →
      p.days_held < (row.ts.day : ℤ) - (p.entry_date : ℤ) →
      (longManage cfg row p).overnight_charges_pts = p.overnight_charges_pts +
        _calculate_overnight_charge cfg p.entry_price
          ((row.ts.day : ℤ) - (p.entry_date : ℤ) - p.days_held) ∧
      (longManage cfg row p).days_held = (row.ts.day : ℤ) - (p.entry_date : ℤ)) ∧
    (∀ (cfg : EngineConfig) (row : Row) (p : LongPosition),
      (row.ts.day : ℤ) = (p.entry_date : ℤ) →
      (longManage cfg row p).overnight_charges_pts = p.overnight_charges_pts ∧
      (longManage cfg row p).days_held = p.days_held) ∧
    (∀ (cfg : EngineConfig) (row : Row) (p : ShortPosition),
      (row.ts.day : ℤ) ≠ (p.entry_date : ℤ) →
      p.days_held < (row.ts.day : ℤ) - (p.entry_date : ℤ) →
      (shortManage cfg row p).overnight_charges_pts = p.overnight_charges_pts +
        _calculate_overnight_charge cfg p.entry_price
          ((row.ts.day : ℤ) - (p.entry_date : ℤ) - p.days_held) ∧
      (shortManage cfg row p).days_held = (row.ts.day : ℤ) - (p.entry_date : ℤ)) ∧
    (∀ (cfg : EngineConfig) (row : Row) (p : TickLongPosition),
      (row.ts.day : ℤ) ≠ (p.entry_date : ℤ) →
      p.days_held < (row.ts.day : ℤ) - (p.entry_date : ℤ) →
      (tickLongNight cfg row p).overnight_charges_pts = p.overnight_charges_pts +
        _calculate_overnight_charge cfg p.entry_price
          ((row.ts.day : ℤ) - (p.entry_date : ℤ) - p.days_held) ∧
      (tickLongNight cfg row p).days_held = (row.ts.day : ℤ) - (p.entry_date : ℤ)) ∧
    (∀ (cfg : EngineConfig) (row : Row) (p : TickShortPosition),
      (row.ts.day : ℤ) ≠ (p.entry_date : ℤ) →
      p.days_held < (row.ts.day : ℤ) - (p.entry_date : ℤ) →
      (tickShortNight cfg row p).overnight_charges_pts = p.overnight_charges_pts +
        _calculate_overnight_charge cfg p.entry_price
          ((row.ts.day : ℤ) - (p.entry_date : ℤ) - p.days_held) ∧
      (tickShortNight cfg row p).days_held = (row.ts.day : ℤ) - (p.entry_date : ℤ)) ∧
    (∀ (cfg : EngineConfig) (row : Row) (bh : ℚ) (p : BothLongPosition),
      (bothLongManage cfg row bh p).overnight_charges_pts =
        p.entry_price * cfg.overnight_funding_rate *
          ((row.ts.toMinQ - p.entry_time.toMinQ) * 60 / 86400) / 365) ∧
    (∀ (cfg : EngineConfig) (row : Row) (al : ℚ) (p : BothShortPosition),
      (bothShortManage cfg row al p).overnight_charges_pts =
        p.entry_price * cfg.overnight_funding_rate *
          ((row.ts.toMinQ - p.entry_time.toMinQ) * 60 / 86400) / 365) :=
  ⟨fun _ _ _ _ _ => rfl, fun _ _ _ _ _ => rfl, fun _ _ _ _ _ => rfl, fun _ _ _ _ _ => rfl,
   fun _ _ _ _ _ => rfl, fun _ _ _ _ _ => rfl,
   fun cfg ep d hd => by simp only [_calculate_overnight_charge]; rw [if_neg hd],
   longManage_overnight_cross, longManage_overnight_same, shortManage_overnight_cross,
   tickLongNight_overnight_cross, tickShortNight_overnight_cross,
   fun cfg row bh p => (bothLongManage_overnight cfg row bh p).1,
   fun cfg row al p => (bothShortManage_overnight cfg row al p).1⟩

/-- Witness for C4 amended: the net-P&L identity, the one-night charge,
the calendar-day accrual and the BOTH-mode continuous recomputation at
concrete positions and bars. -/
theorem C4_overnight_amended_witness :
    (closeLong cfgC2 rowW pW 90 "SL").pnl_pts =
      (closeLong cfgC2 rowW pW 90 "SL").pnl_pts_gross -
        (closeLong cfgC2 rowW pW 90 "SL").overnight_charges ∧
    _calculate_overnight_charge cfgC2 (1003/10) 1 =
      (1003/10) * (cfgC2.overnight_funding_rate / 365) * 1 ∧
    ((longManage cfgC2 rowW pW).overnight_charges_pts = pW.overnight_charges_pts +
        _calculate_overnight_charge cfgC2 pW.entry_price
          ((rowW.ts.day : ℤ) - (pW.entry_date : ℤ) - pW.days_held) ∧
      (longManage cfgC2 rowW pW).days_held = (rowW.ts.day : ℤ) - (pW.entry_date : ℤ)) ∧
    ((tickLongNight cfgC2 rowW pWtickSL).overnight_charges_pts = pWtickSL.overnight_charges_pts +
        _calculate_overnight_charge cfgC2 pWtickSL.entry_price
          ((rowW.ts.day : ℤ) - (pWtickSL.entry_date : ℤ) - pWtickSL.days_held) ∧
      (tickLongNight cfgC2 rowW pWtickSL).days_held =
        (rowW.ts.day : ℤ) - (pWtickSL.entry_date : ℤ)) ∧
    (bothLongManage cfgC4 rowQuietW 0 pWboth).overnight_charges_pts =
      pWboth.entry_price * cfgC4.overnight_funding_rate *
        ((rowQuietW.ts.toMinQ - pWboth.entry_time.toMinQ) * 60 / 86400) / 365 :=
  ⟨C4_overnight_amended.1 cfgC2 rowW pW 90 "SL",
   C4_overnight_amended.2.2.2.2.2.2.1 cfgC2 (1003/10) 1 (by norm_num),
   C4_overnight_amended.2.2.2.2.2.2.2.1 cfgC2 rowW pW
     (by norm_num [rowW, pW]) (by norm_num [rowW, pW]),
   C4_overnight_amended.2.2.2.2.2.2.2.2.2.2.1 cfgC2 rowW pWtickSL
     (by norm_num [rowW, pWtickSL]) (by norm_num [rowW, pWtickSL]),
   C4_overnight_amended.2.2.2.2.2.2.2.2.2.2.2.2.1 cfgC4 rowQuietW 0 pWboth⟩

/-!
C3: entry-origin lemmas (field preservation through the tick walk, and
the no-pending-signal cases).
-/

theorem tickUpdateLong_entry (cfg : EngineConfig) (p : TickLongPosition) (t : Tick) :
    (tickUpdateLong cfg p t).entry_price = p.entry_price ∧
    (tickUpdateLong cfg p t).entry_time = p.entry_time := by
  simp only [tickUpdateLong]
  split_ifs <;> simp

theorem tickWalkLong_entry (cfg : EngineConfig) (l : List Tick) :
    ∀ p : TickLongPosition,
      (tickWalkLong cfg p l).1.entry_price = p.entry_price ∧
      (tickWalkLong cfg p l).1.entry_time = p.entry_time := by
  induction l with
  | nil => exact fun p => ⟨rfl, rfl⟩
  | cons t rest ih =>
      intro p
      simp only [tickWalkLong]
      split_ifs <;>
        first
          | exact tickUpdateLong_entry cfg p t
          | exact ⟨(ih _).1.trans (tickUpdateLong_entry cfg p t).1,
              (ih _).2.trans (tickUpdateLong_entry cfg p t).2⟩

theorem tickLongManageAndDecide_entry (cfg : EngineConfig) (row : Row) (bt : List Tick)
    (p : TickLongPosition) :
    (tickLongManageAndDecide cfg row bt p).1.entry_price = p.entry_price ∧
    (tickLongManageAndDecide cfg row bt p).1.entry_time = p.entry_time := by
  have hn : (tickLongNight cfg row p).entry_price = p.entry_price ∧
      (tickLongNight cfg row p).entry_time = p.entry_time := by
    simp only [tickLongNight]
    split_ifs <;> simp
  have hw := tickWalkLong_entry cfg bt (tickLongNight cfg row p)
  simp only [tickLongManageAndDecide]
  by_cases h1 : 0 < cfg.long_max_hold_days ∧
      (cfg.long_max_hold_days : ℤ) ≤ (tickLongNight cfg row p).days_held
  · rw [if_pos h1]
    exact hn
  · rw [if_neg h1]
    rcases he : (tickWalkLong cfg (tickLongNight cfg row p) bt).2 with _ | e <;>
      simp only [he]
    · by_cases h2 : cfg.long_force_eod = true ∧ is_eod_bar cfg row.ts.minute 30 = true
      · rw [if_pos h2]
        rcases hgl : bt.getLast? with _ | t <;> simp only [hgl] <;>
          exact ⟨hw.1.trans hn.1, hw.2.trans hn.2⟩
      · rw [if_neg h2]
        exact ⟨hw.1.trans hn.1, hw.2.trans hn.2⟩
    · exact ⟨hw.1.trans hn.1, hw.2.trans hn.2⟩

theorem tickUpdateShort_entry (cfg : EngineConfig) (p : TickShortPosition) (t : Tick) :
    (tickUpdateShort cfg p t).entry_price = p.entry_price ∧
    (tickUpdateShort cfg p t).entry_time = p.entry_time := by
  simp only [tickUpdateShort]
  split_ifs <;> simp

theorem tickWalkShort_entry (cfg : EngineConfig) (l : List Tick) :
    ∀ p : TickShortPosition,
      (tickWalkShort cfg p l).1.entry_price = p.entry_price ∧
      (tickWalkShort cfg p l).1.entry_time = p.entry_time := by
  induction l with
  | nil => exact fun p => ⟨rfl, rfl⟩
  | cons t rest ih =>
      intro p
      simp only [tickWalkShort]
      split_ifs <;>
        first
          | exact tickUpdateShort_entry cfg p t
          | exact ⟨(ih _).1.trans (tickUpdateShort_entry cfg p t).1,
              (ih _).2.trans (tickUpdateShort_entry cfg p t).2⟩

theorem tickShortManageAndDecide_entry (cfg : EngineConfig) (row : Row) (bt : List Tick)
    (p : TickShortPosition) :
    (tickShortManageAndDecide cfg row bt p).1.entry_price = p.entry_price ∧
    (tickShortManageAndDecide cfg row bt p).1.entry_time = p.entry_time := by
  have hn : (tickShortNight cfg row p).entry_price = p.entry_price ∧
      (tickShortNight cfg row p).entry_time = p.entry_time := by
    simp only [tickShortNight]
    split_ifs <;> simp
  have hw := tickWalkShort_entry cfg bt (tickShortNight cfg row p)
  simp only [tickShortManageAndDecide]
  by_cases h1 : 0 < cfg.short_max_hold_days ∧
      (cfg.short_max_hold_days : ℤ) ≤ (tickShortNight cfg row p).days_held
  · rw [if_pos h1]
    exact hn
  · rw [if_neg h1]
    rcases he : (tickWalkShort cfg (tickShortNight cfg row p) bt).2 with _ | e <;>
      simp only [he]
    · by_cases h2 : cfg.short_force_eod = true ∧ is_eod_bar cfg row.ts.minute 30 = true
      · rw [if_pos h2]
        rcases hgl : bt.getLast? with _ | t <;> simp only [hgl] <;>
          exact ⟨hw.1.trans hn.1, hw.2.trans hn.2⟩
      · rw [if_neg h2]
        exact ⟨hw.1.trans hn.1, hw.2.trans hn.2⟩
    · exact ⟨hw.1.trans hn.1, hw.2.trans hn.2⟩

theorem dayResetShort_signal_false {row : Row} {s : ShortState}
    (hsig : s.entry_signal = false) : (dayResetShort row s).entry_signal = false := by
  unfold dayResetShort; split <;> simp [hsig]

theorem dayResetTickLong_signal_false {row : Row} {s : TickLongState}
    (hsig : s.entry_signal = false) : (dayResetTickLong row s).entry_signal = false := by
  unfold dayResetTickLong; split <;> simp [hsig]

theorem dayResetTickShort_signal_false {row : Row} {s : TickShortState}
    (hsig : s.entry_signal = false) : (dayResetTickShort row s).entry_signal = false := by
  unfold dayResetTickShort; split <;> simp [hsig]

theorem dayResetTickShort_trades (row : Row) (s : TickShortState) :
    (dayResetTickShort row s).trades = s.trades := by
  unfold dayResetTickShort; split <;> rfl

theorem stepShort_no_pending {cfg : EngineConfig} {s : ShortState} {row : Row}
    (hpos : s.position = none) (hsig : s.entry_signal = false) :
    (stepShort cfg s row).position = none ∧ (stepShort cfg s row).trades = s.trades := by
  unfold stepShort
  by_cases hn : row.rsi = Val.nan
  · rw [if_pos hn, dayResetShort_position, dayResetShort_trades]
    exact ⟨hpos, rfl⟩
  · rw [if_neg hn]
    simp only []
    set s2 := (if row.rsi.geq cfg.short_overbought = true then
      { dayResetShort row s with seen_overbought := true } else dayResetShort row s) with hs2
    have h2pos : s2.position = none := by
      rw [hs2]; split <;> simp [dayResetShort_position, hpos]
    have h2tr : s2.trades = s.trades := by
      rw [hs2]; split <;> simp [dayResetShort_trades]
    have h2sig : s2.entry_signal = false := by
      rw [hs2]; split <;> simp [dayResetShort_signal_false hsig]
    by_cases harm : (s2.position = none ∧ s2.entry_signal = false ∧ s2.seen_overbought = true ∧
        row.rsi.ltq cfg.short_overbought = true ∧ row.entry_allowed = true)
    · rw [if_pos harm]
      simpa using ⟨h2pos, h2tr⟩
    · rw [if_neg harm]
      have hent : ¬ (s2.entry_signal = true ∧ s2.position = none) := by
        intro hx
        rw [h2sig] at hx
        cases hx.1
      rw [if_neg hent, shortExitPhase_none h2pos]
      exact ⟨h2pos, h2tr⟩

theorem stepTickLong_no_pending {cfg : EngineConfig} {ticks : List Tick} {s : TickLongState}
    {row : Row} (hpos : s.position = none) (hsig : s.entry_signal = false) :
    (stepTickLong cfg ticks s row).position = none ∧
    (stepTickLong cfg ticks s row).trades = s.trades := by
  unfold stepTickLong
  by_cases hn : row.rsi = Val.nan
  · rw [if_pos hn, dayResetTickLong_position, dayResetTickLong_trades]
    exact ⟨hpos, rfl⟩
  · rw [if_neg hn]
    simp only []
    set s2 := (if row.rsi.leq cfg.long_oversold = true then
      { dayResetTickLong row s with seen_oversold := true } else dayResetTickLong row s) with hs2
    have h2pos : s2.position = none := by
      rw [hs2]; split <;> simp [dayResetTickLong_position, hpos]
    have h2tr : s2.trades = s.trades := by
      rw [hs2]; split <;> simp [dayResetTickLong_trades]
    have h2sig : s2.entry_signal = false := by
      rw [hs2]; split <;> simp [dayResetTickLong_signal_false hsig]
    by_cases harm : (s2.position = none ∧ s2.entry_signal = false ∧ s2.seen_oversold = true ∧
        row.rsi.gtq cfg.long_oversold = true ∧ row.entry_allowed = true)
    · rw [if_pos harm]
      simpa using ⟨h2pos, h2tr⟩
    · rw [if_neg harm]
      have hent : ¬ (s2.entry_signal = true ∧ s2.position = none) := by
        intro hx
        rw [h2sig] at hx
        cases hx.1
      rw [if_neg hent, tickLongExitPhase_none h2pos]
      exact ⟨h2pos, h2tr⟩

theorem stepTickShort_no_pending {cfg : EngineConfig} {ticks : List Tick} {s : TickShortState}
    {row : Row} (hpos : s.position = none) (hsig : s.entry_signal = false) :
    (stepTickShort cfg ticks s row).position = none ∧
    (stepTickShort cfg ticks s row).trades = s.trades := by
  unfold stepTickShort
  by_cases hn : row.rsi = Val.nan
  · rw [if_pos hn, dayResetTickShort_position, dayResetTickShort_trades]
    exact ⟨hpos, rfl⟩
  · rw [if_neg hn]
    simp only []
    set s2 := (if row.rsi.geq cfg.short_overbought = true then
      { dayResetTickShort row s with seen_overbought := true } else dayResetTickShort row s) with hs2
    have h2pos : s2.position = none := by
      rw [hs2]; split <;> simp [dayResetTickShort_position, hpos]
    have h2tr : s2.trades = s.trades := by
      rw [hs2]; split <;> simp [dayResetTickShort_trades]
    have h2sig : s2.entry_signal = false := by
      rw [hs2]; split <;> simp [dayResetTickShort_signal_false hsig]
    by_cases harm : (s2.position = none ∧ s2.entry_signal = false ∧ s2.seen_overbought = true ∧
        row.rsi.ltq cfg.short_overbought = true ∧ row.entry_allowed = true)
    · rw [if_pos harm]
      simpa using ⟨h2pos, h2tr⟩
    · rw [if_neg harm]
      have hent : ¬ (s2.entry_signal = true ∧ s2.position = none) := by
        intro hx
        rw [h2sig] at hx
        cases hx.1
      rw [if_neg hent, tickShortExitPhase_none h2pos]
      exact ⟨h2pos, h2tr⟩

/-- The LONG bar-engine position held after stepping `sArmW` on
`rowQuietW` (entry executed at the bar open plus half the spread). -/
def qW : LongPosition :=
  { entry_price := 1003/10, entry_time := { day := 0, minute := 600 }, entry_date := 0,
    tp_pts := 40, sl_pts := 100, bars_held := 1, days_held := 0,
    overnight_charges_pts := 0, highest_bid := 1003/10,
    trailing_stop_active := false, trailing_sl_level := 3/10 }

/-- The SHORT bar-engine position held after stepping `sArmShortW` on
`rowQuietW`. -/
def qWs : ShortPosition :=
  { entry_price := 997/10, entry_time := { day := 0, minute := 600 }, entry_date := 0,
    tp_pts := 40, sl_pts := 80, bars_held := 1, days_held := 0,
    overnight_charges_pts := 0, lowest_ask := 997/10,
    trailing_stop_active := false, trailing_sl_level := 1797/10 }

/-- The LONG tick-engine position held after stepping `sArmTickW` on
`rowQuietW` (no tick inside the bar, so entry at the bar open). -/
def qWtl : TickLongPosition :=
  { entry_price := 100, entry_time := { day := 0, minute := 600 }, entry_date := 0,
    tp_level := 140, sl_level := 0, tp_pts := 40, sl_pts := 100,
    bars_held := 1, days_held := 0, overnight_charges_pts := 0,
    highest_bid := 100, trailing_active := false }

/-- The SHORT tick-engine position held after stepping `sArmTickShortW`
on `rowQuietW`. -/
def qWts : TickShortPosition :=
  { entry_price := 100, entry_time := { day := 0, minute := 600 }, entry_date := 0,
    tp_level := 60, sl_level := 180, tp_pts := 40, sl_pts := 80,
    bars_held := 1, days_held := 0, overnight_charges_pts := 0,
    lowest_ask := 100, trailing_active := false }

/-- C3: entry is look-ahead-free.  In each of the four single-side
simulators, a loop iteration that starts with no open position can end
holding one only when an entry signal was already pending from an
earlier bar (the iteration that detects the signal only arms it and
cannot create a position, as the no-pending conjuncts state), and the
created position is stamped with the executing bar's timestamp and is
filled at that bar's open plus half the spread for LONG, minus half the
spread for SHORT, and in the tick simulators at the first tick's
ask/bid inside the execution bar (`tickEntryLong` / `tickEntryShort`,
which fall back to the bar open when the bar has no ticks). -/
theorem C3_entry_no_lookahead :
    (∀ (cfg : EngineConfig) (s : LongState) (row : Row) (q : LongPosition),
      s.position = none → (stepLong cfg s row).position = some q →
      s.entry_signal = true ∧ q.entry_price = row.open_ + cfg.spread_pts / 2 ∧
        q.entry_time = row.ts) ∧
    (∀ (cfg : EngineConfig) (s : LongState) (row : Row),
      s.position = none → s.entry_signal = false →
      (stepLong cfg s row).position = none) ∧
    (∀ (cfg : EngineConfig) (s : ShortState) (row : Row) (q : ShortPosition),
      s.position = none → (stepShort cfg s row).position = some q →
      s.entry_signal = true ∧ q.entry_price = row.open_ - cfg.spread_pts / 2 ∧
        q.entry_time = row.ts) ∧
    (∀ (cfg : EngineConfig) (s : ShortState) (row : Row),
      s.position = none → s.entry_signal = false →
      (stepShort cfg s row).position = none) ∧
    (∀ (cfg : EngineConfig) (ticks : List Tick) (s : TickLongState) (row : Row)
        (q : TickLongPosition),
      s.position = none → (stepTickLong cfg ticks s row).position = some q →
      s.entry_signal = true ∧ q.entry_price = tickEntryLong ticks row ∧
        q.entry_time = row.ts) ∧
    (∀ (cfg : EngineConfig) (ticks : List Tick) (s : TickLongState) (row : Row),
      s.position = none → s.entry_signal = false →
      (stepTickLong cfg ticks s row).position = none) ∧
    (∀ (cfg : EngineConfig) (ticks : List Tick) (s : TickShortState) (row : Row)
        (q : TickShortPosition),
      s.position = none → (stepTickShort cfg ticks s row).position = some q →
      s.entry_signal = true ∧ q.entry_price = tickEntryShort ticks row ∧
        q.entry_time = row.ts) ∧
    (∀ (cfg : EngineConfig) (ticks : List Tick) (s : TickShortState) (row : Row),
      s.position = none → s.entry_signal = false →
      (stepTickShort cfg ticks s row).position = none) := by
  refine ⟨?_, ?_, ?_, ?_, ?_, ?_, ?_, ?_⟩
  · intro cfg s row q hpos h
    rcases stepLong_position_src h with h1 | ⟨p0, hp0, hq⟩
    · rw [hpos] at h1
      cases h1
    · rcases hp0 with hp0 | ⟨_, hsig, hmk⟩
      · rw [hpos] at hp0
        cases hp0
      · subst hmk
        subst hq
        exact ⟨hsig, (longManage_fields cfg row _).1, (longManage_fields cfg row _).2.1⟩
  · intro cfg s row hpos hsig
    exact (stepLong_no_pending hpos hsig).1
  · intro cfg s row q hpos h
    rcases stepShort_position_src h with h1 | ⟨p0, hp0, hq⟩
    · rw [hpos] at h1
      cases h1
    · rcases hp0 with hp0 | ⟨_, hsig, hmk⟩
      · rw [hpos] at hp0
        cases hp0
      · subst hmk
        subst hq
        exact ⟨hsig, (shortManage_fields cfg row _).1, (shortManage_fields cfg row _).2.1⟩
  · intro cfg s row hpos hsig
    exact (stepShort_no_pending hpos hsig).1
  · intro cfg ticks s row q hpos h
    rcases stepTickLong_position_src h with h1 | ⟨p0, hp0, hq⟩
    · rw [hpos] at h1
      cases h1
    · rcases hp0 with hp0 | ⟨_, hsig, hmk⟩
      · rw [hpos] at hp0
        cases hp0
      · subst hmk
        subst hq
        exact ⟨hsig, (tickLongManageAndDecide_entry cfg row _ _).1,
          (tickLongManageAndDecide_entry cfg row _ _).2⟩
  · intro cfg ticks s row hpos hsig
    exact (stepTickLong_no_pending hpos hsig).1
  · intro cfg ticks s row q hpos h
    rcases stepTickShort_position_src h with h1 | ⟨p0, hp0, hq⟩
    · rw [hpos] at h1
      cases h1
    · rcases hp0 with hp0 | ⟨_, hsig, hmk⟩
      · rw [hpos] at hp0
        cases hp0
      · subst hmk
        subst hq
        exact ⟨hsig, (tickShortManageAndDecide_entry cfg row _ _).1,
          (tickShortManageAndDecide_entry cfg row _ _).2⟩
  · intro cfg ticks s row hpos hsig
    exact (stepTickShort_no_pending hpos hsig).1

/-- Witness for C3: each conjunct applied at a concrete armed (or idle)
state and in-session bar. -/
theorem C3_entry_no_lookahead_witness :
    (sArmW.entry_signal = true ∧ qW.entry_price = rowQuietW.open_ + cfgC2.spread_pts / 2 ∧
      qW.entry_time = rowQuietW.ts) ∧
    (stepLong cfgC2 (initLongState cfgC2) rowQuietW).position = none ∧
    (sArmShortW.entry_signal = true ∧ qWs.entry_price = rowQuietW.open_ - cfgC2.spread_pts / 2 ∧
      qWs.entry_time = rowQuietW.ts) ∧
    (stepShort cfgC2 (initShortState cfgC2) rowQuietW).position = none ∧
    (sArmTickW.entry_signal = true ∧ qWtl.entry_price = tickEntryLong ticksT rowQuietW ∧
      qWtl.entry_time = rowQuietW.ts) ∧
    (stepTickLong cfgT ticksT (initTickLongState cfgT) rowQuietW).position = none ∧
    (sArmTickShortW.entry_signal = true ∧ qWts.entry_price = tickEntryShort ticksT rowQuietW ∧
      qWts.entry_time = rowQuietW.ts) ∧
    (stepTickShort cfgT ticksT (initTickShortState cfgT) rowQuietW).position = none :=
  ⟨C3_entry_no_lookahead.1 cfgC2 sArmW rowQuietW qW rfl (by
      norm_num [stepLong, dayResetLong, makeLongPosition, longExitPhase, longManage,
        longExitDecision, MarginValidator.can_open_position, MarginValidator.get_account_balance,
        MarginValidator.calculate_required_margin, MarginValidator.calculate_used_margin,
        is_session_open, is_eod_bar, _get_spread_for_time, _calculate_overnight_charge,
        Val.leq, Val.gtq, cfgC2, marginW, sArmW, rowQuietW, qW]),
   C3_entry_no_lookahead.2.1 cfgC2 (initLongState cfgC2) rowQuietW rfl rfl,
   C3_entry_no_lookahead.2.2.1 cfgC2 sArmShortW rowQuietW qWs rfl (by
      norm_num [stepShort, dayResetShort, makeShortPosition, shortExitPhase, shortManage,
        shortExitDecision, MarginValidator.can_open_position, MarginValidator.get_account_balance,
        MarginValidator.calculate_required_margin, MarginValidator.calculate_used_margin,
        is_session_open, is_eod_bar, _get_spread_for_time, _calculate_overnight_charge,
        Val.geq, Val.ltq, cfgC2, marginW, sArmShortW, rowQuietW, qWs]),
   C3_entry_no_lookahead.2.2.2.1 cfgC2 (initShortState cfgC2) rowQuietW rfl rfl,
   C3_entry_no_lookahead.2.2.2.2.1 cfgT ticksT sArmTickW rowQuietW qWtl rfl (by
      norm_num [stepTickLong, dayResetTickLong, makeTickLongPosition, tickEntryLong,
        tickLongExitPhase, tickLongNight, tickLongManageAndDecide, tickWalkLong, tickUpdateLong,
        get_ticks_for_bar, ticksT, MarginValidator.can_open_position,
        MarginValidator.get_account_balance, MarginValidator.calculate_required_margin,
        MarginValidator.calculate_used_margin, is_eod_bar, Ts.toMinQ, Val.leq, Val.gtq,
        cfgT, marginW, sArmTickW, rowQuietW, qWtl, List.filter]),
   C3_entry_no_lookahead.2.2.2.2.2.1 cfgT ticksT (initTickLongState cfgT) rowQuietW rfl rfl,
   C3_entry_no_lookahead.2.2.2.2.2.2.1 cfgT ticksT sArmTickShortW rowQuietW qWts rfl (by
      norm_num [stepTickShort, dayResetTickShort, makeTickShortPosition, tickEntryShort,
        tickShortExitPhase, tickShortNight, tickShortManageAndDecide, tickWalkShort,
        tickUpdateShort, get_ticks_for_bar, ticksT, MarginValidator.can_open_position,
        MarginValidator.get_account_balance, MarginValidator.calculate_required_margin,
        MarginValidator.calculate_used_margin, is_eod_bar, Ts.toMinQ, Val.geq, Val.ltq,
        cfgT, marginW, sArmTickShortW, rowQuietW, qWts, List.filter]),
   C3_entry_no_lookahead.2.2.2.2.2.2.2 cfgT ticksT (initTickShortState cfgT) rowQuietW rfl rfl⟩

/-!
C6: trailing-stop monotonicity and activation lemmas.
-/

theorem longManage_trailing_mono (cfg : EngineConfig) (row : Row) (p : LongPosition)
    (hinv : cfg.long_use_trailing = false → p.trailing_sl_level = p.entry_price - cfg.long_sl) :
    p.trailing_sl_level ≤ (longManage cfg row p).trailing_sl_level := by
  simp only [longManage]
  split_ifs <;> simp_all <;> linarith

theorem shortManage_trailing_mono (cfg : EngineConfig) (row : Row) (p : ShortPosition)
    (hinv : cfg.short_use_trailing = false → p.trailing_sl_level = p.entry_price + cfg.short_sl) :
    (shortManage cfg row p).trailing_sl_level ≤ p.trailing_sl_level := by
  simp only [shortManage]
  split_ifs <;> simp_all <;> linarith

theorem bothLongManage_trailing_mono (cfg : EngineConfig) (row : Row) (bh : ℚ)
    (p : BothLongPosition) :
    p.trailing_sl_level ≤ (bothLongManage cfg row bh p).trailing_sl_level := by
  simp only [bothLongManage]
  split_ifs <;> simp_all <;> linarith

theorem bothShortManage_trailing_mono (cfg : EngineConfig) (row : Row) (al : ℚ)
    (p : BothShortPosition) :
    (bothShortManage cfg row al p).trailing_sl_level ≤ p.trailing_sl_level := by
  simp only [bothShortManage]
  split_ifs <;> simp_all <;> linarith

theorem tickUpdateLong_sl_mono (cfg : EngineConfig) (p : TickLongPosition) (t : Tick) :
    p.sl_level ≤ (tickUpdateLong cfg p t).sl_level := by
  simp only [tickUpdateLong]
  split_ifs <;> simp_all <;> linarith

theorem tickUpdateShort_sl_mono (cfg : EngineConfig) (p : TickShortPosition) (t : Tick) :
    (tickUpdateShort cfg p t).sl_level ≤ p.sl_level := by
  simp only [tickUpdateShort]
  split_ifs <;> simp_all <;> linarith

theorem tickWalkLong_sl_mono (cfg : EngineConfig) (l : List Tick) :
    ∀ p : TickLongPosition, p.sl_level ≤ (tickWalkLong cfg p l).1.sl_level := by
  induction l with
  | nil => exact fun p => le_refl _
  | cons t rest ih =>
      intro p
      simp only [tickWalkLong]
      split_ifs <;>
        first
          | exact tickUpdateLong_sl_mono cfg p t
          | exact le_trans (tickUpdateLong_sl_mono cfg p t) (ih _)

theorem tickWalkShort_sl_mono (cfg : EngineConfig) (l : List Tick) :
    ∀ p : TickShortPosition, (tickWalkShort cfg p l).1.sl_level ≤ p.sl_level := by
  induction l with
  | nil => exact fun p => le_refl _
  | cons t rest ih =>
      intro p
      simp only [tickWalkShort]
      split_ifs <;>
        first
          | exact tickUpdateShort_sl_mono cfg p t
          | exact le_trans (ih _) (tickUpdateShort_sl_mono cfg p t)

set_option maxHeartbeats 1600000 in
theorem longManage_activation (cfg : EngineConfig) (row : Row) (p : LongPosition)
    (h : (longManage cfg row p).trailing_stop_active = true) :
    p.trailing_stop_active = true ∨
      cfg.long_trailing_activation ≤ (longManage cfg row p).highest_bid - p.entry_price := by
  simp only [longManage] at h ⊢
  split_ifs at h ⊢ <;> simp_all

set_option maxHeartbeats 1600000 in
theorem shortManage_activation (cfg : EngineConfig) (row : Row) (p : ShortPosition)
    (h : (shortManage cfg row p).trailing_stop_active = true) :
    p.trailing_stop_active = true ∨
      cfg.short_trailing_activation ≤ p.entry_price - (shortManage cfg row p).lowest_ask := by
  simp only [shortManage] at h ⊢
  split_ifs at h ⊢ <;> simp_all

theorem tickUpdateLong_activation (cfg : EngineConfig) (p : TickLongPosition) (t : Tick)
    (h : (tickUpdateLong cfg p t).trailing_active = true) :
    p.trailing_active = true ∨
      cfg.long_trailing_activation ≤ (tickUpdateLong cfg p t).highest_bid - p.entry_price := by
  simp only [tickUpdateLong] at h ⊢
  split_ifs at h ⊢ <;> simp_all

theorem tickUpdateShort_activation (cfg : EngineConfig) (p : TickShortPosition) (t : Tick)
    (h : (tickUpdateShort cfg p t).trailing_active = true) :
    p.trailing_active = true ∨
      cfg.short_trailing_activation ≤ p.entry_price - (tickUpdateShort cfg p t).lowest_ask := by
  simp only [tickUpdateShort] at h ⊢
  split_ifs at h ⊢ <;> simp_all

/-- A tick whose bid is far above `pWtick`'s entry (activates the LONG
trailing stop). -/
def tickHiW : Tick := { tmin := 726, bid := 130, ask := 1301/10 }

/-- A tick whose ask is far below `qWts`'s entry (activates the SHORT
trailing stop). -/
def tickLoW : Tick := { tmin := 726, bid := 599/10, ask := 60 }

/-- C6: within one open position the trailing stop level only moves
favorably.  Over one bar of management it is non-decreasing for LONG
positions (bar engine, under the engine's invariant that a non-trailing
configuration pins the level at entry minus stop distance; BOTH-mode
engine unconditionally) and non-increasing for SHORT positions, and over
a whole tick walk the tick-engine stop level is non-decreasing (LONG) /
non-increasing (SHORT).  Trailing becomes active only when the
extremum-price profit has reached the activation threshold (last four
conjuncts). -/
theorem C6_trailing_monotone :
    (∀ (cfg : EngineConfig) (row : Row) (p : LongPosition),
      (cfg.long_use_trailing = false → p.trailing_sl_level = p.entry_price - cfg.long_sl) →
      p.trailing_sl_level ≤ (longManage cfg row p).trailing_sl_level) ∧
    (∀ (cfg : EngineConfig) (row : Row) (p : ShortPosition),
      (cfg.short_use_trailing = false → p.trailing_sl_level = p.entry_price + cfg.short_sl) →
      (shortManage cfg row p).trailing_sl_level ≤ p.trailing_sl_level) ∧
    (∀ (cfg : EngineConfig) (row : Row) (bh : ℚ) (p : BothLongPosition),
      p.trailing_sl_level ≤ (bothLongManage cfg row bh p).trailing_sl_level) ∧
    (∀ (cfg : EngineConfig) (row : Row) (al : ℚ) (p : BothShortPosition),
      (bothShortManage cfg row al p).trailing_sl_level ≤ p.trailing_sl_level) ∧
    (∀ (cfg : EngineConfig) (l : List Tick) (p : TickLongPosition),
      p.sl_level ≤ (tickWalkLong cfg p l).1.sl_level) ∧
    (∀ (cfg : EngineConfig) (l : List Tick) (p : TickShortPosition),
      (tickWalkShort cfg p l).1.sl_level ≤ p.sl_level) ∧
    (∀ (cfg : EngineConfig) (row : Row) (p : LongPosition),
      (longManage cfg row p).trailing_stop_active = true →
      p.trailing_stop_active = true ∨
        cfg.long_trailing_activation ≤ (longManage cfg row p).highest_bid - p.entry_price) ∧
    (∀ (cfg : EngineConfig) (row : Row) (p : ShortPosition),
      (shortManage cfg row p).trailing_stop_active = true →
      p.trailing_stop_active = true ∨
        cfg.short_trailing_activation ≤ p.entry_price - (shortManage cfg row p).lowest_ask) ∧
    (∀ (cfg : EngineConfig) (p : TickLongPosition) (t : Tick),
      (tickUpdateLong cfg p t).trailing_active = true →
      p.trailing_active = true ∨
        cfg.long_trailing_activation ≤ (tickUpdateLong cfg p t).highest_bid - p.entry_price) ∧
    (∀ (cfg : EngineConfig) (p : TickShortPosition) (t : Tick),
      (tickUpdateShort cfg p t).trailing_active = true →
      p.trailing_active = true ∨
        cfg.short_trailing_activation ≤ p.entry_price - (tickUpdateShort cfg p t).lowest_ask) :=
  ⟨longManage_trailing_mono, shortManage_trailing_mono, bothLongManage_trailing_mono,
   bothShortManage_trailing_mono, tickWalkLong_sl_mono, tickWalkShort_sl_mono,
   longManage_activation, shortManage_activation, tickUpdateLong_activation,
   tickUpdateShort_activation⟩

/-- Witness for C6: the monotonicity and activation statements at
concrete positions, bars and ticks. -/
theorem C6_trailing_monotone_witness :
    pW.trailing_sl_level ≤ (longManage cfgC2 rowHighW pW).trailing_sl_level ∧
    (shortManage cfgC2 rowW qWs).trailing_sl_level ≤ qWs.trailing_sl_level ∧
    pWboth.trailing_sl_level ≤ (bothLongManage cfgC4 rowQuietW 0 pWboth).trailing_sl_level ∧
    pWtick.sl_level ≤ (tickWalkLong cfgT pWtick [tickW]).1.sl_level ∧
    (tickWalkShort cfgT qWts [tickW]).1.sl_level ≤ qWts.sl_level ∧
    (pW.trailing_stop_active = true ∨
      cfgC2.long_trailing_activation ≤ (longManage cfgC2 rowHighW pW).highest_bid - pW.entry_price) ∧
    (qWs.trailing_stop_active = true ∨
      cfgC2.short_trailing_activation ≤ qWs.entry_price - (shortManage cfgC2 rowW qWs).lowest_ask) ∧
    (pWtick.trailing_active = true ∨
      cfgT.long_trailing_activation ≤ (tickUpdateLong cfgT pWtick tickHiW).highest_bid - pWtick.entry_price) ∧
    (qWts.trailing_active = true ∨
      cfgT.short_trailing_activation ≤ qWts.entry_price - (tickUpdateShort cfgT qWts tickLoW).lowest_ask) :=
  ⟨C6_trailing_monotone.1 cfgC2 rowHighW pW (by intro hx; simp [cfgC2] at hx),
   C6_trailing_monotone.2.1 cfgC2 rowW qWs (by intro hx; simp [cfgC2] at hx),
   C6_trailing_monotone.2.2.1 cfgC4 rowQuietW 0 pWboth,
   C6_trailing_monotone.2.2.2.2.1 cfgT [tickW] pWtick,
   C6_trailing_monotone.2.2.2.2.2.1 cfgT [tickW] qWts,
   C6_trailing_monotone.2.2.2.2.2.2.1 cfgC2 rowHighW pW (by
      norm_num [longManage, _get_spread_for_time, is_session_open, _calculate_overnight_charge,
        cfgC2, rowHighW, pW]),
   C6_trailing_monotone.2.2.2.2.2.2.2.1 cfgC2 rowW qWs (by
      norm_num [shortManage, _get_spread_for_time, is_session_open, _calculate_overnight_charge,
        cfgC2, rowW, qWs]),
   C6_trailing_monotone.2.2.2.2.2.2.2.2.1 cfgT pWtick tickHiW (by
      norm_num [tickUpdateLong, cfgT, pWtick, tickHiW]),
   C6_trailing_monotone.2.2.2.2.2.2.2.2.2 cfgT qWts tickLoW (by
      norm_num [tickUpdateShort, cfgT, qWts, tickLoW])⟩

/-!
C7: exit-reason and exit-time lemmas.
-/

theorem longExitDecision_reason {cfg : EngineConfig} {row : Row} {p : LongPosition}
    {er : ℚ × String} (h : longExitDecision cfg row p = some er) :
    er.2 = "SL" ∨ er.2 = "TRAILING_SL" ∨ er.2 = "TP" ∨ er.2 = "EOD" ∨
      er.2 = "MAX_HOLD_DAYS" := by
  simp only [longExitDecision] at h
  by_cases h1 : row.low - _get_spread_for_time cfg row.ts.minute / 2 ≤ p.trailing_sl_level
  · rw [if_pos h1] at h
    have h2 := Option.some.inj h
    subst h2
    split_ifs <;> simp
  · rw [if_neg h1] at h
    by_cases h2 : p.entry_price + cfg.long_tp ≤
        row.high - _get_spread_for_time cfg row.ts.minute / 2
    · rw [if_pos h2] at h
      have h3 := Option.some.inj h
      subst h3
      simp
    · rw [if_neg h2] at h
      by_cases h0 : 0 < cfg.long_max_hold_days ∧ (cfg.long_max_hold_days : ℤ) ≤ p.days_held
      · rw [if_pos h0] at h
        have h3 := Option.some.inj h
        subst h3
        simp
      · rw [if_neg h0] at h
        by_cases h4 : cfg.long_force_eod = true ∧ is_eod_bar cfg row.ts.minute 30 = true
        · rw [if_pos h4] at h
          have h3 := Option.some.inj h
          subst h3
          simp
        · rw [if_neg h4] at h
          simp at h

theorem shortExitDecision_reason {cfg : EngineConfig} {row : Row} {p : ShortPosition}
    {er : ℚ × String} (h : shortExitDecision cfg row p = some er) :
    er.2 = "SL" ∨ er.2 = "TRAILING_SL" ∨ er.2 = "TP" ∨ er.2 = "EOD" ∨
      er.2 = "MAX_HOLD_DAYS" := by
  simp only [shortExitDecision] at h
  by_cases h1 : p.trailing_sl_level ≤ row.high + _get_spread_for_time cfg row.ts.minute / 2
  · rw [if_pos h1] at h
    have h2 := Option.some.inj h
    subst h2
    split_ifs <;> simp
  · rw [if_neg h1] at h
    by_cases h2 : row.low + _get_spread_for_time cfg row.ts.minute / 2 ≤
        p.entry_price - cfg.short_tp
    · rw [if_pos h2] at h
      have h3 := Option.some.inj h
      subst h3
      simp
    · rw [if_neg h2] at h
      by_cases h0 : 0 < cfg.short_max_hold_days ∧ (cfg.short_max_hold_days : ℤ) ≤ p.days_held
      · rw [if_pos h0] at h
        have h3 := Option.some.inj h
        subst h3
        simp
      · rw [if_neg h0] at h
        by_cases h4 : cfg.short_force_eod = true ∧ is_eod_bar cfg row.ts.minute 30 = true
        · rw [if_pos h4] at h
          have h3 := Option.some.inj h
          subst h3
          simp
        · rw [if_neg h4] at h
          simp at h

theorem tickWalkLong_exit (cfg : EngineConfig) (l : List Tick) :
    ∀ (p : TickLongPosition) (e : ℚ × String × ℚ),
      (tickWalkLong cfg p l).2 = some e →
      (e.2.1 = "SL" ∨ e.2.1 = "TRAILING_SL" ∨ e.2.1 = "TP") ∧ ∃ t ∈ l, e.2.2 = t.tmin := by
  induction l with
  | nil =>
      intro p e h
      simp [tickWalkLong] at h
  | cons t rest ih =>
      intro p e h
      simp only [tickWalkLong] at h
      split_ifs at h <;>
        first
          | (have h3 := Option.some.inj h
             subst h3
             exact ⟨by simp, t, List.mem_cons_self t rest, rfl⟩)
          | (rcases ih _ _ h with ⟨hr, t2, ht2, he⟩
             exact ⟨hr, t2, List.mem_cons_of_mem t ht2, he⟩)

theorem tickWalkShort_exit (cfg : EngineConfig) (l : List Tick) :
    ∀ (p : TickShortPosition) (e : ℚ × String × ℚ),
      (tickWalkShort cfg p l).2 = some e →
      (e.2.1 = "SL" ∨ e.2.1 = "TRAILING_SL" ∨ e.2.1 = "TP") ∧ ∃ t ∈ l, e.2.2 = t.tmin := by
  induction l with
  | nil =>
      intro p e h
      simp [tickWalkShort] at h
  | cons t rest ih =>
      intro p e h
      simp only [tickWalkShort] at h
      split_ifs at h <;>
        first
          | (have h3 := Option.some.inj h
             subst h3
             exact ⟨by simp, t, List.mem_cons_self t rest, rfl⟩)
          | (rcases ih _ _ h with ⟨hr, t2, ht2, he⟩
             exact ⟨hr, t2, List.mem_cons_of_mem t ht2, he⟩)

theorem tickLongDecide_exit {cfg : EngineConfig} {row : Row} {bt : List Tick}
    {p : TickLongPosition} {er : ℚ × String × ℚ}
    (h : (tickLongManageAndDecide cfg row bt p).2 = some er) :
    (er.2.1 = "SL" ∨ er.2.1 = "TRAILING_SL" ∨ er.2.1 = "TP" ∨ er.2.1 = "EOD" ∨
      er.2.1 = "MAX_HOLD_DAYS") ∧
    (er.2.2 = row.ts.toMinQ ∨ ∃ t ∈ bt, er.2.2 = t.tmin) := by
  simp only [tickLongManageAndDecide] at h
  by_cases h1 : 0 < cfg.long_max_hold_days ∧
      (cfg.long_max_hold_days : ℤ) ≤ (tickLongNight cfg row p).days_held
  · rw [if_pos h1] at h
    have h2 := Option.some.inj h
    subst h2
    exact ⟨by simp, Or.inl rfl⟩
  · rw [if_neg h1] at h
    rcases he : (tickWalkLong cfg (tickLongNight cfg row p) bt).2 with _ | e
    · rw [he] at h
      by_cases h2 : cfg.long_force_eod = true ∧ is_eod_bar cfg row.ts.minute 30 = true
      · rw [if_pos h2] at h
        rcases hgl : bt.getLast? with _ | t <;> rw [hgl] at h <;>
          [skip; skip] <;> {
            have h3 := Option.some.inj h
            subst h3
            exact ⟨by simp, Or.inl rfl⟩ }
      · rw [if_neg h2] at h
        simp at h
    · rw [he] at h
      have h3 := Option.some.inj h
      subst h3
      rcases tickWalkLong_exit cfg bt _ _ he with ⟨hr, t, ht, htm⟩
      exact ⟨by tauto, Or.inr ⟨t, ht, htm⟩⟩

theorem tickShortDecide_exit {cfg : EngineConfig} {row : Row} {bt : List Tick}
    {p : TickShortPosition} {er : ℚ × String × ℚ}
    (h : (tickShortManageAndDecide cfg row bt p).2 = some er) :
    (er.2.1 = "SL" ∨ er.2.1 = "TRAILING_SL" ∨ er.2.1 = "TP" ∨ er.2.1 = "EOD" ∨
      er.2.1 = "MAX_HOLD_DAYS") ∧
    (er.2.2 = row.ts.toMinQ ∨ ∃ t ∈ bt, er.2.2 = t.tmin) := by
  simp only [tickShortManageAndDecide] at h
  by_cases h1 : 0 < cfg.short_max_hold_days ∧
      (cfg.short_max_hold_days : ℤ) ≤ (tickShortNight cfg row p).days_held
  · rw [if_pos h1] at h
    have h2 := Option.some.inj h
    subst h2
    exact ⟨by simp, Or.inl rfl⟩
  · rw [if_neg h1] at h
    rcases he : (tickWalkShort cfg (tickShortNight cfg row p) bt).2 with _ | e
    · rw [he] at h
      by_cases h2 : cfg.short_force_eod = true ∧ is_eod_bar cfg row.ts.minute 30 = true
      · rw [if_pos h2] at h
        rcases hgl : bt.getLast? with _ | t <;> rw [hgl] at h <;>
          [skip; skip] <;> {
            have h3 := Option.some.inj h
            subst h3
            exact ⟨by simp, Or.inl rfl⟩ }
      · rw [if_neg h2] at h
        simp at h
    · rw [he] at h
      have h3 := Option.some.inj h
      subst h3
      rcases tickWalkShort_exit cfg bt _ _ he with ⟨hr, t, ht, htm⟩
      exact ⟨by tauto, Or.inr ⟨t, ht, htm⟩⟩

theorem get_ticks_for_bar_lb {ticks : List Tick} {bs : Ts} {d : ℕ} {t : Tick}
    (h : t ∈ get_ticks_for_bar ticks bs d) : bs.toMinQ ≤ t.tmin := by
  simp only [get_ticks_for_bar, List.mem_filter, decide_eq_true_eq] at h
  exact h.2.1

/-!
C7: fold invariants — every emitted trade opens no later than it closes
and carries one of the five exit-reason labels.
-/

theorem foldLong_time_reason (cfg : EngineConfig) :
    ∀ (rows : List Row) (s : LongState),
      rows.Pairwise (fun r1 r2 => r1.ts.toMinQ ≤ r2.ts.toMinQ) →
      (∀ t ∈ s.trades, t.datetime_open ≤ t.datetime_close ∧
        (t.exit_reason = "SL" ∨ t.exit_reason = "TRAILING_SL" ∨ t.exit_reason = "TP" ∨
          t.exit_reason = "EOD" ∨ t.exit_reason = "MAX_HOLD_DAYS")) →
      (∀ p, s.position = some p → ∀ r ∈ rows, p.entry_time.toMinQ ≤ r.ts.toMinQ) →
      ∀ t ∈ (rows.foldl (stepLong cfg) s).trades,
        t.datetime_open ≤ t.datetime_close ∧
        (t.exit_reason = "SL" ∨ t.exit_reason = "TRAILING_SL" ∨ t.exit_reason = "TP" ∨
          t.exit_reason = "EOD" ∨ t.exit_reason = "MAX_HOLD_DAYS") := by
  intro rows
  induction rows with
  | nil => intro s _ htr _ t ht; exact htr t ht
  | cons row rest ih =>
      intro s hsort htr hpos t ht
      rw [List.foldl_cons] at ht
      rcases List.pairwise_cons.mp hsort with ⟨hhead, hrest⟩
      refine ih (stepLong cfg s row) hrest ?_ ?_ t ht
      · intro u hu
        rcases stepLong_trades_src u hu with hmem | ⟨p0, er, hp0, hd, heq⟩
        · exact htr u hmem
        · have hle : p0.entry_time.toMinQ ≤ row.ts.toMinQ := by
            rcases hp0 with hp0 | ⟨_, _, hmk⟩
            · exact hpos p0 hp0 row (List.mem_cons_self row rest)
            · subst hmk
              exact le_refl _
          subst heq
          constructor
          · show (longManage cfg row p0).entry_time.toMinQ ≤ row.ts.toMinQ
            rw [(longManage_fields cfg row p0).2.1]
            exact hle
          · show er.2 = "SL" ∨ er.2 = "TRAILING_SL" ∨ er.2 = "TP" ∨ er.2 = "EOD" ∨
              er.2 = "MAX_HOLD_DAYS"
            exact longExitDecision_reason hd
      · intro p hp r hr
        rcases stepLong_position_src hp with h1 | ⟨p0, hp0, hq⟩
        · exact hpos p h1 r (List.mem_cons_of_mem row hr)
        · subst hq
          rw [(longManage_fields cfg row p0).2.1]
          rcases hp0 with hp0 | ⟨_, _, hmk⟩
          · exact hpos p0 hp0 r (List.mem_cons_of_mem row hr)
          · subst hmk
            exact hhead r hr

theorem foldShort_time_reason (cfg : EngineConfig) :
    ∀ (rows : List Row) (s : ShortState),
      rows.Pairwise (fun r1 r2 => r1.ts.toMinQ ≤ r2.ts.toMinQ) →
      (∀ t ∈ s.trades, t.datetime_open ≤ t.datetime_close ∧
        (t.exit_reason = "SL" ∨ t.exit_reason = "TRAILING_SL" ∨ t.exit_reason = "TP" ∨
          t.exit_reason = "EOD" ∨ t.exit_reason = "MAX_HOLD_DAYS")) →
      (∀ p, s.position = some p → ∀ r ∈ rows, p.entry_time.toMinQ ≤ r.ts.toMinQ) →
      ∀ t ∈ (rows.foldl (stepShort cfg) s).trades,
        t.datetime_open ≤ t.datetime_close ∧
        (t.exit_reason = "SL" ∨ t.exit_reason = "TRAILING_SL" ∨ t.exit_reason = "TP" ∨
          t.exit_reason = "EOD" ∨ t.exit_reason = "MAX_HOLD_DAYS") := by
  intro rows
  induction rows with
  | nil => intro s _ htr _ t ht; exact htr t ht
  | cons row rest ih =>
      intro s hsort htr hpos t ht
      rw [List.foldl_cons] at ht
      rcases List.pairwise_cons.mp hsort with ⟨hhead, hrest⟩
      refine ih (stepShort cfg s row) hrest ?_ ?_ t ht
      · intro u hu
        rcases stepShort_trades_src u hu with hmem | ⟨p0, er, hp0, hd, heq⟩
        · exact htr u hmem
        · have hle : p0.entry_time.toMinQ ≤ row.ts.toMinQ := by
            rcases hp0 with hp0 | ⟨_, _, hmk⟩
            · exact hpos p0 hp0 row (List.mem_cons_self row rest)
            · subst hmk
              exact le_refl _
          subst heq
          constructor
          · show (shortManage cfg row p0).entry_time.toMinQ ≤ row.ts.toMinQ
            rw [(shortManage_fields cfg row p0).2.1]
            exact hle
          · show er.2 = "SL" ∨ er.2 = "TRAILING_SL" ∨ er.2 = "TP" ∨ er.2 = "EOD" ∨
              er.2 = "MAX_HOLD_DAYS"
            exact shortExitDecision_reason hd
      · intro p hp r hr
        rcases stepShort_position_src hp with h1 | ⟨p0, hp0, hq⟩
        · exact hpos p h1 r (List.mem_cons_of_mem row hr)
        · subst hq
          rw [(shortManage_fields cfg row p0).2.1]
          rcases hp0 with hp0 | ⟨_, _, hmk⟩
          · exact hpos p0 hp0 r (List.mem_cons_of_mem row hr)
          · subst hmk
            exact hhead r hr

theorem foldTickLong_time_reason (cfg : EngineConfig) (ticks : List Tick) :
    ∀ (rows : List Row) (s : TickLongState),
      rows.Pairwise (fun r1 r2 => r1.ts.toMinQ ≤ r2.ts.toMinQ) →
      (∀ t ∈ s.trades, t.datetime_open ≤ t.datetime_close ∧
        (t.exit_reason = "SL" ∨ t.exit_reason = "TRAILING_SL" ∨ t.exit_reason = "TP" ∨
          t.exit_reason = "EOD" ∨ t.exit_reason = "MAX_HOLD_DAYS")) →
      (∀ p, s.position = some p → ∀ r ∈ rows, p.entry_time.toMinQ ≤ r.ts.toMinQ) →
      ∀ t ∈ (rows.foldl (stepTickLong cfg ticks) s).trades,
        t.datetime_open ≤ t.datetime_close ∧
        (t.exit_reason = "SL" ∨ t.exit_reason = "TRAILING_SL" ∨ t.exit_reason = "TP" ∨
          t.exit_reason = "EOD" ∨ t.exit_reason = "MAX_HOLD_DAYS") := by
  intro rows
  induction rows with
  | nil => intro s _ htr _ t ht; exact htr t ht
  | cons row rest ih =>
      intro s hsort htr hpos t ht
      rw [List.foldl_cons] at ht
      rcases List.pairwise_cons.mp hsort with ⟨hhead, hrest⟩
      refine ih (stepTickLong cfg ticks s row) hrest ?_ ?_ t ht
      · intro u hu
        rcases stepTickLong_trades_src u hu with hmem | ⟨p0, er, hp0, hd, heq⟩
        · exact htr u hmem
        · have hle : p0.entry_time.toMinQ ≤ row.ts.toMinQ := by
            rcases hp0 with hp0 | ⟨_, _, hmk⟩
            · exact hpos p0 hp0 row (List.mem_cons_self row rest)
            · subst hmk
              exact le_refl _
          have hclose : row.ts.toMinQ ≤ er.2.2 := by
            rcases (tickLongDecide_exit hd).2 with he | ⟨t2, ht2, he⟩
            · rw [he]
            · rw [he]
              exact get_ticks_for_bar_lb ht2
          subst heq
          constructor
          · show (tickLongManageAndDecide cfg row
                (get_ticks_for_bar ticks row.ts 30) p0).1.entry_time.toMinQ ≤ er.2.2
            rw [(tickLongManageAndDecide_entry cfg row _ p0).2]
            exact le_trans hle hclose
          · show er.2.1 = "SL" ∨ er.2.1 = "TRAILING_SL" ∨ er.2.1 = "TP" ∨ er.2.1 = "EOD" ∨
              er.2.1 = "MAX_HOLD_DAYS"
            exact (tickLongDecide_exit hd).1
      · intro p hp r hr
        rcases stepTickLong_position_src hp with h1 | ⟨p0, hp0, hq⟩
        · exact hpos p h1 r (List.mem_cons_of_mem row hr)
        · subst hq
          rw [(tickLongManageAndDecide_entry cfg row _ p0).2]
          rcases hp0 with hp0 | ⟨_, _, hmk⟩
          · exact hpos p0 hp0 r (List.mem_cons_of_mem row hr)
          · subst hmk
            exact hhead r hr

theorem tickShortExitPhase_trades {cfg : EngineConfig} {row : Row} {bt : List Tick}
    {s : TickShortState} :
    ∀ t ∈ (tickShortExitPhase cfg row bt s).trades, t ∈ s.trades ∨
      ∃ p0 er, s.position = some p0 ∧
        (tickShortManageAndDecide cfg row bt p0).2 = some er ∧
        t = closeTickShort cfg (tickShortManageAndDecide cfg row bt p0).1 er.1 er.2.1 er.2.2 := by
  intro t ht
  rcases hp : s.position with _ | p0
  · rw [tickShortExitPhase_none hp] at ht; exact Or.inl ht
  · simp only [tickShortExitPhase, hp] at ht
    rcases hd : (tickShortManageAndDecide cfg row bt p0).2 with _ | er <;> rw [hd] at ht <;>
      simp at ht
    · exact Or.inl ht
    · rcases ht with h | h
      exacts [Or.inl h, Or.inr ⟨p0, er, rfl, hd, h⟩]

theorem stepTickShort_trades_src {cfg : EngineConfig} {ticks : List Tick} {s : TickShortState}
    {row : Row} :
    ∀ t ∈ (stepTickShort cfg ticks s row).trades, t ∈ s.trades ∨
      ∃ p0 er, (s.position = some p0 ∨
          (s.position = none ∧ s.entry_signal = true ∧
            p0 = makeTickShortPosition cfg row (tickEntryShort ticks row))) ∧
        (tickShortManageAndDecide cfg row (get_ticks_for_bar ticks row.ts 30) p0).2 = some er ∧
        t = closeTickShort cfg
          (tickShortManageAndDecide cfg row (get_ticks_for_bar ticks row.ts 30) p0).1
          er.1 er.2.1 er.2.2 := by
  intro t ht
  unfold stepTickShort at ht
  by_cases hn : row.rsi = Val.nan
  · rw [if_pos hn, dayResetTickShort_trades] at ht
    exact Or.inl ht
  · rw [if_neg hn] at ht
    simp only [] at ht
    set s2 := (if row.rsi.geq cfg.short_overbought = true then
      { dayResetTickShort row s with seen_overbought := true } else dayResetTickShort row s) with hs2
    have h2pos : s2.position = s.position := by
      rw [hs2]; split <;> simp [dayResetTickShort_position]
    have h2tr : s2.trades = s.trades := by
      rw [hs2]; split <;> simp [dayResetTickShort_trades]
    have h2sig : s2.entry_signal = true → s.entry_signal = true := by
      rw [hs2]; split <;> intro hx <;>
        exact dayResetTickShort_signal_true (by simpa using hx)
    by_cases harm : (s2.position = none ∧ s2.entry_signal = false ∧ s2.seen_overbought = true ∧
        row.rsi.ltq cfg.short_overbought = true ∧ row.entry_allowed = true)
    · rw [if_pos harm] at ht
      simp at ht
      rw [h2tr] at ht
      exact Or.inl ht
    · rw [if_neg harm] at ht
      by_cases hent : (s2.entry_signal = true ∧ s2.position = none)
      · rw [if_pos hent] at ht
        by_cases hm : (s2.margin.can_open_position (tickEntryShort ticks row) [] = true)
        · rw [if_pos hm] at ht
          rcases tickShortExitPhase_trades t ht with hmem | ⟨p0, er, hp0, hd, heq⟩
          · simp [h2tr] at hmem
            exact Or.inl hmem
          · simp at hp0
            exact Or.inr ⟨p0, er,
              Or.inr ⟨by rw [← h2pos]; exact hent.2, h2sig hent.1, hp0.symm⟩, hd, heq⟩
        · rw [if_neg hm] at ht
          simp [h2tr] at ht
          exact Or.inl ht
      · rw [if_neg hent] at ht
        rcases tickShortExitPhase_trades t ht with hmem | ⟨p0, er, hp0, hd, heq⟩
        · rw [h2tr] at hmem
          exact Or.inl hmem
        · rw [h2pos] at hp0
          exact Or.inr ⟨p0, er, Or.inl hp0, hd, heq⟩

theorem foldTickShort_time_reason (cfg : EngineConfig) (ticks : List Tick) :
    ∀ (rows : List Row) (s : TickShortState),
      rows.Pairwise (fun r1 r2 => r1.ts.toMinQ ≤ r2.ts.toMinQ) →
      (∀ t ∈ s.trades, t.datetime_open ≤ t.datetime_close ∧
        (t.exit_reason = "SL" ∨ t.exit_reason = "TRAILING_SL" ∨ t.exit_reason = "TP" ∨
          t.exit_reason = "EOD" ∨ t.exit_reason = "MAX_HOLD_DAYS")) →
      (∀ p, s.position = some p → ∀ r ∈ rows, p.entry_time.toMinQ ≤ r.ts.toMinQ) →
      ∀ t ∈ (rows.foldl (stepTickShort cfg ticks) s).trades,
        t.datetime_open ≤ t.datetime_close ∧
        (t.exit_reason = "SL" ∨ t.exit_reason = "TRAILING_SL" ∨ t.exit_reason = "TP" ∨
          t.exit_reason = "EOD" ∨ t.exit_reason = "MAX_HOLD_DAYS") := by
  intro rows
  induction rows with
  | nil => intro s _ htr _ t ht; exact htr t ht
  | cons row rest ih =>
      intro s hsort htr hpos t ht
      rw [List.foldl_cons] at ht
      rcases List.pairwise_cons.mp hsort with ⟨hhead, hrest⟩
      refine ih (stepTickShort cfg ticks s row) hrest ?_ ?_ t ht
      · intro u hu
        rcases stepTickShort_trades_src u hu with hmem | ⟨p0, er, hp0, hd, heq⟩
        · exact htr u hmem
        · have hle : p0.entry_time.toMinQ ≤ row.ts.toMinQ := by
            rcases hp0 with hp0 | ⟨_, _, hmk⟩
            · exact hpos p0 hp0 row (List.mem_cons_self row rest)
            · subst hmk
              exact le_refl _
          have hclose : row.ts.toMinQ ≤ er.2.2 := by
            rcases (tickShortDecide_exit hd).2 with he | ⟨t2, ht2, he⟩
            · rw [he]
            · rw [he]
              exact get_ticks_for_bar_lb ht2
          subst heq
          constructor
          · show (tickShortManageAndDecide cfg row
                (get_ticks_for_bar ticks row.ts 30) p0).1.entry_time.toMinQ ≤ er.2.2
            rw [(tickShortManageAndDecide_entry cfg row _ p0).2]
            exact le_trans hle hclose
          · show er.2.1 = "SL" ∨ er.2.1 = "TRAILING_SL" ∨ er.2.1 = "TP" ∨ er.2.1 = "EOD" ∨
              er.2.1 = "MAX_HOLD_DAYS"
            exact (tickShortDecide_exit hd).1
      · intro p hp r hr
        rcases stepTickShort_position_src hp with h1 | ⟨p0, hp0, hq⟩
        · exact hpos p h1 r (List.mem_cons_of_mem row hr)
        · subst hq
          rw [(tickShortManageAndDecide_entry cfg row _ p0).2]
          rcases hp0 with hp0 | ⟨_, _, hmk⟩
          · exact hpos p0 hp0 r (List.mem_cons_of_mem row hr)
          · subst hmk
            exact hhead r hr

/-- C7 counterexample: `run_backtest_long cfgC7 barsC7` emits a trade
that is entered and stopped out within the same bar, so its entry and
exit timestamps coincide and strict inequality fails. -/
theorem C7_times_counterexample :
    (run_backtest_long cfgC7 barsC7).trades.map
        (fun t => (t.datetime_open, t.datetime_close, t.exit_reason)) = [(720, 720, "SL")] ∧
    ¬ ((720 : ℚ) < 720) := by
  refine ⟨?_, by norm_num⟩
  rw [runC7_trades]
  simp [tradeC7]

/-- C7 amended: over time-sorted input rows, every trade of the four
single-side simulators opens no later than it closes (entry can coincide
with exit when the position enters and exits within the same bar), and
its exit reason is one of SL, TRAILING_SL, TP, EOD, MAX_HOLD_DAYS. -/
theorem C7_trade_times_amended :
    (∀ (cfg : EngineConfig) (bars : List Bar),
      (annotateRows cfg bars).Pairwise (fun r1 r2 => r1.ts.toMinQ ≤ r2.ts.toMinQ) →
      ∀ t ∈ (run_backtest_long cfg bars).trades,
        t.datetime_open ≤ t.datetime_close ∧
        (t.exit_reason = "SL" ∨ t.exit_reason = "TRAILING_SL" ∨ t.exit_reason = "TP" ∨
          t.exit_reason = "EOD" ∨ t.exit_reason = "MAX_HOLD_DAYS")) ∧
    (∀ (cfg : EngineConfig) (bars : List Bar),
      (annotateRows cfg bars).Pairwise (fun r1 r2 => r1.ts.toMinQ ≤ r2.ts.toMinQ) →
      ∀ t ∈ (run_backtest_short cfg bars).trades,
        t.datetime_open ≤ t.datetime_close ∧
        (t.exit_reason = "SL" ∨ t.exit_reason = "TRAILING_SL" ∨ t.exit_reason = "TP" ∨
          t.exit_reason = "EOD" ∨ t.exit_reason = "MAX_HOLD_DAYS")) ∧
    (∀ (cfg : EngineConfig) (ticks : List Tick) (candles : List Bar),
      (annotateRows cfg candles).Pairwise (fun r1 r2 => r1.ts.toMinQ ≤ r2.ts.toMinQ) →
      ∀ t ∈ (run_tick_backtest_long cfg ticks candles).trades,
        t.datetime_open ≤ t.datetime_close ∧
        (t.exit_reason = "SL" ∨ t.exit_reason = "TRAILING_SL" ∨ t.exit_reason = "TP" ∨
          t.exit_reason = "EOD" ∨ t.exit_reason = "MAX_HOLD_DAYS")) ∧
    (∀ (cfg : EngineConfig) (ticks : List Tick) (candles : List Bar),
      (annotateRows cfg candles).Pairwise (fun r1 r2 => r1.ts.toMinQ ≤ r2.ts.toMinQ) →
      ∀ t ∈ (run_tick_backtest_short cfg ticks candles).trades,
        t.datetime_open ≤ t.datetime_close ∧
        (t.exit_reason = "SL" ∨ t.exit_reason = "TRAILING_SL" ∨ t.exit_reason = "TP" ∨
          t.exit_reason = "EOD" ∨ t.exit_reason = "MAX_HOLD_DAYS")) := by
  refine ⟨?_, ?_, ?_, ?_⟩
  · intro cfg bars hsort
    simp only [run_backtest_long]
    refine foldLong_time_reason cfg (annotateRows cfg bars) (initLongState cfg) hsort ?_ ?_
    · intro t ht
      simp [initLongState] at ht
    · intro p hp
      simp [initLongState] at hp
  · intro cfg bars hsort
    simp only [run_backtest_short]
    refine foldShort_time_reason cfg (annotateRows cfg bars) (initShortState cfg) hsort ?_ ?_
    · intro t ht
      simp [initShortState] at ht
    · intro p hp
      simp [initShortState] at hp
  · intro cfg ticks candles hsort
    simp only [run_tick_backtest_long]
    refine foldTickLong_time_reason cfg ticks (annotateRows cfg candles)
      (initTickLongState cfg) hsort ?_ ?_
    · intro t ht
      simp [initTickLongState] at ht
    · intro p hp
      simp [initTickLongState] at hp
  · intro cfg ticks candles hsort
    simp only [run_tick_backtest_short]
    refine foldTickShort_time_reason cfg ticks (annotateRows cfg candles)
      (initTickShortState cfg) hsort ?_ ?_
    · intro t ht
      simp [initTickShortState] at ht
    · intro p hp
      simp [initTickShortState] at hp

/-- Witness for C7 amended: the bar-level and tick-level LONG runs on the
concrete fixtures, checked on their emitted trades. -/
theorem C7_trade_times_amended_witness :
    (tradeC7.datetime_open ≤ tradeC7.datetime_close ∧
      (tradeC7.exit_reason = "SL" ∨ tradeC7.exit_reason = "TRAILING_SL" ∨
        tradeC7.exit_reason = "TP" ∨ tradeC7.exit_reason = "EOD" ∨
        tradeC7.exit_reason = "MAX_HOLD_DAYS")) ∧
    (tradeT.datetime_open ≤ tradeT.datetime_close ∧
      (tradeT.exit_reason = "SL" ∨ tradeT.exit_reason = "TRAILING_SL" ∨
        tradeT.exit_reason = "TP" ∨ tradeT.exit_reason = "EOD" ∨
        tradeT.exit_reason = "MAX_HOLD_DAYS")) :=
  ⟨C7_trade_times_amended.1 cfgC7 barsC7
      (by rw [annotateC7_eq]
          norm_num [List.pairwise_cons, List.forall_mem_cons, Ts.toMinQ])
      tradeC7 (by rw [runC7_trades]; exact List.mem_singleton_self _),
   C7_trade_times_amended.2.2.1 cfgT ticksT candlesT
      (by rw [annotateT_eq]
          norm_num [List.pairwise_cons, List.forall_mem_cons, Ts.toMinQ])
      tradeT (by rw [runT_trades]; exact List.mem_singleton_self _)⟩
